import Mathlib

/-!
# MaxDome II driver (`maxdomeii.cpp`): angle/tick conversion, command retry, poll cycle,
abort, configuration commands, park

A shallow embedding of the motion-control core of the MaxDome II dome driver.

* C `double` values are exact rationals (`ℚ`); C `int` values are `Int`
  (every quantity that occurs stays far below `2^31`).
* A `while` loop is a recursive function whose termination is proved.
* The serial driver (`driver.X(...)`) and `Connect()` are an oracle `Env`: the
  `k`-th driver call returns `env.driverError k`, the `k`-th reconnect leaves
  `PortFD = env.portAfterConnect k`.  Every driver call is appended to the
  `hwCalls` log of the state, every client notification to `notices`.
-/

namespace MaxDomeII

/-! ## Angle/tick converter -/

/-- The loop `while (nAz < 0) nAz += 360;` of `TicksToAzimuth`. -/
def TicksToAzimuth.raise (nAz : ℚ) : ℚ :=
  if nAz < 0 then TicksToAzimuth.raise (nAz + 360) else nAz
termination_by (⌈-nAz / 360⌉).toNat
decreasing_by
  have h1 : ⌈-(nAz + 360) / 360⌉ = ⌈-nAz / 360⌉ - 1 := by
    rw [← Int.ceil_sub_one]
    congr 1
    ring
  have h2 : 0 < ⌈-nAz / 360⌉ := by
    apply Int.ceil_pos.mpr
    linarith
  rw [h1]
  omega

/-- The loop `while (nAz >= 360) nAz -= 360;` of `TicksToAzimuth`. -/
def TicksToAzimuth.lower (nAz : ℚ) : ℚ :=
  if 360 ≤ nAz then TicksToAzimuth.lower (nAz - 360) else nAz
termination_by (⌊nAz / 360⌋).toNat
decreasing_by
  have h1 : ⌊(nAz - 360) / 360⌋ = ⌊nAz / 360⌋ - 1 := by
    rw [← Int.floor_sub_one]
    congr 1
    ring
  have h2 : 0 < ⌊nAz / 360⌋ := by
    apply Int.floor_pos.mpr
    linarith
  rw [h1]
  omega

/-- Source function `MaxDomeII::TicksToAzimuth`, reading the members `nHomeAzimuth` and
`nTicksPerTurn`:
`nAz = nHomeAzimuth + nTicks * 360.0 / nTicksPerTurn`, then the two wrapping loops. -/
def TicksToAzimuth (nHomeAzimuth : ℚ) (nTicksPerTurn : Int) (nTicks : Int) : ℚ :=
  let nAz : ℚ := nHomeAzimuth + (nTicks : ℚ) * 360 / (nTicksPerTurn : ℚ)
  TicksToAzimuth.lower (TicksToAzimuth.raise nAz)

/-- The loop `while (nTicks > nTicksPerTurn) nTicks -= nTicksPerTurn;` of
`AzimuthToTicks`.  The test is `>`, as in the source.  With
`nTicksPerTurn <= 0` the source loop does not end; the recursion is taken only
for a positive `nTicksPerTurn`, which every accepted configuration has. -/
def AzimuthToTicks.lower (nTicksPerTurn : Int) (nTicks : Int) : Int :=
  if nTicks > nTicksPerTurn ∧ 0 < nTicksPerTurn then
    AzimuthToTicks.lower nTicksPerTurn (nTicks - nTicksPerTurn)
  else nTicks
termination_by nTicks.toNat
decreasing_by omega

/-- The loop `while (nTicks < 0) nTicks += nTicksPerTurn;` of `AzimuthToTicks`
(taken only for a positive `nTicksPerTurn`, see `AzimuthToTicks.lower`). -/
def AzimuthToTicks.raise (nTicksPerTurn : Int) (nTicks : Int) : Int :=
  if nTicks < 0 ∧ 0 < nTicksPerTurn then
    AzimuthToTicks.raise nTicksPerTurn (nTicks + nTicksPerTurn)
  else nTicks
termination_by (-nTicks).toNat
decreasing_by omega

/-- Source function `MaxDomeII::AzimuthToTicks`:
`nTicks = floor(0.5 + (nAzimuth - nHomeAzimuth) * nTicksPerTurn / 360.0)`,
then the two wrapping loops. -/
def AzimuthToTicks (nHomeAzimuth : ℚ) (nTicksPerTurn : Int) (nAzimuth : ℚ) : Int :=
  let nTicks : Int := ⌊(1 / 2 : ℚ) + (nAzimuth - nHomeAzimuth) * (nTicksPerTurn : ℚ) / 360⌋
  AzimuthToTicks.raise nTicksPerTurn (AzimuthToTicks.lower nTicksPerTurn nTicks)

/-- Source function `MaxDomeII::AzimuthDistance`: `nDif = abs(nPos1 - nPos2)`, replaced by
`nTicksPerTurn - nDif` when `nDif > nTicksPerTurn / 2` (C integer division,
which truncates). -/
def AzimuthDistance (nTicksPerTurn : Int) (nPos1 nPos2 : Int) : Int :=
  let nDif : Int := |nPos1 - nPos2|
  if nDif > Int.tdiv nTicksPerTurn 2 then nTicksPerTurn - nDif else nDif

/-! ## Data model -/

/-- Modelled from the spec: the property states of the INDI headers (absent from
`maxdomeii.cpp`), the publicState `Idle, Busy, Ok, Alert` of the spec. -/
inductive IPState
  | IPS_IDLE
  | IPS_OK
  | IPS_BUSY
  | IPS_ALERT
  deriving DecidableEq, Repr

/-- Modelled from the spec: the switch states `ISS_OFF`, `ISS_ON` of the INDI
headers, the on/off value of a commanded-direction flag. -/
inductive ISState
  | ISS_OFF
  | ISS_ON
  deriving DecidableEq, Repr

/-- Modelled from the spec: the raw shutter status `ShStatus` of
`maxdomeiidriver.h` (`Closed, Opening, Open, Closing, Error, Aborted`);
`SS_UNKNOWN` is any other value, which the `switch` of `TimerHit` sends to
`default:` together with `SS_ABORTED`. -/
inductive ShStatus
  | SS_CLOSED
  | SS_OPENING
  | SS_OPEN
  | SS_CLOSING
  | SS_ABORTED
  | SS_ERROR
  | SS_UNKNOWN
  deriving DecidableEq, Repr

/-- Modelled from the spec: the raw azimuth status `AzStatus` of
`maxdomeiidriver.h` (`Idle, Moving, Error`, with the case labels `AS_IDLE`,
`AS_IDLE2`, `AS_MOVING_WE`, `AS_MOVING_EW`, `AS_ERROR` of `TimerHit`);
`AS_UNKNOWN` is any other value (`default:`). -/
inductive AzStatus
  | AS_IDLE
  | AS_MOVING_WE
  | AS_MOVING_EW
  | AS_IDLE2
  | AS_ERROR
  | AS_UNKNOWN
  deriving DecidableEq, Repr

/-- Modelled from the spec: the two rotation directions of `maxdomeiidriver.h`;
`MAXDOMEII_EW_DIR` is the "increasing" and `MAXDOMEII_WE_DIR` the "decreasing"
direction of `MoveAbsolute`. -/
inductive Direction
  | MAXDOMEII_EW_DIR
  | MAXDOMEII_WE_DIR
  deriving DecidableEq, Repr

/-- Modelled from the spec: the argument of `ControlShutter(open|close)`. -/
inductive ShutterOperation
  | SHUTTER_OPEN
  | SHUTTER_CLOSE
  deriving DecidableEq, Repr

/-- A call of the serial driver (`driver.X(...)`), with its arguments. -/
inductive HwCall
  | Status
  | GotoAzimuth (nDir : Direction) (nTicks : Int)
  | AbortAzimuth
  | AbortShutter
  | HomeAzimuth
  | OpenShutter
  | OpenUpperShutterOnly
  | CloseShutter
  | SetPark (nParkOnShutter : Int) (nTicks : Int)
  | SetTicksPerTurn (nTicks : Int)
  deriving DecidableEq, Repr

/-- The property vectors the driver publishes with `IDSetSwitch` / `IDSetNumber`. -/
inductive Property
  | DomeShutterSP
  | DomeAbsPosNP
  | DomeParamNP
  | HomeSP
  | TicksPerTurnNP
  | HomeAzimuthNP
  | WatchDogNP
  | ShutterOperationAzimuthNP
  | ShutterConflictSP
  | ShutterModeSP
  deriving DecidableEq, Repr

/-- One `IDSetSwitch(&p, msg)` or `IDSetNumber(&p, msg)`; a `nullptr` message is
the empty string. -/
structure Notice where
  prop : Property
  msg : String
  deriving DecidableEq, Repr

/-- The values `driver.Status` writes through its four pointers. -/
structure StatusReply where
  shutterSt : ShStatus
  nAzimuthStatus : AzStatus
  nCurrentTicks : Int
  nHomePosition : Int

/-- The hardware and the link, as an oracle: `driverError k` is the error code
returned by the `k`-th driver call (0 is success, -5 is link lost),
`statusReply k` the values it writes when it is a status query, and
`portAfterConnect k` the value of `PortFD` after the `k`-th `Connect()`. -/
structure Env where
  driverError : Nat → Int
  statusReply : Nat → StatusReply
  portAfterConnect : Nat → Int

/-- The driver instance: the members of `MaxDomeII` used by `maxdomeii.cpp`, the
fields of the INDI properties it reads and writes (`X_s` is `X.s`, `XN_value` is
`XN[0].value`, `XS0`/`XS1` are `XS[0].s`/`XS[1].s`), and the logs of driver
calls, reconnects, notifications, `SetParked` calls and `SetTimer` calls. -/
structure Dome where
  nTicksPerTurn : Int
  nCurrentTicks : Int
  nShutterOperationPosition : ℚ
  nHomeAzimuth : ℚ
  nHomeTicks : Int
  nMoveDomeBeforeOperateShutter : Int
  nTimeSinceShutterStart : Int
  nTimeSinceAzimuthStart : Int
  nTargetAzimuth : Int
  nTimeSinceLastCommunication : Int
  DomeShutterSP_s : IPState
  DomeShutterS0 : ISState
  DomeShutterS1 : ISState
  DomeAbsPosNP_s : IPState
  DomeAbsPosN_value : ℚ
  HomeSP_s : IPState
  HomeS0 : ISState
  ParkSP_s : IPState
  ParkS0 : ISState
  ParkS1 : ISState
  ShutterModeSP_s : IPState
  ShutterModeS0 : ISState
  ShutterModeS1 : ISState
  ShutterConflictSP_s : IPState
  ShutterConflictS0 : ISState
  ShutterConflictS1 : ISState
  TicksPerTurnNP_s : IPState
  TicksPerTurnN_value : ℚ
  HomeAzimuthNP_s : IPState
  HomeAzimuthN_value : ℚ
  WatchDogNP_s : IPState
  WatchDogN_value : ℚ
  ShutterOperationAzimuthNP_s : IPState
  ShutterOperationAzimuthN_value : ℚ
  IsParked : Bool
  connected : Bool
  PortFD : Int
  nConnect : Nat
  hwCalls : List HwCall
  notices : List Notice
  setParkedCalls : List (Bool × Nat)
  nSetTimer : Nat
  deriving DecidableEq

/-- The constructor `MaxDomeII::MaxDomeII()` followed by `initProperties()`: the member values
assigned by the constructor and the property values filled in
`initProperties`.  The fields owned by the INDI base class (shutter, position
and park properties, connection) are not initialised in `maxdomeii.cpp`; here
they are idle/off, connected, with an open port and empty logs. -/
def newMaxDomeII : Dome where
  nTicksPerTurn := 360
  nCurrentTicks := 0
  nShutterOperationPosition := 0
  nHomeAzimuth := 0
  nHomeTicks := 0
  nMoveDomeBeforeOperateShutter := 0
  nTimeSinceShutterStart := -1
  nTimeSinceAzimuthStart := -1
  nTargetAzimuth := -1
  nTimeSinceLastCommunication := 0
  DomeShutterSP_s := IPState.IPS_IDLE
  DomeShutterS0 := ISState.ISS_OFF
  DomeShutterS1 := ISState.ISS_OFF
  DomeAbsPosNP_s := IPState.IPS_IDLE
  DomeAbsPosN_value := 0
  HomeSP_s := IPState.IPS_IDLE
  HomeS0 := ISState.ISS_OFF
  ParkSP_s := IPState.IPS_IDLE
  ParkS0 := ISState.ISS_OFF
  ParkS1 := ISState.ISS_OFF
  ShutterModeSP_s := IPState.IPS_IDLE
  ShutterModeS0 := ISState.ISS_ON
  ShutterModeS1 := ISState.ISS_OFF
  ShutterConflictSP_s := IPState.IPS_IDLE
  ShutterConflictS0 := ISState.ISS_ON
  ShutterConflictS1 := ISState.ISS_OFF
  TicksPerTurnNP_s := IPState.IPS_IDLE
  TicksPerTurnN_value := 360
  HomeAzimuthNP_s := IPState.IPS_IDLE
  HomeAzimuthN_value := 0
  WatchDogNP_s := IPState.IPS_IDLE
  WatchDogN_value := 0
  ShutterOperationAzimuthNP_s := IPState.IPS_IDLE
  ShutterOperationAzimuthN_value := 0
  IsParked := false
  connected := true
  PortFD := 0
  nConnect := 0
  hwCalls := []
  notices := []
  setParkedCalls := []
  nSetTimer := 0

/-! ## External collaborators -/

/-- One call `driver.X(...)`: the call is logged and returns the next error code
of the oracle. -/
def driverCall (env : Env) (c : HwCall) (s : Dome) : Int × Dome :=
  (env.driverError s.hwCalls.length, { s with hwCalls := s.hwCalls ++ [c] })

/-- Modelled from the spec: `Connect()` of the INDI base class, the reconnect
attempt of the command retrier; it leaves `PortFD` as the oracle says. -/
def Connect (env : Env) (s : Dome) : Dome :=
  { s with PortFD := env.portAfterConnect s.nConnect, nConnect := s.nConnect + 1 }

/-- The calls `IDSetSwitch(&p, msg)` / `IDSetNumber(&p, msg)`: the notification is logged. -/
def IDSet (p : Property) (msg : String) (s : Dome) : Dome :=
  { s with notices := s.notices ++ [⟨p, msg⟩] }

/-- Modelled from the spec: `setDomeState(DOME_SYNCED)` of the INDI base class,
the arrival confirmation: the azimuth public state becomes Ok and is published. -/
def setDomeState_DOME_SYNCED (s : Dome) : Dome :=
  IDSet Property.DomeAbsPosNP "" { s with DomeAbsPosNP_s := IPState.IPS_OK }

/-- Modelled from the spec: `SetParked(b)` of the INDI base class sets the
persisted parked flag; the call is logged with the number of driver calls made
before it, which tells its place among the hardware commands. -/
def SetParked (b : Bool) (s : Dome) : Dome :=
  { s with IsParked := b, setParkedCalls := s.setParkedCalls ++ [(b, s.hwCalls.length)] }

/-- The call `SetTimer(getCurrentPollingPeriod())`: the next poll is scheduled. -/
def SetTimer (s : Dome) : Dome :=
  { s with nSetTimer := s.nSetTimer + 1 }

/-! ## Command retrier -/

/-- Source function `MaxDomeII::handle_driver_error(&error, &nRetry)`: returns the new `nRetry`.
`nRetry` is a C `int` that every caller initialises to 3 or 1 and that is
decremented only while positive, hence a `Nat`. -/
def handle_driver_error (env : Env) (error : Int) (nRetry : Nat) (s : Dome) : Nat × Dome :=
  let nRetry := nRetry - 1
  if error = 0 then
    (0, s)
  else if error = -5 then
    let s := Connect env s
    if s.PortFD < 0 then (0, s) else (nRetry, s)
  else
    (nRetry, s)

/-- The values a retry loop leaves: the variables `error` and `nRetry`, and the
driver instance. -/
structure RetryResult where
  error : Int
  nRetry : Nat
  dome : Dome

/-- The loop `while (nRetry) { error = driver.X(...); handle_driver_error(&error, &nRetry); }`
for the driver call `c`, entered with the current values of `nRetry` and `error`. -/
def retryLoop (env : Env) (c : HwCall) (nRetry : Nat) (error : Int) (s : Dome) : RetryResult :=
  if h : nRetry = 0 then
    ⟨error, nRetry, s⟩
  else
    let r := driverCall env c s
    retryLoop env c (handle_driver_error env r.1 nRetry r.2).1 r.1
      (handle_driver_error env r.1 nRetry r.2).2
termination_by nRetry
decreasing_by
  unfold handle_driver_error
  simp only []
  split
  · exact Nat.pos_of_ne_zero h
  · split
    · split
      · exact Nat.pos_of_ne_zero h
      · exact Nat.sub_one_lt h
    · exact Nat.sub_one_lt h

/-! ## Operation sequencer and poll cycle -/

/-- Source function `MaxDomeII::ControlShutter(operation)`: the close, open-full or
open-upper-only command in a retry loop of budget 3; the shutter timer is set
to 0 whatever the outcome; Busy without error, Alert with one. -/
def ControlShutter (env : Env) (operation : ShutterOperation) (s : Dome) : IPState × Dome :=
  if operation = ShutterOperation.SHUTTER_CLOSE then
    let r := retryLoop env HwCall.CloseShutter 3 0 s
    let s := { r.dome with nTimeSinceShutterStart := 0 }
    if r.error ≠ 0 then (IPState.IPS_ALERT, s) else (IPState.IPS_BUSY, s)
  else if s.ShutterModeS0 = ISState.ISS_ON then
    let r := retryLoop env HwCall.OpenShutter 3 0 s
    let s := { r.dome with nTimeSinceShutterStart := 0 }
    if r.error ≠ 0 then (IPState.IPS_ALERT, s) else (IPState.IPS_BUSY, s)
  else
    let r := retryLoop env HwCall.OpenUpperShutterOnly 3 0 s
    let s := { r.dome with nTimeSinceShutterStart := 0 }
    if r.error ≠ 0 then (IPState.IPS_ALERT, s) else (IPState.IPS_BUSY, s)

/-- The watchdog block of `TimerHit`: the counter is incremented; when the
watchdog value is positive and at most the counter, and the polled shutter
status is not `SS_CLOSED`, `ControlShutter(SHUTTER_CLOSE)` is called, its result
stored in `DomeShutterSP.s` and published. -/
def TimerHit.watchdog (env : Env) (shutterSt : ShStatus) (s : Dome) : Dome :=
  let s := { s with nTimeSinceLastCommunication := s.nTimeSinceLastCommunication + 1 }
  if s.WatchDogN_value > 0 ∧ s.WatchDogN_value ≤ (s.nTimeSinceLastCommunication : ℚ) then
    if shutterSt ≠ ShStatus.SS_CLOSED then
      let r := ControlShutter env ShutterOperation.SHUTTER_CLOSE s
      IDSet Property.DomeShutterSP "Closing shutter due watch dog"
        { r.2 with DomeShutterSP_s := r.1 }
    else s
  else s

/-- The `switch (shutterSt)` of `TimerHit`. -/
def TimerHit.shutter (shutterSt : ShStatus) (s : Dome) : Dome :=
  match shutterSt with
  | ShStatus.SS_CLOSED =>
    if s.DomeShutterS1 = ISState.ISS_ON then
      if s.DomeShutterSP_s = IPState.IPS_BUSY ∨ s.DomeShutterSP_s = IPState.IPS_ALERT then
        IDSet Property.DomeShutterSP "Shutter is closed"
          { s with DomeShutterSP_s := IPState.IPS_OK, nTimeSinceShutterStart := -1 }
      else s
    else if s.nTimeSinceShutterStart ≥ 0 then
      if s.nTimeSinceShutterStart ≥ 4 then
        IDSet Property.DomeShutterSP "Shutter still closed"
          { s with DomeShutterSP_s := IPState.IPS_ALERT }
      else s
    else
      IDSet Property.DomeShutterSP "Unexpected shutter closed"
        { s with DomeShutterSP_s := IPState.IPS_IDLE,
                 DomeShutterS1 := ISState.ISS_ON, DomeShutterS0 := ISState.ISS_OFF }
  | ShStatus.SS_OPENING =>
    if s.DomeShutterS0 = ISState.ISS_OFF then
      IDSet Property.DomeShutterSP "Unexpected shutter opening"
        { s with DomeShutterSP_s := IPState.IPS_ALERT,
                 DomeShutterS1 := ISState.ISS_OFF, DomeShutterS0 := ISState.ISS_OFF }
    else if s.nTimeSinceShutterStart < 0 then
      IDSet Property.DomeShutterSP "Unexpected shutter opening"
        { s with DomeShutterSP_s := IPState.IPS_ALERT, nTimeSinceShutterStart := 0 }
    else if s.DomeShutterSP_s = IPState.IPS_ALERT then
      IDSet Property.DomeShutterSP "Shutter is opening"
        { s with DomeShutterSP_s := IPState.IPS_BUSY }
    else s
  | ShStatus.SS_OPEN =>
    if s.DomeShutterS0 = ISState.ISS_ON then
      if s.DomeShutterSP_s = IPState.IPS_BUSY ∨ s.DomeShutterSP_s = IPState.IPS_ALERT then
        IDSet Property.DomeShutterSP "Shutter is open"
          { s with DomeShutterSP_s := IPState.IPS_OK, nTimeSinceShutterStart := -1 }
      else s
    else if s.nTimeSinceShutterStart ≥ 0 then
      if s.nTimeSinceShutterStart ≥ 4 then
        IDSet Property.DomeShutterSP "Shutter still open"
          { s with DomeShutterSP_s := IPState.IPS_ALERT }
      else s
    else
      IDSet Property.DomeShutterSP "Unexpected shutter open"
        { s with DomeShutterSP_s := IPState.IPS_IDLE,
                 DomeShutterS1 := ISState.ISS_ON, DomeShutterS0 := ISState.ISS_OFF }
  | ShStatus.SS_CLOSING =>
    if s.DomeShutterS1 = ISState.ISS_OFF then
      IDSet Property.DomeShutterSP "Unexpected shutter closing"
        { s with DomeShutterSP_s := IPState.IPS_ALERT,
                 DomeShutterS1 := ISState.ISS_ON, DomeShutterS0 := ISState.ISS_OFF }
    else if s.nTimeSinceShutterStart < 0 then
      IDSet Property.DomeShutterSP "Unexpected shutter closing"
        { s with DomeShutterSP_s := IPState.IPS_ALERT, nTimeSinceShutterStart := 0 }
    else if s.DomeShutterSP_s = IPState.IPS_ALERT then
      IDSet Property.DomeShutterSP "Shutter is closing"
        { s with DomeShutterSP_s := IPState.IPS_BUSY }
    else s
  | ShStatus.SS_ERROR =>
    IDSet Property.DomeShutterSP "Shutter error"
      { s with DomeShutterSP_s := IPState.IPS_ALERT,
               DomeShutterS1 := ISState.ISS_OFF, DomeShutterS0 := ISState.ISS_OFF }
  | _ =>
    if s.nTimeSinceShutterStart ≥ 0 then
      IDSet Property.DomeShutterSP "Unknown shutter status"
        { s with DomeShutterSP_s := IPState.IPS_ALERT,
                 DomeShutterS1 := ISState.ISS_OFF, DomeShutterS0 := ISState.ISS_OFF,
                 nTimeSinceShutterStart := -1 }
    else s

/-- The position refresh of `TimerHit`: `nAz = TicksToAzimuth(nCurrentTicks)` is
stored and published only when it differs from `DomeAbsPosN[0].value`. -/
def TimerHit.position (s : Dome) : Dome :=
  let nAz := TicksToAzimuth s.nHomeAzimuth s.nTicksPerTurn s.nCurrentTicks
  if s.DomeAbsPosN_value ≠ nAz then
    IDSet Property.DomeAbsPosNP "" { s with DomeAbsPosN_value := nAz }
  else s

/-- The arrival branch of `TimerHit` (status idle, timer above 3, target absent
or within 3 ticks): confirmation of the move, of a pending home, and of a
pending park or unpark. -/
def TimerHit.arrival (s : Dome) : Dome :=
  let s :=
    if s.DomeAbsPosNP_s ≠ IPState.IPS_OK then
      { setDomeState_DOME_SYNCED s with nTimeSinceAzimuthStart := -1 }
    else s
  let s :=
    if s.HomeS0 = ISState.ISS_ON then
      IDSet Property.HomeSP "Dome is homed"
        { s with HomeS0 := ISState.ISS_OFF, HomeSP_s := IPState.IPS_OK,
                 nTimeSinceAzimuthStart := -1 }
    else s
  if s.ParkSP_s ≠ IPState.IPS_OK then
    let s := if s.ParkS0 = ISState.ISS_ON then SetParked true s else s
    if s.ParkS1 = ISState.ISS_ON then SetParked false s else s
  else s

/-- The `switch (nAzimuthStatus)` of `TimerHit`. -/
def TimerHit.azimuth (nAzimuthStatus : AzStatus) (s : Dome) : Dome :=
  match nAzimuthStatus with
  | AzStatus.AS_IDLE | AzStatus.AS_IDLE2 =>
    if s.nTimeSinceAzimuthStart > 3 then
      if s.nTargetAzimuth ≥ 0 ∧
          AzimuthDistance s.nTicksPerTurn s.nTargetAzimuth s.nCurrentTicks > 3 then
        IDSet Property.DomeAbsPosNP "Could not position right"
          { s with DomeAbsPosNP_s := IPState.IPS_ALERT, nTimeSinceAzimuthStart := -1 }
      else TimerHit.arrival s
    else s
  | AzStatus.AS_MOVING_WE | AzStatus.AS_MOVING_EW =>
    if s.nTimeSinceAzimuthStart < 0 then
      IDSet Property.DomeAbsPosNP "Unexpected dome moving"
        { s with nTimeSinceAzimuthStart := 0, nTargetAzimuth := -1,
                 DomeAbsPosNP_s := IPState.IPS_ALERT }
    else s
  | AzStatus.AS_ERROR =>
    if s.nTimeSinceAzimuthStart ≥ 0 then
      IDSet Property.DomeAbsPosNP "Dome Error"
        { s with DomeAbsPosNP_s := IPState.IPS_ALERT, nTimeSinceAzimuthStart := -1,
                 nTargetAzimuth := -1 }
    else s
  | AzStatus.AS_UNKNOWN => s

/-- The two timer increments of `TimerHit`: a movement timer advances only while
it is outstanding (`>= 0`). -/
def TimerHit.timers (s : Dome) : Dome :=
  let s :=
    if s.nTimeSinceShutterStart ≥ 0 then
      { s with nTimeSinceShutterStart := s.nTimeSinceShutterStart + 1 }
    else s
  if s.nTimeSinceAzimuthStart ≥ 0 then
    { s with nTimeSinceAzimuthStart := s.nTimeSinceAzimuthStart + 1 }
  else s

/-- Source function `MaxDomeII::TimerHit`, one poll cycle.  The status query is one driver call
followed by `handle_driver_error` with `nRetry = 1` (no loop).  The values the
query writes (`shutterSt`, `nAzimuthStatus`, `nCurrentTicks`) are those of the
oracle, also when the query fails.  `SetTimer` is reached only on the success
path: the failure path returns before it. -/
def TimerHit (env : Env) (s : Dome) : Dome :=
  if s.connected = false then s
  else
    let reply := env.statusReply s.hwCalls.length
    let r := driverCall env HwCall.Status s
    let nError := r.1
    let s := { r.2 with nCurrentTicks := reply.nCurrentTicks }
    let s := (handle_driver_error env nError 1 s).2
    let s := TimerHit.timers s
    let s := TimerHit.watchdog env reply.shutterSt s
    if nError = 0 then
      let s := TimerHit.shutter reply.shutterSt s
      let s := TimerHit.position s
      let s := TimerHit.azimuth reply.nAzimuthStatus s
      SetTimer s
    else s

/-- The direction choice of `MoveAbs` ("take the shortest path"). -/
def MoveAbs.nDir (currAZ newAZ : ℚ) : Direction :=
  if newAZ > currAZ then
    if newAZ - currAZ > 180 then Direction.MAXDOMEII_WE_DIR else Direction.MAXDOMEII_EW_DIR
  else
    if currAZ - newAZ > 180 then Direction.MAXDOMEII_EW_DIR else Direction.MAXDOMEII_WE_DIR

/-- Source function `MaxDomeII::MoveAbs(newAZ)`: direction from the published position
`DomeAbsPosN[0].value`, target ticks from `AzimuthToTicks`, `GotoAzimuth` in a
retry loop of budget 3 (`error` is uninitialised before the loop, which runs at
least once); Alert on error, else target and timer are set and Busy returned. -/
def MoveAbs (env : Env) (newAZ : ℚ) (s : Dome) : IPState × Dome :=
  let currAZ := s.DomeAbsPosN_value
  let nDir := MoveAbs.nDir currAZ newAZ
  let newPos := AzimuthToTicks s.nHomeAzimuth s.nTicksPerTurn newAZ
  let r := retryLoop env (HwCall.GotoAzimuth nDir newPos) 3 0 s
  if r.error ≠ 0 then
    (IPState.IPS_ALERT, r.dome)
  else
    (IPState.IPS_BUSY, { r.dome with nTargetAzimuth := newPos, nTimeSinceAzimuthStart := 0 })

/-- A user command reaching `ISNewNumber` or `ISNewSwitch` for this device:
before anything else, `nTimeSinceLastCommunication = 0`. -/
def userCommandReceived (s : Dome) : Dome :=
  { s with nTimeSinceLastCommunication := 0 }

/-- A run of `n` consecutive poll cycles with no user command in between. -/
def pollCycles (env : Env) : Nat → Dome → Dome
  | 0, s => s
  | n + 1, s => pollCycles env n (TimerHit env s)

/-- Number of `driver.CloseShutter()` calls in a log of driver calls. -/
def closeCalls (l : List HwCall) : Nat :=
  l.count HwCall.CloseShutter

/-- Number of "Closing shutter due watch dog" notifications in a log, one per
watchdog firing. -/
def watchdogFirings (l : List Notice) : Nat :=
  l.count ⟨Property.DomeShutterSP, "Closing shutter due watch dog"⟩

/-- The driver instance `t` differs from `s` at most in the link fields: the port,
the reconnect count and the log of driver calls. -/
def Dome.sameButLink (s t : Dome) : Prop :=
  t = { s with PortFD := t.PortFD, nConnect := t.nConnect, hwCalls := t.hwCalls }

instance Dome.decSameButLink (s t : Dome) : Decidable (s.sameButLink t) :=
  inferInstanceAs (Decidable (t = _))

/-- What the watchdog analysis observes of a driver instance: the connection
flag, the watchdog value, the cycle counter and the number of watchdog firings. -/
def Dome.watchdogView (s : Dome) : Bool × ℚ × Int × Nat :=
  (s.connected, s.WatchDogN_value, s.nTimeSinceLastCommunication, watchdogFirings s.notices)

/-- The remainder of `x` modulo 360 in `[0, 360)`, on rationals: the angular
travel from one azimuth to another in a given direction. -/
def mod360 (x : ℚ) : ℚ :=
  x - 360 * (⌊x / 360⌋ : ℚ)

/-- A hardware on which every driver call succeeds, the shutter is reported
open and the dome idle at tick 0. -/
def envShutterOpen : Env where
  driverError := fun _ => 0
  statusReply := fun _ => ⟨ShStatus.SS_OPEN, AzStatus.AS_IDLE, 0, 0⟩
  portAfterConnect := fun _ => 0

/-- The freshly constructed driver with the watchdog timeout set to 5 cycles. -/
def watchdog5 : Dome :=
  { newMaxDomeII with WatchDogN_value := 5 }

/-- A hardware whose link is lost for good: every driver call returns -5 and
every reconnect leaves the port closed. -/
def envLinkDead : Env where
  driverError := fun _ => -5
  statusReply := fun _ => ⟨ShStatus.SS_OPEN, AzStatus.AS_IDLE, 0, 0⟩
  portAfterConnect := fun _ => -1

/-- A hardware on which every driver call fails with the error code -3 (not the
link-lost code) and every reconnect succeeds. -/
def envAlwaysFails : Env where
  driverError := fun _ => -3
  statusReply := fun _ => ⟨ShStatus.SS_OPEN, AzStatus.AS_IDLE, 0, 0⟩
  portAfterConnect := fun _ => 0

/-- The freshly constructed driver with the published azimuth at 10 degrees. -/
def domeAt10 : Dome :=
  { newMaxDomeII with DomeAbsPosN_value := 10 }

/-! ## Abort, configuration commands, unpark -/

/-- Source function `MaxDomeII::Abort`.  The variables `error` and `nRetry` are
declared once (`error = 0`, `nRetry = 3`) and shared by the two loops: the
`AbortShutter` loop is entered with the `nRetry` the `AbortAzimuth` loop left. -/
def Abort (env : Env) (s : Dome) : Bool × Dome :=
  let r1 := retryLoop env HwCall.AbortAzimuth 3 0 s
  let r2 := retryLoop env HwCall.AbortShutter r1.nRetry r1.error r1.dome
  let s := IDSet Property.DomeAbsPosNP "" { r2.dome with DomeAbsPosNP_s := IPState.IPS_IDLE }
  if s.DomeShutterSP_s = IPState.IPS_BUSY then
    (false, IDSet Property.DomeShutterSP "Shutter operation aborted."
      { s with DomeShutterSP_s := IPState.IPS_ALERT })
  else
    (true, s)

/-- The conversion of a C `double` to `int`: truncation toward zero. -/
def truncToInt (x : ℚ) : Int :=
  if 0 ≤ x then ⌊x⌋ else ⌈x⌉

/-- The `min` and `max` of a number property, the range `IUFillNumber` declares. -/
structure NumberRange where
  min : ℚ
  max : ℚ

/-- The declared ranges of the four number properties `ISNewNumber` handles. -/
structure NumberRanges where
  HomeAzimuthN : NumberRange
  TicksPerTurnN : NumberRange
  ShutterOperationAzimuthN : NumberRange
  WatchDogN : NumberRange

/-- The ranges `initProperties` declares with `IUFillNumber`: home azimuth
`0..360`, ticks per turn `100..2000`, shutter operation azimuth `0..360`,
watchdog `0..3600`. -/
def initProperties_ranges : NumberRanges where
  HomeAzimuthN := ⟨0, 360⟩
  TicksPerTurnN := ⟨100, 2000⟩
  ShutterOperationAzimuthN := ⟨0, 360⟩
  WatchDogN := ⟨0, 3600⟩

/-- The `name` argument of `ISNewNumber`, for the four properties it handles
itself (every other name is passed on to `INDI::Dome::ISNewNumber`). -/
inductive NumberName
  | TicksPerTurn
  | HomeAzimuth
  | WatchDog
  | ShutterOperationAzimuth
  deriving DecidableEq, Repr

/-- The property vector of a number name. -/
def NumberName.property : NumberName → Property
  | NumberName.TicksPerTurn => Property.TicksPerTurnNP
  | NumberName.HomeAzimuth => Property.HomeAzimuthNP
  | NumberName.WatchDog => Property.WatchDogNP
  | NumberName.ShutterOperationAzimuth => Property.ShutterOperationAzimuthNP

/-- The assignment `XNP.s = st` for the property of a number name. -/
def setNumberState (p : NumberName) (st : IPState) (s : Dome) : Dome :=
  match p with
  | NumberName.TicksPerTurn => { s with TicksPerTurnNP_s := st }
  | NumberName.HomeAzimuth => { s with HomeAzimuthNP_s := st }
  | NumberName.WatchDog => { s with WatchDogNP_s := st }
  | NumberName.ShutterOperationAzimuth => { s with ShutterOperationAzimuthNP_s := st }

/-- The assignment `XNP.np[0].value = v` for the property of a number name. -/
def setNumberValue (p : NumberName) (v : ℚ) (s : Dome) : Dome :=
  match p with
  | NumberName.TicksPerTurn => { s with TicksPerTurnN_value := v }
  | NumberName.HomeAzimuth => { s with HomeAzimuthN_value := v }
  | NumberName.WatchDog => { s with WatchDogN_value := v }
  | NumberName.ShutterOperationAzimuth => { s with ShutterOperationAzimuthN_value := v }

/-- Modelled from the spec: `IUUpdateNumber` of the INDI library (absent from
`maxdomeii.cpp`), the host-side validation of a requested value against the
declared range of the property: a value outside the range is rejected (negative
result, control set to Alert, nothing else changed), a value inside is stored in
the property and the result is 0. -/
def IUUpdateNumber (r : NumberRange) (p : NumberName) (v : ℚ) (s : Dome) : Int × Dome :=
  if v < r.min ∨ v > r.max then
    (-1, IDSet p.property "Invalid range" (setNumberState p IPState.IPS_ALERT s))
  else
    (0, setNumberValue p v s)

/-- Source function `MaxDomeII::ConfigureShutterOperation(nMDBOS, ShutterOperationAzimuth)`. -/
def ConfigureShutterOperation (env : Env) (nMDBOS : Int) (ShutterOperationAzimuth : ℚ)
    (s : Dome) : IPState × Dome :=
  if ShutterOperationAzimuth ≠ s.nShutterOperationPosition ∨
      nMDBOS ≠ s.nMoveDomeBeforeOperateShutter then
    let r := retryLoop env
      (HwCall.SetPark nMDBOS (AzimuthToTicks s.nHomeAzimuth s.nTicksPerTurn ShutterOperationAzimuth))
      3 0 s
    if r.error ≥ 0 then
      (IPState.IPS_OK,
        { r.dome with nShutterOperationPosition := ShutterOperationAzimuth,
                      nMoveDomeBeforeOperateShutter := nMDBOS })
    else
      (IPState.IPS_ALERT, r.dome)
  else
    (IPState.IPS_OK, s)

/-- Source function `MaxDomeII::ISNewNumber`, for a call addressed to this device
(`dev` is the device name) that carries the single element of one of the four
properties handled here: `name` is the property and `nVal` is `values[0]`.
`ranges` are the declared ranges `IUUpdateNumber` checks. -/
def ISNewNumber (env : Env) (ranges : NumberRanges) (name : NumberName) (nVal : ℚ)
    (s : Dome) : Bool × Dome :=
  let s := userCommandReceived s
  match name with
  | NumberName.TicksPerTurn =>
    let u := IUUpdateNumber ranges.TicksPerTurnN NumberName.TicksPerTurn nVal s
    if u.1 < 0 then (false, u.2)
    else if nVal ≥ 100 ∧ nVal ≤ 2000 then
      let r := retryLoop env (HwCall.SetTicksPerTurn (truncToInt nVal)) 3 0 u.2
      if r.error ≥ 0 then
        let s := { r.dome with nTicksPerTurn := truncToInt nVal }
        let s := { s with
          nHomeTicks := ⌊(1 / 2 : ℚ) + s.nHomeAzimuth * (s.nTicksPerTurn : ℚ) / 360⌋,
          TicksPerTurnNP_s := IPState.IPS_OK,
          TicksPerTurnN_value := nVal }
        (true, IDSet Property.TicksPerTurnNP "New Ticks Per Turn set" s)
      else
        (false, IDSet Property.TicksPerTurnNP ""
          { r.dome with TicksPerTurnNP_s := IPState.IPS_ALERT })
    else
      (false, IDSet Property.TicksPerTurnNP "Invalid Ticks Per Turn"
        { u.2 with TicksPerTurnNP_s := IPState.IPS_ALERT })
  | NumberName.HomeAzimuth =>
    let u := IUUpdateNumber ranges.HomeAzimuthN NumberName.HomeAzimuth nVal s
    if u.1 < 0 then (false, u.2)
    else if nVal ≥ 0 ∧ nVal ≤ 360 then
      let s := { u.2 with nHomeAzimuth := nVal }
      let s := { s with
        nHomeTicks := ⌊(1 / 2 : ℚ) + s.nHomeAzimuth * (s.nTicksPerTurn : ℚ) / 360⌋,
        HomeAzimuthNP_s := IPState.IPS_OK,
        HomeAzimuthN_value := nVal }
      (true, IDSet Property.HomeAzimuthNP "New home azimuth set" s)
    else
      (false, IDSet Property.HomeAzimuthNP "Invalid home azimuth"
        { u.2 with HomeAzimuthNP_s := IPState.IPS_ALERT })
  | NumberName.WatchDog =>
    let u := IUUpdateNumber ranges.WatchDogN NumberName.WatchDog nVal s
    if u.1 < 0 then (false, u.2)
    else if nVal ≥ 0 ∧ nVal ≤ 3600 then
      (true, IDSet Property.WatchDogNP "New watch dog set"
        { u.2 with WatchDogNP_s := IPState.IPS_OK, WatchDogN_value := nVal })
    else
      (false, IDSet Property.WatchDogNP "Invalid watch dog time"
        { u.2 with WatchDogNP_s := IPState.IPS_ALERT })
  | NumberName.ShutterOperationAzimuth =>
    let u := IUUpdateNumber ranges.ShutterOperationAzimuthN
      NumberName.ShutterOperationAzimuth nVal s
    if u.1 < 0 then (false, u.2)
    else if nVal ≥ 0 ∧ nVal < 360 then
      let c := ConfigureShutterOperation env u.2.nMoveDomeBeforeOperateShutter nVal u.2
      if c.1 = IPState.IPS_OK then
        (true, IDSet Property.ShutterOperationAzimuthNP "New shutter operation azimuth set"
          { c.2 with nShutterOperationPosition := nVal,
                     ShutterOperationAzimuthNP_s := IPState.IPS_OK,
                     ShutterOperationAzimuthN_value := nVal })
      else
        (true, IDSet Property.ShutterOperationAzimuthNP "ErrorMessages[-error]"
          { c.2 with ShutterOperationAzimuthNP_s := IPState.IPS_ALERT })
    else
      (false, IDSet Property.ShutterOperationAzimuthNP "Invalid shutter operation azimuth position"
        { u.2 with ShutterOperationAzimuthNP_s := IPState.IPS_ALERT })

/-- A sequence of configuration commands (property name and requested value),
each handled by `ISNewNumber` with the ranges declared in `initProperties`. -/
def configure (env : Env) : List (NumberName × ℚ) → Dome → Dome
  | [], s => s
  | c :: rest, s => configure env rest (ISNewNumber env initProperties_ranges c.1 c.2 s).2

/-- Modelled from the spec: `setShutterState(SHUTTER_MOVING)` of the INDI base
class: the shutter public state of an operation in progress, Busy, published. -/
def setShutterState_SHUTTER_MOVING (s : Dome) : Dome :=
  IDSet Property.DomeShutterSP "" { s with DomeShutterSP_s := IPState.IPS_BUSY }

/-- The part of `UnPark` after `SetParked(false)`: the home command in a retry
loop, timer and target reset, and, when `openOnUnpark` holds (`HasShutter()`,
which the constructor enables, and the park policy switch
`ShutterParkPolicyS[SHUTTER_OPEN_ON_UNPARK]` of the base class), the shutter
open command with the direction flags. -/
def UnPark.home (env : Env) (openOnUnpark : Bool) (s : Dome) : IPState × Dome :=
  let r := retryLoop env HwCall.HomeAzimuth 3 0 s
  let s := { r.dome with nTimeSinceAzimuthStart := 0, nTargetAzimuth := -1 }
  if openOnUnpark then
    let c := ControlShutter env ShutterOperation.SHUTTER_OPEN s
    (IPState.IPS_BUSY, setShutterState_SHUTTER_MOVING
      { c.2 with DomeShutterS0 := ISState.ISS_ON, DomeShutterS1 := ISState.ISS_OFF })
  else
    (IPState.IPS_BUSY, s)

/-- Source function `MaxDomeII::UnPark`: `SetParked(false)` first, then the rest. -/
def UnPark (env : Env) (openOnUnpark : Bool) (s : Dome) : IPState × Dome :=
  UnPark.home env openOnUnpark (SetParked false s)

/-- The member-reading form of `TicksToAzimuth`. -/
def Dome.TicksToAzimuth (s : Dome) (nTicks : Int) : ℚ :=
  MaxDomeII.TicksToAzimuth s.nHomeAzimuth s.nTicksPerTurn nTicks

/-- The member-reading form of `AzimuthToTicks`. -/
def Dome.AzimuthToTicks (s : Dome) (nAzimuth : ℚ) : Int :=
  MaxDomeII.AzimuthToTicks s.nHomeAzimuth s.nTicksPerTurn nAzimuth

/-- The member-reading form of `AzimuthDistance`. -/
def Dome.AzimuthDistance (s : Dome) (nPos1 nPos2 : Int) : Int :=
  MaxDomeII.AzimuthDistance s.nTicksPerTurn nPos1 nPos2

/-- The freshly constructed driver in the middle of a shutter operation: the
shutter public state is Busy and the shutter timer runs. -/
def shutterBusy : Dome :=
  { newMaxDomeII with DomeShutterSP_s := IPState.IPS_BUSY, nTimeSinceShutterStart := 1,
                      DomeShutterS0 := ISState.ISS_ON }

/-- The fields a poll cycle leaves alone until its azimuth block: the azimuth
public state and target, the configuration the azimuth block reads, the home
and park controls, the parked flag with its log, the schedule count and the
connection flag. -/
def Dome.azimuthSide (s : Dome) :
    IPState × Int × Int × ℚ × ISState × IPState × IPState × ISState × ISState × Bool ×
      List (Bool × Nat) × Nat × Bool :=
  (s.DomeAbsPosNP_s, s.nTargetAzimuth, s.nTicksPerTurn, s.nHomeAzimuth, s.HomeS0, s.HomeSP_s,
    s.ParkSP_s, s.ParkS0, s.ParkS1, s.IsParked, s.setParkedCalls, s.nSetTimer, s.connected)

/-- The azimuth timer and the polled tick count. -/
def Dome.azimuthClock (s : Dome) : Int × Int :=
  (s.nTimeSinceAzimuthStart, s.nCurrentTicks)

/-- The shutter tracker: public state, open flag, close flag, timer. -/
def Dome.shutterSide (s : Dome) : IPState × ISState × ISState × Int :=
  (s.DomeShutterSP_s, s.DomeShutterS0, s.DomeShutterS1, s.nTimeSinceShutterStart)

/-- The freshly constructed driver with the watchdog timeout set to 1 cycle: the
watchdog is due in the next poll cycle. -/
def watchdog1 : Dome :=
  { newMaxDomeII with WatchDogN_value := 1 }

/-- A hardware on which every driver call succeeds, the shutter is reported
closed and the dome idle at tick 0. -/
def envShutterClosed : Env where
  driverError := fun _ => 0
  statusReply := fun _ => ⟨ShStatus.SS_CLOSED, AzStatus.AS_IDLE, 0, 0⟩
  portAfterConnect := fun _ => 0

/-- A hardware on which every driver call succeeds and every status query
reports the shutter closed and the dome idle at tick 100. -/
def envIdleAt100 : Env where
  driverError := fun _ => 0
  statusReply := fun _ => ⟨ShStatus.SS_CLOSED, AzStatus.AS_IDLE, 100, 0⟩
  portAfterConnect := fun _ => 0

/-- A driver with a park request pending (park switch on, park control Busy), an
azimuth timer at 3 and no target: the state after a home or unpark command
followed, three polls later, by a park request whose `GotoAzimuth` failed. -/
def parkPendingNoTarget : Dome :=
  { newMaxDomeII with nTimeSinceAzimuthStart := 3, ParkS0 := ISState.ISS_ON,
                      ParkSP_s := IPState.IPS_BUSY }

/-- The configuration ranges the driver keeps: ticks per turn in `[100, 2000]`,
home azimuth in `[0, 360]` (360 included), shutter operation azimuth in
`[0, 360)`, watchdog timeout in `[0, 3600]`. -/
def Dome.configInRange (s : Dome) : Prop :=
  (100 ≤ s.nTicksPerTurn ∧ s.nTicksPerTurn ≤ 2000) ∧
  (0 ≤ s.nHomeAzimuth ∧ s.nHomeAzimuth ≤ 360) ∧
  (0 ≤ s.nShutterOperationPosition ∧ s.nShutterOperationPosition < 360) ∧
  (0 ≤ s.WatchDogN_value ∧ s.WatchDogN_value ≤ 3600)

instance Dome.decConfigInRange (s : Dome) : Decidable s.configInRange :=
  inferInstanceAs (Decidable (_ ∧ _))

/-- The value `AzimuthToTicks` computes before its two wrapping loops:
`floor(0.5 + (nAzimuth - nHomeAzimuth) * nTicksPerTurn / 360.0)`. -/
def AzimuthToTicks.nTicks (nHomeAzimuth : ℚ) (nTicksPerTurn : Int) (nAzimuth : ℚ) : Int :=
  ⌊(1 / 2 : ℚ) + (nAzimuth - nHomeAzimuth) * nTicksPerTurn / 360⌋

/-- The rounding policy the specification names, round half away from zero: the
nearest integer, an exact half going to the neighbour of larger magnitude. -/
def roundHalfAwayFromZero (x : ℚ) : Int :=
  if 0 ≤ x then ⌊x + 1 / 2⌋ else ⌈x - 1 / 2⌉

/-- A hardware on which every driver call succeeds and every status query
reports the azimuth status Error, the shutter closed, the dome at tick 100. -/
def envAzimuthError : Env where
  driverError := fun _ => 0
  statusReply := fun _ => ⟨ShStatus.SS_CLOSED, AzStatus.AS_ERROR, 100, 0⟩
  portAfterConnect := fun _ => 0

/-- The driver after a move to tick 102 was confirmed: azimuth public state Ok, no
azimuth timer outstanding, the target still stored. -/
def arrivedAt102 : Dome :=
  { newMaxDomeII with DomeAbsPosNP_s := IPState.IPS_OK, nTargetAzimuth := 102 }

/-- A driver with a move to tick 110 in flight: azimuth public state Busy, the
azimuth timer at 4. -/
def moveTo110 : Dome :=
  { newMaxDomeII with DomeAbsPosNP_s := IPState.IPS_BUSY, nTargetAzimuth := 110,
                      nTimeSinceAzimuthStart := 4 }

/-- A hardware on which every driver call succeeds and every status query
reports the shutter opening and the dome idle at tick 0. -/
def envShutterOpening : Env where
  driverError := fun _ => 0
  statusReply := fun _ => ⟨ShStatus.SS_OPENING, AzStatus.AS_IDLE, 0, 0⟩
  portAfterConnect := fun _ => 0

/-- The driver after a completed close command: close flag on, open flag off,
shutter public state Ok, no shutter timer. -/
def shutterClosedOk : Dome :=
  { newMaxDomeII with DomeShutterSP_s := IPState.IPS_OK, DomeShutterS1 := ISState.ISS_ON }

/-- Number of shutter state notifications (`IDSetSwitch(&DomeShutterSP, ...)`) in
a log of notifications. -/
def shutterNotices (l : List Notice) : Nat :=
  l.countP (fun n => n.prop = Property.DomeShutterSP)

/-- The state an accepted open command leaves: open flag on, close flag off,
shutter public state Busy, shutter timer 0; the watchdog is disabled. -/
def openCommanded : Dome :=
  { newMaxDomeII with DomeShutterSP_s := IPState.IPS_BUSY, DomeShutterS0 := ISState.ISS_ON,
                      nTimeSinceShutterStart := 0 }

/-- A hardware on which every driver call succeeds and the status queries report
the shutter closed twice, then opening three times, then open. -/
def envOpeningRun : Env where
  driverError := fun _ => 0
  statusReply := fun k =>
    ⟨if k < 2 then ShStatus.SS_CLOSED else if k < 2 + 3 then ShStatus.SS_OPENING
      else ShStatus.SS_OPEN, AzStatus.AS_IDLE, 0, 0⟩
  portAfterConnect := fun _ => 0

/-! ## Lemmas on the wrapping loops -/

theorem TicksToAzimuth_raise_of_nonneg (x : ℚ) (h : 0 ≤ x) : TicksToAzimuth.raise x = x := by
  rw [TicksToAzimuth.raise, if_neg (not_lt.mpr h)]

theorem TicksToAzimuth_raise_of_neg (x : ℚ) (h : x < 0) :
    TicksToAzimuth.raise x = TicksToAzimuth.raise (x + 360) := by
  rw [TicksToAzimuth.raise, if_pos h]

theorem TicksToAzimuth_lower_of_lt (x : ℚ) (h : x < 360) : TicksToAzimuth.lower x = x := by
  rw [TicksToAzimuth.lower, if_neg (not_le.mpr h)]

theorem TicksToAzimuth_lower_of_ge (x : ℚ) (h : 360 ≤ x) :
    TicksToAzimuth.lower x = TicksToAzimuth.lower (x - 360) := by
  rw [TicksToAzimuth.lower, if_pos h]

/-- The raising loop ends at or above 0, below 360 when it ran at all, and adds a
whole number of turns. -/
theorem TicksToAzimuth_raise_spec (n : ℕ) :
    ∀ x : ℚ, (⌈-x / 360⌉).toNat ≤ n →
      0 ≤ TicksToAzimuth.raise x ∧ (x < 360 → TicksToAzimuth.raise x < 360) ∧
        ∃ k : ℤ, TicksToAzimuth.raise x = x + 360 * (k : ℚ) := by
  induction n with
  | zero =>
    intro x hx
    have h0 : ⌈-x / 360⌉ ≤ 0 := by omega
    have h1 : -x / 360 ≤ 0 := by
      have := Int.ceil_le.mp h0
      simpa using this
    have hx0 : 0 ≤ x := by linarith
    rw [TicksToAzimuth_raise_of_nonneg x hx0]
    exact ⟨hx0, fun h => h, 0, by simp⟩
  | succ n ih =>
    intro x hx
    by_cases hx0 : 0 ≤ x
    · rw [TicksToAzimuth_raise_of_nonneg x hx0]
      exact ⟨hx0, fun h => h, 0, by simp⟩
    · have hneg : x < 0 := not_le.mp hx0
      have h1 : ⌈-(x + 360) / 360⌉ = ⌈-x / 360⌉ - 1 := by
        rw [← Int.ceil_sub_one]
        congr 1
        ring
      have hm : (⌈-(x + 360) / 360⌉).toNat ≤ n := by
        rw [h1]
        omega
      obtain ⟨a, b, k, hk⟩ := ih (x + 360) hm
      rw [TicksToAzimuth_raise_of_neg x hneg]
      refine ⟨a, fun _ => b (by linarith), k + 1, ?_⟩
      rw [hk]
      push_cast
      ring

/-- The lowering loop, started at or above 0, ends in `[0, 360)` and removes a
whole number of turns. -/
theorem TicksToAzimuth_lower_spec (n : ℕ) :
    ∀ x : ℚ, 0 ≤ x → (⌊x / 360⌋).toNat ≤ n →
      0 ≤ TicksToAzimuth.lower x ∧ TicksToAzimuth.lower x < 360 ∧
        ∃ k : ℤ, TicksToAzimuth.lower x = x + 360 * (k : ℚ) := by
  induction n with
  | zero =>
    intro x hx0 hx
    have h0 : ⌊x / 360⌋ ≤ 0 := by omega
    have h1 : x / 360 < 1 := by
      have := Int.floor_le_iff.mp h0
      simpa using this
    have hlt : x < 360 := by linarith
    rw [TicksToAzimuth_lower_of_lt x hlt]
    exact ⟨hx0, hlt, 0, by simp⟩
  | succ n ih =>
    intro x hx0 hx
    by_cases hlt : x < 360
    · rw [TicksToAzimuth_lower_of_lt x hlt]
      exact ⟨hx0, hlt, 0, by simp⟩
    · have hge : 360 ≤ x := not_lt.mp hlt
      have h1 : ⌊(x - 360) / 360⌋ = ⌊x / 360⌋ - 1 := by
        rw [← Int.floor_sub_one]
        congr 1
        ring
      have hpos : 0 < ⌊x / 360⌋ := by
        apply Int.floor_pos.mpr
        linarith
      have hm : (⌊(x - 360) / 360⌋).toNat ≤ n := by
        rw [h1]
        omega
      obtain ⟨a, b, k, hk⟩ := ih (x - 360) (by linarith) hm
      rw [TicksToAzimuth_lower_of_ge x hge]
      refine ⟨a, b, k - 1, ?_⟩
      rw [hk]
      push_cast
      ring

theorem AzimuthToTicks_lower_of_le (N t : Int) (h : t ≤ N) : AzimuthToTicks.lower N t = t := by
  rw [AzimuthToTicks.lower, if_neg (by omega)]

theorem AzimuthToTicks_raise_of_nonneg (N t : Int) (h : 0 ≤ t) :
    AzimuthToTicks.raise N t = t := by
  rw [AzimuthToTicks.raise, if_neg (by omega)]

theorem AzimuthToTicks_raise_of_neg (N t : Int) (h : t < 0) (hN : 0 < N) :
    AzimuthToTicks.raise N t = AzimuthToTicks.raise N (t + N) := by
  rw [AzimuthToTicks.raise, if_pos ⟨h, hN⟩]

theorem AzimuthDistance_eq (n a b : Int) (hn : 0 ≤ n) :
    AzimuthDistance n a b = if |a - b| > n / 2 then n - |a - b| else |a - b| := by
  unfold AzimuthDistance
  rw [Int.tdiv_eq_ediv hn (by decide)]

/-! ## Angle/tick converter: the claims -/

/-- C1: round trip.  For ticksPerTurn `N` in `[100, 2000]`, homeAzimuth in
`[0, 360)` and a tick `t` with `0 <= t < N`, converting `t` to an azimuth and back
gives `t mod N`, which is `t` (exact rational arithmetic). -/
theorem C1_roundtrip (home : ℚ) (N t : Int) (hN : 100 ≤ N) (hN2 : N ≤ 2000)
    (hh0 : 0 ≤ home) (hh : home < 360) (ht0 : 0 ≤ t) (ht : t < N) :
    AzimuthToTicks home N (TicksToAzimuth home N t) = t % N ∧ t % N = t := by
  have hmod : t % N = t := Int.emod_eq_of_lt ht0 ht
  refine ⟨?_, hmod⟩
  rw [hmod]
  have hNq : (0 : ℚ) < (N : ℚ) := by exact_mod_cast (by omega : (0 : Int) < N)
  have hNne : (N : ℚ) ≠ 0 := ne_of_gt hNq
  have htq0 : (0 : ℚ) ≤ (t : ℚ) := by exact_mod_cast ht0
  have htq : (t : ℚ) < (N : ℚ) := by exact_mod_cast ht
  have hfrac0 : (0 : ℚ) ≤ (t : ℚ) * 360 / (N : ℚ) := by positivity
  have hfrac : (t : ℚ) * 360 / (N : ℚ) < 360 := by
    rw [div_lt_iff₀ hNq]
    linarith
  have hfloor : ∀ z : Int, ⌊(1 / 2 : ℚ) + (z : ℚ)⌋ = z := by
    intro z
    rw [Int.floor_eq_iff]
    constructor <;> linarith
  unfold TicksToAzimuth AzimuthToTicks
  simp only []
  rw [TicksToAzimuth_raise_of_nonneg _ (by linarith)]
  by_cases hlt : home + (t : ℚ) * 360 / (N : ℚ) < 360
  · rw [TicksToAzimuth_lower_of_lt _ hlt]
    have e : (1 / 2 : ℚ) + (home + (t : ℚ) * 360 / (N : ℚ) - home) * (N : ℚ) / 360
        = (1 / 2 : ℚ) + (t : ℚ) := by
      field_simp
      ring
    rw [e, hfloor t, AzimuthToTicks_lower_of_le N t (by omega),
      AzimuthToTicks_raise_of_nonneg N t ht0]
  · have hge : 360 ≤ home + (t : ℚ) * 360 / (N : ℚ) := not_lt.mp hlt
    rw [TicksToAzimuth_lower_of_ge _ hge, TicksToAzimuth_lower_of_lt _ (by linarith)]
    have e : (1 / 2 : ℚ) + (home + (t : ℚ) * 360 / (N : ℚ) - 360 - home) * (N : ℚ) / 360
        = (1 / 2 : ℚ) + ((t - N : Int) : ℚ) := by
      push_cast
      field_simp
      ring
    rw [e, hfloor (t - N), AzimuthToTicks_lower_of_le N (t - N) (by omega),
      AzimuthToTicks_raise_of_neg N (t - N) (by omega) (by omega)]
    have e2 : t - N + N = t := by ring
    rw [e2, AzimuthToTicks_raise_of_nonneg N t ht0]

/-- Witness of C1: 360 ticks per turn, home azimuth 90, tick 300 (the azimuth
wraps past 360). -/
theorem C1_roundtrip_witness :
    AzimuthToTicks 90 360 (TicksToAzimuth 90 360 300) = 300 % 360 ∧ (300 : Int) % 360 = 300 :=
  C1_roundtrip 90 360 300 (by decide) (by decide) (by norm_num) (by norm_num)
    (by decide) (by decide)

/-- C2 at the failing input: with 360 ticks per turn and home azimuth 0, the
azimuth 359.9 (inside `[0, 360)`) is converted to tick 360, which is outside
`[0, 360)`: the loop test `nTicks > nTicksPerTurn` leaves `nTicks = nTicksPerTurn`
unwrapped. -/
theorem C2_AzimuthToTicks_returns_ticksPerTurn :
    AzimuthToTicks 0 360 (3599 / 10) = 360 := by
  have hfl : ⌊(1 / 2 : ℚ) + (3599 / 10 - 0) * ((360 : Int) : ℚ) / 360⌋ = 360 := by
    rw [Int.floor_eq_iff]
    norm_num
  unfold AzimuthToTicks
  simp only []
  rw [hfl, AzimuthToTicks_lower_of_le 360 360 (by decide),
    AzimuthToTicks_raise_of_nonneg 360 360 (by decide)]

/-- C3: for every integer tick count `t` (negative and out-of-range included),
ticksPerTurn `N` in `[100, 2000]` and homeAzimuth in `[0, 360)`, `TicksToAzimuth`
(a total function: both loops terminate) returns `d` with `0 <= d < 360` and
`d = homeAzimuth + t * 360 / N + 360 * k` for some integer `k`. -/
theorem C3_TicksToAzimuth_range (home : ℚ) (N t : Int) (hN : 100 ≤ N) (hN2 : N ≤ 2000)
    (hh0 : 0 ≤ home) (hh : home < 360) :
    0 ≤ TicksToAzimuth home N t ∧ TicksToAzimuth home N t < 360 ∧
      ∃ k : ℤ, TicksToAzimuth home N t
        = home + (t : ℚ) * 360 / (N : ℚ) + 360 * (k : ℚ) := by
  unfold TicksToAzimuth
  simp only []
  obtain ⟨r0, _, k1, hk1⟩ :=
    TicksToAzimuth_raise_spec _ (home + (t : ℚ) * 360 / (N : ℚ)) (le_refl _)
  obtain ⟨l0, l1, k2, hk2⟩ :=
    TicksToAzimuth_lower_spec _ (TicksToAzimuth.raise (home + (t : ℚ) * 360 / (N : ℚ))) r0
      (le_refl _)
  refine ⟨l0, l1, k1 + k2, ?_⟩
  rw [hk2, hk1]
  push_cast
  ring

/-- Witness of C3: 360 ticks per turn, home azimuth 90, tick -1000. -/
theorem C3_TicksToAzimuth_range_witness :
    0 ≤ TicksToAzimuth 90 360 (-1000) ∧ TicksToAzimuth 90 360 (-1000) < 360 ∧
      ∃ k : ℤ, TicksToAzimuth 90 360 (-1000)
        = 90 + ((-1000 : Int) : ℚ) * 360 / ((360 : Int) : ℚ) + 360 * (k : ℚ) :=
  C3_TicksToAzimuth_range 90 360 (-1000) (by decide) (by decide) (by norm_num) (by norm_num)

/-- C4: for ticksPerTurn `n >= 1` and ticks `a`, `b` in `[0, n)`,
`AzimuthDistance(a, b) = min(|a - b|, n - |a - b|)`; the branch on the truncating
division `n / 2` picks the smaller of the two. -/
theorem C4_AzimuthDistance_min (n a b : Int) (hn : 1 ≤ n) (ha0 : 0 ≤ a) (ha : a < n)
    (hb0 : 0 ≤ b) (hb : b < n) :
    AzimuthDistance n a b = min |a - b| (n - |a - b|) := by
  rw [AzimuthDistance_eq n a b (by omega)]
  split <;> omega

/-- Witness of C4: 7 ticks per turn (odd), ticks 1 and 5. -/
theorem C4_AzimuthDistance_min_witness :
    AzimuthDistance 7 1 5 = min |(1 : Int) - 5| (7 - |(1 : Int) - 5|) :=
  C4_AzimuthDistance_min 7 1 5 (by decide) (by decide) (by decide) (by decide) (by decide)

/-- C5: for ticksPerTurn `n >= 1` and ticks `a`, `b` in `[0, n)`, `AzimuthDistance`
is symmetric, is 0 on equal ticks and is at most `n / 2` (integer division). -/
theorem C5_AzimuthDistance_props (n a b : Int) (hn : 1 ≤ n) (ha0 : 0 ≤ a) (ha : a < n)
    (hb0 : 0 ≤ b) (hb : b < n) :
    AzimuthDistance n a b = AzimuthDistance n b a ∧ AzimuthDistance n a a = 0 ∧
      AzimuthDistance n a b ≤ n / 2 := by
  rw [AzimuthDistance_eq n a b (by omega), AzimuthDistance_eq n b a (by omega),
    AzimuthDistance_eq n a a (by omega)]
  have hsym : |b - a| = |a - b| := abs_sub_comm b a
  rw [hsym]
  refine ⟨rfl, ?_, ?_⟩
  · simp only [sub_self, abs_zero]
    split <;> omega
  · split <;> omega

/-- Witness of C5: 7 ticks per turn, ticks 1 and 5. -/
theorem C5_AzimuthDistance_props_witness :
    AzimuthDistance 7 1 5 = AzimuthDistance 7 5 1 ∧ AzimuthDistance 7 1 1 = 0 ∧
      AzimuthDistance 7 1 5 ≤ 7 / 2 :=
  C5_AzimuthDistance_props 7 1 5 (by decide) (by decide) (by decide) (by decide) (by decide)

/-! ## Lemmas on the command retrier -/

theorem retryLoop_zero (env : Env) (c : HwCall) (e : Int) (s : Dome) :
    retryLoop env c 0 e s = ⟨e, 0, s⟩ := by
  rw [retryLoop, dif_pos rfl]

theorem retryLoop_pos (env : Env) (c : HwCall) (n : Nat) (e : Int) (s : Dome) (h : n ≠ 0) :
    retryLoop env c n e s =
      retryLoop env c (handle_driver_error env (driverCall env c s).1 n (driverCall env c s).2).1
        (driverCall env c s).1
        (handle_driver_error env (driverCall env c s).1 n (driverCall env c s).2).2 := by
  rw [retryLoop, dif_neg h]

theorem handle_driver_error_success (env : Env) (n : Nat) (s : Dome) :
    handle_driver_error env 0 n s = (0, s) := by
  simp [handle_driver_error]

theorem handle_driver_error_dead (env : Env) (n : Nat) (s : Dome)
    (h : env.portAfterConnect s.nConnect < 0) :
    handle_driver_error env (-5) n s = (0, Connect env s) := by
  simp [handle_driver_error, Connect, h]

theorem handle_driver_error_reconnected (env : Env) (n : Nat) (s : Dome)
    (h : 0 ≤ env.portAfterConnect s.nConnect) :
    handle_driver_error env (-5) n s = (n - 1, Connect env s) := by
  simp [handle_driver_error, Connect, not_lt.mpr h]

theorem handle_driver_error_other (env : Env) (e : Int) (n : Nat) (s : Dome)
    (h0 : e ≠ 0) (h5 : e ≠ -5) :
    handle_driver_error env e n s = (n - 1, s) := by
  simp [handle_driver_error, h0, h5]


theorem Dome_sameButLink_refl (s : Dome) : s.sameButLink s := rfl

theorem Dome_sameButLink_trans {s t u : Dome} (h1 : s.sameButLink t) (h2 : t.sameButLink u) :
    s.sameButLink u := by
  unfold Dome.sameButLink at *
  rw [h2, h1]

theorem driverCall_fst (env : Env) (c : HwCall) (s : Dome) :
    (driverCall env c s).1 = env.driverError s.hwCalls.length := rfl

theorem driverCall_snd (env : Env) (c : HwCall) (s : Dome) :
    (driverCall env c s).2 = { s with hwCalls := s.hwCalls ++ [c] } := rfl

/-- One step of `handle_driver_error`: the log of driver calls is untouched and
only the link fields can change. -/
theorem handle_driver_error_frame (env : Env) (e : Int) (n : Nat) (s : Dome) :
    (handle_driver_error env e n s).2.hwCalls = s.hwCalls ∧
      s.sameButLink (handle_driver_error env e n s).2 := by
  unfold handle_driver_error
  simp only []
  split
  · exact ⟨rfl, rfl⟩
  · split
    · split <;> exact ⟨rfl, rfl⟩
    · exact ⟨rfl, rfl⟩

/-- The retry loop entered with a budget `n > 0`: it makes `k` attempts with
`1 <= k <= n`, all of the same call; every attempt before the last failed; the
result is the code of the last attempt; `nRetry` is 0 at exit; only the link
fields change. -/
theorem retryLoop_spec (env : Env) (c : HwCall) :
    ∀ (n : Nat) (e0 : Int) (s : Dome), n ≠ 0 →
      ∃ k : Nat, 1 ≤ k ∧ k ≤ n ∧
        (retryLoop env c n e0 s).dome.hwCalls = s.hwCalls ++ List.replicate k c ∧
        (∀ j : Nat, j + 1 < k → env.driverError (s.hwCalls.length + j) ≠ 0) ∧
        (retryLoop env c n e0 s).error = env.driverError (s.hwCalls.length + (k - 1)) ∧
        (retryLoop env c n e0 s).nRetry = 0 ∧
        s.sameButLink (retryLoop env c n e0 s).dome := by
  intro n
  induction n using Nat.strong_induction_on with
  | _ n ih =>
    intro e0 s hn
    rw [retryLoop_pos env c n e0 s hn]
    obtain ⟨hcalls, hframe⟩ :=
      handle_driver_error_frame env (driverCall env c s).1 n (driverCall env c s).2
    have hlt : (handle_driver_error env (driverCall env c s).1 n (driverCall env c s).2).1 < n := by
      unfold handle_driver_error
      simp only []
      split
      · exact Nat.pos_of_ne_zero hn
      · split
        · split
          · exact Nat.pos_of_ne_zero hn
          · exact Nat.sub_one_lt hn
        · exact Nat.sub_one_lt hn
    have hstep : s.sameButLink (driverCall env c s).2 := rfl
    by_cases hm : (handle_driver_error env (driverCall env c s).1 n (driverCall env c s).2).1 = 0
    · rw [hm, retryLoop_zero]
      refine ⟨1, le_refl 1, Nat.pos_of_ne_zero hn, ?_, ?_, ?_, rfl,
        Dome_sameButLink_trans hstep hframe⟩
      · rw [hcalls]
        rfl
      · intro j hj
        omega
      · simp [driverCall_fst]
    · have hne : (driverCall env c s).1 ≠ 0 := by
        intro h0
        apply hm
        rw [h0, handle_driver_error_success]
      obtain ⟨k, hk1, hk2, hlog, hfail, herr, hret, hfr⟩ :=
        ih _ hlt (driverCall env c s).1
          (handle_driver_error env (driverCall env c s).1 n (driverCall env c s).2).2 hm
      refine ⟨k + 1, by omega, by omega, ?_, ?_, ?_, hret,
        Dome_sameButLink_trans (Dome_sameButLink_trans hstep hframe) hfr⟩
      · rw [hlog, hcalls, driverCall_snd]
        simp [List.replicate_succ]
      · intro j hj
        rcases j with _ | j
        · simpa [driverCall_fst] using hne
        · have := hfail j (by omega)
          rw [hcalls, driverCall_snd] at this
          simp only [List.length_append, List.length_singleton] at this
          have e : s.hwCalls.length + (j + 1) = s.hwCalls.length + 1 + j := by omega
          rw [e]
          exact this
      · rw [herr, hcalls, driverCall_snd]
        simp only [List.length_append, List.length_singleton]
        congr 1
        omega

/-! ## Lemmas on the poll cycle -/

theorem IDSet_other_firings (p : Property) (msg : String) (s : Dome)
    (h : (⟨p, msg⟩ : Notice) ≠ ⟨Property.DomeShutterSP, "Closing shutter due watch dog"⟩) :
    watchdogFirings (IDSet p msg s).notices = watchdogFirings s.notices := by
  unfold watchdogFirings IDSet
  simp only [List.count_append]
  rw [List.count_singleton]
  simp [h]

theorem IDSet_other_view (p : Property) (msg : String) (s : Dome)
    (h : (⟨p, msg⟩ : Notice) ≠ ⟨Property.DomeShutterSP, "Closing shutter due watch dog"⟩) :
    (IDSet p msg s).watchdogView = s.watchdogView := by
  unfold Dome.watchdogView
  rw [IDSet_other_firings p msg s h]
  rfl

theorem TimerHit_shutter_frame (st : ShStatus) (s : Dome) :
    (TimerHit.shutter st s).hwCalls = s.hwCalls ∧
      (TimerHit.shutter st s).watchdogView = s.watchdogView := by
  cases st <;> dsimp only [TimerHit.shutter] <;> (try split_ifs) <;>
    first
      | exact ⟨rfl, rfl⟩
      | exact ⟨rfl, IDSet_other_view _ _ _ (by decide)⟩

theorem TimerHit_position_frame (s : Dome) :
    (TimerHit.position s).hwCalls = s.hwCalls ∧
      (TimerHit.position s).watchdogView = s.watchdogView := by
  unfold TimerHit.position
  simp only []
  split_ifs
  · exact ⟨rfl, IDSet_other_view _ _ _ (by decide)⟩
  · exact ⟨rfl, rfl⟩

theorem TimerHit_arrival_frame (s : Dome) :
    (TimerHit.arrival s).hwCalls = s.hwCalls ∧
      (TimerHit.arrival s).watchdogView = s.watchdogView := by
  unfold TimerHit.arrival
  simp only []
  split_ifs <;>
    simp [Dome.watchdogView, watchdogFirings, IDSet, SetParked, setDomeState_DOME_SYNCED,
      List.count_singleton]

theorem TimerHit_azimuth_frame (st : AzStatus) (s : Dome) :
    (TimerHit.azimuth st s).hwCalls = s.hwCalls ∧
      (TimerHit.azimuth st s).watchdogView = s.watchdogView := by
  cases st <;> dsimp only [TimerHit.azimuth] <;> (try split_ifs) <;>
    first
      | exact ⟨rfl, rfl⟩
      | exact TimerHit_arrival_frame s
      | exact ⟨rfl, IDSet_other_view _ _ _ (by decide)⟩

theorem TimerHit_timers_frame (s : Dome) :
    (TimerHit.timers s).hwCalls = s.hwCalls ∧
      (TimerHit.timers s).watchdogView = s.watchdogView := by
  unfold TimerHit.timers
  simp only []
  split_ifs <;> exact ⟨rfl, rfl⟩

theorem handle_driver_error_view (env : Env) (e : Int) (n : Nat) (s : Dome) :
    (handle_driver_error env e n s).2.watchdogView = s.watchdogView := by
  unfold handle_driver_error
  simp only []
  split_ifs <;> rfl

theorem sameButLink_view {s t : Dome} (h : s.sameButLink t) : t.watchdogView = s.watchdogView := by
  unfold Dome.sameButLink at h
  rw [h]
  rfl

/-- The close command of `ControlShutter`: between one and three
`CloseShutter` driver calls, nothing else the watchdog observes. -/
theorem ControlShutter_close (env : Env) (s : Dome) :
    ∃ k : Nat, 1 ≤ k ∧ k ≤ 3 ∧
      (ControlShutter env ShutterOperation.SHUTTER_CLOSE s).2.hwCalls
        = s.hwCalls ++ List.replicate k HwCall.CloseShutter ∧
      (ControlShutter env ShutterOperation.SHUTTER_CLOSE s).2.watchdogView = s.watchdogView := by
  obtain ⟨k, hk1, hk3, hlog, _, _, _, hfr⟩ :=
    retryLoop_spec env HwCall.CloseShutter 3 0 s (by decide)
  refine ⟨k, hk1, hk3, ?_, ?_⟩
  · unfold ControlShutter
    simp only [if_true]
    split_ifs <;> exact hlog
  · unfold ControlShutter
    simp only [if_true]
    have hv := sameButLink_view hfr
    simp only [Dome.watchdogView] at hv ⊢
    split_ifs <;> exact hv


/-- The part of a poll cycle before the watchdog: one `Status` driver call,
nothing else the watchdog observes. -/
theorem TimerHit_head_frame (env : Env) (s : Dome) (x : Int) :
    (TimerHit.timers (handle_driver_error env (driverCall env HwCall.Status s).1 1
        { (driverCall env HwCall.Status s).2 with nCurrentTicks := x }).2).hwCalls
      = s.hwCalls ++ [HwCall.Status] ∧
    (TimerHit.timers (handle_driver_error env (driverCall env HwCall.Status s).1 1
        { (driverCall env HwCall.Status s).2 with nCurrentTicks := x }).2).watchdogView
      = s.watchdogView := by
  constructor
  · rw [(TimerHit_timers_frame _).1, (handle_driver_error_frame env _ 1 _).1]
    rfl
  · rw [(TimerHit_timers_frame _).2, handle_driver_error_view]
    rfl

/-- The part of a successful poll cycle after the watchdog: no driver call,
nothing the watchdog observes. -/
theorem TimerHit_tail_frame (st : ShStatus) (az : AzStatus) (s : Dome) :
    (SetTimer (TimerHit.azimuth az (TimerHit.position (TimerHit.shutter st s)))).hwCalls
      = s.hwCalls ∧
    (SetTimer (TimerHit.azimuth az (TimerHit.position (TimerHit.shutter st s)))).watchdogView
      = s.watchdogView := by
  constructor
  · show (TimerHit.azimuth az (TimerHit.position (TimerHit.shutter st s))).hwCalls = s.hwCalls
    rw [(TimerHit_azimuth_frame _ _).1, (TimerHit_position_frame _).1,
      (TimerHit_shutter_frame _ _).1]
  · show (TimerHit.azimuth az (TimerHit.position (TimerHit.shutter st s))).watchdogView
      = s.watchdogView
    rw [(TimerHit_azimuth_frame _ _).2, (TimerHit_position_frame _).2,
      (TimerHit_shutter_frame _ _).2]

/-- The watchdog block: the counter advances by one; when the watchdog value is
positive and at most the new counter and the polled status is not closed, one
`ControlShutter(SHUTTER_CLOSE)` is issued and notified; otherwise nothing. -/
theorem TimerHit_watchdog_spec (env : Env) (st : ShStatus) (s : Dome) :
    ((0 < s.WatchDogN_value ∧
        s.WatchDogN_value ≤ ((s.nTimeSinceLastCommunication + 1 : Int) : ℚ)) ∧
        st ≠ ShStatus.SS_CLOSED →
      ∃ k : Nat, 1 ≤ k ∧ k ≤ 3 ∧
        (TimerHit.watchdog env st s).hwCalls
          = s.hwCalls ++ List.replicate k HwCall.CloseShutter ∧
        (TimerHit.watchdog env st s).watchdogView
          = (s.connected, s.WatchDogN_value, s.nTimeSinceLastCommunication + 1,
              watchdogFirings s.notices + 1)) ∧
    (¬ ((0 < s.WatchDogN_value ∧
        s.WatchDogN_value ≤ ((s.nTimeSinceLastCommunication + 1 : Int) : ℚ)) ∧
        st ≠ ShStatus.SS_CLOSED) →
      (TimerHit.watchdog env st s).hwCalls = s.hwCalls ∧
        (TimerHit.watchdog env st s).watchdogView
          = (s.connected, s.WatchDogN_value, s.nTimeSinceLastCommunication + 1,
              watchdogFirings s.notices)) := by
  constructor
  · rintro ⟨hdue, hst⟩
    obtain ⟨k, hk1, hk3, hlog, hview⟩ := ControlShutter_close env
      { s with nTimeSinceLastCommunication := s.nTimeSinceLastCommunication + 1 }
    refine ⟨k, hk1, hk3, ?_, ?_⟩
    · unfold TimerHit.watchdog
      simp only []
      rw [if_pos (by simpa using hdue), if_pos hst]
      exact hlog
    · unfold TimerHit.watchdog
      simp only []
      rw [if_pos (by simpa using hdue), if_pos hst]
      simp only [Dome.watchdogView, Prod.mk.injEq] at hview ⊢
      obtain ⟨h1, h2, h3, h4⟩ := hview
      refine ⟨h1, h2, h3, ?_⟩
      simp only [IDSet, watchdogFirings, List.count_append, List.count_singleton] at h4 ⊢
      simp [h4]
  · intro hnot
    unfold TimerHit.watchdog
    simp only []
    by_cases hdue : 0 < s.WatchDogN_value ∧
        s.WatchDogN_value ≤ ((s.nTimeSinceLastCommunication + 1 : Int) : ℚ)
    · have hst : ¬ st ≠ ShStatus.SS_CLOSED := fun h => hnot ⟨hdue, h⟩
      rw [if_pos (by simpa using hdue), if_neg hst]
      exact ⟨rfl, rfl⟩
    · rw [if_neg (by simpa using hdue)]
      exact ⟨rfl, rfl⟩


/-- One poll cycle while connected, as the watchdog sees it: exactly one `Status`
driver call; the counter advances by one; when the watchdog value is positive
and at most the new counter and the polled shutter status is not closed, one
`ControlShutter(SHUTTER_CLOSE)` (one to three `CloseShutter` driver calls) is
issued and notified; otherwise no further driver call is made. -/
theorem TimerHit_cycle (env : Env) (s : Dome) (hconn : s.connected = true) :
    ((0 < s.WatchDogN_value ∧
        s.WatchDogN_value ≤ ((s.nTimeSinceLastCommunication + 1 : Int) : ℚ)) ∧
        (env.statusReply s.hwCalls.length).shutterSt ≠ ShStatus.SS_CLOSED →
      ∃ k : Nat, 1 ≤ k ∧ k ≤ 3 ∧
        (TimerHit env s).hwCalls
          = s.hwCalls ++ HwCall.Status :: List.replicate k HwCall.CloseShutter ∧
        (TimerHit env s).watchdogView
          = (true, s.WatchDogN_value, s.nTimeSinceLastCommunication + 1,
              watchdogFirings s.notices + 1)) ∧
    (¬ ((0 < s.WatchDogN_value ∧
        s.WatchDogN_value ≤ ((s.nTimeSinceLastCommunication + 1 : Int) : ℚ)) ∧
        (env.statusReply s.hwCalls.length).shutterSt ≠ ShStatus.SS_CLOSED) →
      (TimerHit env s).hwCalls = s.hwCalls ++ [HwCall.Status] ∧
        (TimerHit env s).watchdogView
          = (true, s.WatchDogN_value, s.nTimeSinceLastCommunication + 1,
              watchdogFirings s.notices)) := by
  obtain ⟨hlog, hview⟩ :=
    TimerHit_head_frame env s (env.statusReply s.hwCalls.length).nCurrentTicks
  unfold TimerHit
  rw [if_neg (by simp [hconn])]
  simp only []
  generalize TimerHit.timers (handle_driver_error env (driverCall env HwCall.Status s).1 1
        { (driverCall env HwCall.Status s).2 with
          nCurrentTicks := (env.statusReply s.hwCalls.length).nCurrentTicks }).2 = H at hlog hview ⊢
  have hH : H.connected = true ∧ H.WatchDogN_value = s.WatchDogN_value ∧
      H.nTimeSinceLastCommunication = s.nTimeSinceLastCommunication ∧
      watchdogFirings H.notices = watchdogFirings s.notices := by
    simp only [Dome.watchdogView, Prod.mk.injEq] at hview
    rw [hconn] at hview
    exact hview
  obtain ⟨hc, hw, hn, hf⟩ := hH
  obtain ⟨hfire, hquiet⟩ :=
    TimerHit_watchdog_spec env (env.statusReply s.hwCalls.length).shutterSt H
  rw [hc, hw, hn, hf, hlog] at hfire hquiet
  constructor
  · intro hdue
    obtain ⟨k, hk1, hk3, hcalls, hv⟩ := hfire hdue
    refine ⟨k, hk1, hk3, ?_, ?_⟩
    · split_ifs
      · rw [(TimerHit_tail_frame _ _ _).1, hcalls]
        simp
      · rw [hcalls]
        simp
    · split_ifs
      · rw [(TimerHit_tail_frame _ _ _).2, hv]
      · rw [hv]
  · intro hnot
    obtain ⟨hcalls, hv⟩ := hquiet hnot
    constructor
    · split_ifs
      · rw [(TimerHit_tail_frame _ _ _).1, hcalls]
      · rw [hcalls]
    · split_ifs
      · rw [(TimerHit_tail_frame _ _ _).2, hv]
      · rw [hv]


theorem TimerHit_counter (env : Env) (s : Dome) (hconn : s.connected = true) :
    (TimerHit env s).connected = true ∧
      (TimerHit env s).WatchDogN_value = s.WatchDogN_value ∧
      (TimerHit env s).nTimeSinceLastCommunication = s.nTimeSinceLastCommunication + 1 := by
  obtain ⟨hfire, hquiet⟩ := TimerHit_cycle env s hconn
  by_cases hdue : (0 < s.WatchDogN_value ∧
        s.WatchDogN_value ≤ ((s.nTimeSinceLastCommunication + 1 : Int) : ℚ)) ∧
        (env.statusReply s.hwCalls.length).shutterSt ≠ ShStatus.SS_CLOSED
  · obtain ⟨k, _, _, _, hv⟩ := hfire hdue
    simp only [Dome.watchdogView, Prod.mk.injEq] at hv
    exact ⟨hv.1, hv.2.1, hv.2.2.1⟩
  · obtain ⟨_, hv⟩ := hquiet hdue
    simp only [Dome.watchdogView, Prod.mk.injEq] at hv
    exact ⟨hv.1, hv.2.1, hv.2.2.1⟩

theorem pollCycles_succ (env : Env) (n : Nat) (s : Dome) :
    pollCycles env (n + 1) s = TimerHit env (pollCycles env n s) := by
  induction n generalizing s with
  | zero => rfl
  | succ n ih =>
    show pollCycles env (n + 1) (TimerHit env s) = _
    rw [ih]
    rfl

theorem pollCycles_counter (env : Env) (s : Dome) (hconn : s.connected = true) (n : Nat) :
    (pollCycles env n s).connected = true ∧
      (pollCycles env n s).WatchDogN_value = s.WatchDogN_value ∧
      (pollCycles env n s).nTimeSinceLastCommunication
        = s.nTimeSinceLastCommunication + (n : Int) := by
  induction n with
  | zero => exact ⟨hconn, rfl, by simp [pollCycles]⟩
  | succ n ih =>
    obtain ⟨h1, h2, h3⟩ := ih
    obtain ⟨g1, g2, g3⟩ := TimerHit_counter env (pollCycles env n s) h1
    rw [pollCycles_succ]
    refine ⟨g1, g2.trans h2, ?_⟩
    rw [g3, h3]
    push_cast
    ring

theorem closeCalls_append_status (l : List HwCall) (k : Nat) :
    closeCalls (l ++ HwCall.Status :: List.replicate k HwCall.CloseShutter)
      = closeCalls l + k := by
  unfold closeCalls
  rw [List.count_append, List.count_cons, List.count_replicate_self]
  simp

/-- Cycle `n + 1` of a run of poll cycles without user command, while the
shutter is reported not closed: the watchdog fires (one notified
`ControlShutter(SHUTTER_CLOSE)`, one to three `CloseShutter` calls) when the
timeout is at most the counter of that cycle, and stays quiet when it is above. -/
theorem watchdog_run (env : Env) (s : Dome) (n : Nat)
    (hconn : s.connected = true) (hT : 0 < s.WatchDogN_value)
    (hopen : ∀ k : Nat, (env.statusReply k).shutterSt ≠ ShStatus.SS_CLOSED) :
    (s.WatchDogN_value ≤ ((s.nTimeSinceLastCommunication + (n : Int) + 1 : Int) : ℚ) →
      watchdogFirings (pollCycles env (n + 1) s).notices
          = watchdogFirings (pollCycles env n s).notices + 1 ∧
        closeCalls (pollCycles env n s).hwCalls + 1
          ≤ closeCalls (pollCycles env (n + 1) s).hwCalls ∧
        closeCalls (pollCycles env (n + 1) s).hwCalls
          ≤ closeCalls (pollCycles env n s).hwCalls + 3) ∧
    (((s.nTimeSinceLastCommunication + (n : Int) + 1 : Int) : ℚ) < s.WatchDogN_value →
      watchdogFirings (pollCycles env (n + 1) s).notices
          = watchdogFirings (pollCycles env n s).notices ∧
        closeCalls (pollCycles env (n + 1) s).hwCalls
          = closeCalls (pollCycles env n s).hwCalls) := by
  obtain ⟨h1, h2, h3⟩ := pollCycles_counter env s hconn n
  obtain ⟨hfire, hquiet⟩ := TimerHit_cycle env (pollCycles env n s) h1
  rw [h2, h3] at hfire hquiet
  rw [pollCycles_succ]
  constructor
  · intro hle
    obtain ⟨k, hk1, hk3, hcalls, hv⟩ := hfire ⟨⟨hT, hle⟩, hopen _⟩
    simp only [Dome.watchdogView, Prod.mk.injEq] at hv
    rw [hcalls, closeCalls_append_status]
    exact ⟨hv.2.2.2, by omega, by omega⟩
  · intro hlt
    obtain ⟨hcalls, hv⟩ := hquiet (fun h => absurd h.1.2 (not_le.mpr hlt))
    simp only [Dome.watchdogView, Prod.mk.injEq] at hv
    rw [hcalls]
    refine ⟨hv.2.2.2, ?_⟩
    unfold closeCalls
    simp


/-! ## Watchdog: the claim -/

/-- C6 as stated fails: with the watchdog timeout at 5, no user command and the
shutter reported open in every poll, the watchdog has fired once after 5 poll
cycles and twice after 6: the cycle after the one in which the counter reached
the timeout issues a further close command. -/
theorem C6_watchdog_fires_again :
    watchdogFirings (pollCycles envShutterOpen 5 watchdog5).notices = 1 ∧
      watchdogFirings (pollCycles envShutterOpen 6 watchdog5).notices = 2 ∧
      closeCalls (pollCycles envShutterOpen 5 watchdog5).hwCalls
        < closeCalls (pollCycles envShutterOpen 6 watchdog5).hwCalls := by
  have hconn : watchdog5.connected = true := rfl
  have hT : 0 < watchdog5.WatchDogN_value := by norm_num [watchdog5]
  have hopen : ∀ k : Nat, (envShutterOpen.statusReply k).shutterSt ≠ ShStatus.SS_CLOSED := by
    intro k
    simp [envShutterOpen]
  have hW : watchdog5.WatchDogN_value = 5 := rfl
  have hC : watchdog5.nTimeSinceLastCommunication = 0 := rfl
  have q0 := (watchdog_run envShutterOpen watchdog5 0 hconn hT hopen).2
    (by rw [hW, hC]; norm_num)
  have q1 := (watchdog_run envShutterOpen watchdog5 1 hconn hT hopen).2
    (by rw [hW, hC]; norm_num)
  have q2 := (watchdog_run envShutterOpen watchdog5 2 hconn hT hopen).2
    (by rw [hW, hC]; norm_num)
  have q3 := (watchdog_run envShutterOpen watchdog5 3 hconn hT hopen).2
    (by rw [hW, hC]; norm_num)
  have f4 := (watchdog_run envShutterOpen watchdog5 4 hconn hT hopen).1
    (by rw [hW, hC]; norm_num)
  have f5 := (watchdog_run envShutterOpen watchdog5 5 hconn hT hopen).1
    (by rw [hW, hC]; norm_num)
  have h0 : watchdogFirings (pollCycles envShutterOpen 0 watchdog5).notices = 0 := by
    simp [pollCycles, watchdog5, newMaxDomeII, watchdogFirings]
  refine ⟨?_, ?_, ?_⟩
  · rw [f4.1, q3.1, q2.1, q1.1, q0.1, h0]
  · rw [f5.1, f4.1, q3.1, q2.1, q1.1, q0.1, h0]
  · exact f5.2.1

/-- C6, amended: the watchdog is level-triggered.  In a run of poll cycles with
no user command, with a timeout `T > 0` and the shutter reported not closed in
every poll, each poll cycle whose counter is at least `T` (the one in which the
counter reaches `T` and every later one) issues one shutter-close command (one
notified `ControlShutter(SHUTTER_CLOSE)`, one to three `CloseShutter` driver
calls); each cycle whose counter is below `T` issues none; and a user command
resets the counter to 0. -/
theorem C6_watchdog_level_triggered (env : Env) (s : Dome) (n : Nat)
    (hconn : s.connected = true) (hT : 0 < s.WatchDogN_value)
    (hopen : ∀ k : Nat, (env.statusReply k).shutterSt ≠ ShStatus.SS_CLOSED) :
    (s.WatchDogN_value ≤ ((s.nTimeSinceLastCommunication + (n : Int) + 1 : Int) : ℚ) →
      watchdogFirings (pollCycles env (n + 1) s).notices
          = watchdogFirings (pollCycles env n s).notices + 1 ∧
        closeCalls (pollCycles env n s).hwCalls + 1
          ≤ closeCalls (pollCycles env (n + 1) s).hwCalls ∧
        closeCalls (pollCycles env (n + 1) s).hwCalls
          ≤ closeCalls (pollCycles env n s).hwCalls + 3) ∧
    (((s.nTimeSinceLastCommunication + (n : Int) + 1 : Int) : ℚ) < s.WatchDogN_value →
      watchdogFirings (pollCycles env (n + 1) s).notices
          = watchdogFirings (pollCycles env n s).notices ∧
        closeCalls (pollCycles env (n + 1) s).hwCalls
          = closeCalls (pollCycles env n s).hwCalls) ∧
    (pollCycles env n s).nTimeSinceLastCommunication
        = s.nTimeSinceLastCommunication + (n : Int) ∧
    (userCommandReceived (pollCycles env n s)).nTimeSinceLastCommunication = 0 :=
  ⟨(watchdog_run env s n hconn hT hopen).1, (watchdog_run env s n hconn hT hopen).2,
    (pollCycles_counter env s hconn n).2.2, rfl⟩

/-- Witness of C6 amended: timeout 5, shutter reported open; cycle 7 (counter 7,
above the timeout) fires again, cycle 3 (counter 3, below it) does not. -/
theorem C6_watchdog_level_triggered_witness :
    watchdogFirings (pollCycles envShutterOpen 7 watchdog5).notices
        = watchdogFirings (pollCycles envShutterOpen 6 watchdog5).notices + 1 ∧
      watchdogFirings (pollCycles envShutterOpen 3 watchdog5).notices
        = watchdogFirings (pollCycles envShutterOpen 2 watchdog5).notices :=
  ⟨((C6_watchdog_level_triggered envShutterOpen watchdog5 6 rfl (by norm_num [watchdog5])
      (by intro k; simp [envShutterOpen])).1 (by norm_num [watchdog5, newMaxDomeII])).1,
    ((C6_watchdog_level_triggered envShutterOpen watchdog5 2 rfl (by norm_num [watchdog5])
      (by intro k; simp [envShutterOpen])).2.1 (by norm_num [watchdog5, newMaxDomeII])).1⟩

/-! ## Command retrier: the claims -/

/-- C7: for every sequence of hardware outcomes and every reconnect behaviour, a
retry loop started with budget 3 ends after `k` attempts with `1 <= k <= 3`;
every attempt before the last one failed (no attempt follows a success); the
result is the error code of the last attempt, 0 exactly when that attempt
succeeded.  A poll cycle, started with budget 1, makes exactly one `Status`
attempt (its other driver calls are the close commands of the watchdog). -/
theorem C7_retry_within_budget (env : Env) (c : HwCall) (e0 : Int) (s : Dome) :
    (∃ k : Nat, 1 ≤ k ∧ k ≤ 3 ∧
        (retryLoop env c 3 e0 s).dome.hwCalls = s.hwCalls ++ List.replicate k c ∧
        (∀ j : Nat, j + 1 < k → env.driverError (s.hwCalls.length + j) ≠ 0) ∧
        (retryLoop env c 3 e0 s).error = env.driverError (s.hwCalls.length + (k - 1)) ∧
        ((retryLoop env c 3 e0 s).error = 0 ↔
          env.driverError (s.hwCalls.length + (k - 1)) = 0)) ∧
    (s.connected = true →
      ∃ k : Nat, k ≤ 3 ∧
        (TimerHit env s).hwCalls
          = s.hwCalls ++ HwCall.Status :: List.replicate k HwCall.CloseShutter) := by
  constructor
  · obtain ⟨k, hk1, hk3, hlog, hfail, herr, _, _⟩ := retryLoop_spec env c 3 e0 s (by decide)
    exact ⟨k, hk1, hk3, hlog, hfail, herr, by rw [herr]⟩
  · intro hconn
    obtain ⟨hfire, hquiet⟩ := TimerHit_cycle env s hconn
    by_cases hdue : (0 < s.WatchDogN_value ∧
        s.WatchDogN_value ≤ ((s.nTimeSinceLastCommunication + 1 : Int) : ℚ)) ∧
        (env.statusReply s.hwCalls.length).shutterSt ≠ ShStatus.SS_CLOSED
    · obtain ⟨k, _, hk3, hcalls, _⟩ := hfire hdue
      exact ⟨k, hk3, hcalls⟩
    · exact ⟨0, by decide, (hquiet hdue).1⟩

/-- Witness of C7: a poll cycle on the freshly constructed driver, every driver
call succeeding. -/
theorem C7_retry_within_budget_witness :
    ∃ k : Nat, k ≤ 3 ∧
      (TimerHit envShutterOpen newMaxDomeII).hwCalls
        = newMaxDomeII.hwCalls ++ HwCall.Status :: List.replicate k HwCall.CloseShutter :=
  (C7_retry_within_budget envShutterOpen HwCall.AbortAzimuth 0 newMaxDomeII).2 rfl

/-- C8: in a retry loop, at an attempt made with any remaining budget `n > 0`:
when the attempt returns -5 (link lost) and the reconnect leaves `PortFD < 0`,
it is the last attempt and the result of the loop is -5; when the attempt fails
with another code, or with -5 and a reconnect that leaves `PortFD >= 0`, and
budget remains (`n >= 2`), a further attempt is made. -/
theorem C8_link_lost_abandons (env : Env) (c : HwCall) (n : Nat) (e0 : Int) (s : Dome)
    (hn : n ≠ 0) :
    (env.driverError s.hwCalls.length = -5 → env.portAfterConnect s.nConnect < 0 →
      (retryLoop env c n e0 s).dome.hwCalls = s.hwCalls ++ [c] ∧
        (retryLoop env c n e0 s).error = -5 ∧
        (retryLoop env c n e0 s).dome.PortFD < 0) ∧
    (env.driverError s.hwCalls.length ≠ 0 →
      (env.driverError s.hwCalls.length = -5 → 0 ≤ env.portAfterConnect s.nConnect) →
      2 ≤ n →
      ∃ k : Nat, 2 ≤ k ∧ k ≤ n ∧
        (retryLoop env c n e0 s).dome.hwCalls = s.hwCalls ++ List.replicate k c) := by
  constructor
  · intro h5 hport
    rw [retryLoop_pos env c n e0 s hn, driverCall_fst, h5,
      handle_driver_error_dead env n _ (by simpa [driverCall] using hport), retryLoop_zero]
    exact ⟨rfl, rfl, hport⟩
  · intro hne hport hn2
    have hstep :
        (handle_driver_error env (driverCall env c s).1 n (driverCall env c s).2).1 = n - 1 := by
      rw [driverCall_fst]
      by_cases h5 : env.driverError s.hwCalls.length = -5
      · rw [h5, handle_driver_error_reconnected env n _ (by simpa [driverCall] using hport h5)]
      · rw [handle_driver_error_other env _ n _ hne h5]
    obtain ⟨hcalls, _⟩ :=
      handle_driver_error_frame env (driverCall env c s).1 n (driverCall env c s).2
    rw [retryLoop_pos env c n e0 s hn, hstep]
    obtain ⟨k, hk1, hk2, hlog, _⟩ := retryLoop_spec env c (n - 1) (driverCall env c s).1
      (handle_driver_error env (driverCall env c s).1 n (driverCall env c s).2).2 (by omega)
    refine ⟨k + 1, by omega, by omega, ?_⟩
    rw [hlog, hcalls, driverCall_snd]
    simp [List.replicate_succ]

/-- Witness of C8: a link lost for good stops the home command after one
attempt; a hardware failing with code -3 gets a second attempt. -/
theorem C8_link_lost_abandons_witness :
    ((retryLoop envLinkDead HwCall.HomeAzimuth 3 0 newMaxDomeII).dome.hwCalls
        = newMaxDomeII.hwCalls ++ [HwCall.HomeAzimuth] ∧
      (retryLoop envLinkDead HwCall.HomeAzimuth 3 0 newMaxDomeII).error = -5 ∧
      (retryLoop envLinkDead HwCall.HomeAzimuth 3 0 newMaxDomeII).dome.PortFD < 0) ∧
    ∃ k : Nat, 2 ≤ k ∧ k ≤ 3 ∧
      (retryLoop envAlwaysFails HwCall.HomeAzimuth 3 0 newMaxDomeII).dome.hwCalls
        = newMaxDomeII.hwCalls ++ List.replicate k HwCall.HomeAzimuth :=
  ⟨(C8_link_lost_abandons envLinkDead HwCall.HomeAzimuth 3 0 newMaxDomeII (by decide)).1
      rfl (by decide),
    (C8_link_lost_abandons envAlwaysFails HwCall.HomeAzimuth 3 0 newMaxDomeII (by decide)).2
      (by decide) (by decide) (by decide)⟩

/-! ## MoveAbs: the claims -/

theorem mod360_of_nonneg_lt (x : ℚ) (h0 : 0 ≤ x) (h : x < 360) : mod360 x = x := by
  unfold mod360
  have hf : ⌊x / 360⌋ = 0 := by
    rw [Int.floor_eq_iff]
    constructor
    · simp only [Int.cast_zero]
      positivity
    · simp only [Int.cast_zero, zero_add]
      rw [div_lt_one (by norm_num)]
      exact h
  rw [hf]
  simp

theorem mod360_of_neg (x : ℚ) (h0 : -360 ≤ x) (h : x < 0) : mod360 x = x + 360 := by
  unfold mod360
  have hf : ⌊x / 360⌋ = -1 := by
    rw [Int.floor_eq_iff]
    constructor
    · simp only [Int.reduceNeg, Int.cast_neg, Int.cast_one]
      rw [le_div_iff₀ (by norm_num)]
      linarith
    · simp only [Int.reduceNeg, Int.cast_neg, Int.cast_one, neg_add_cancel]
      rw [div_lt_iff₀ (by norm_num)]
      linarith
  rw [hf]
  push_cast
  ring

/-- The direction chosen by `MoveAbs` for azimuths in `[0, 360)`: the travel in
the chosen direction is at most 180 degrees and at most the travel in the other
direction. -/
theorem MoveAbs_nDir_shortest (currAZ newAZ : ℚ) (hc0 : 0 ≤ currAZ) (hc : currAZ < 360)
    (ht0 : 0 ≤ newAZ) (ht : newAZ < 360) :
    (MoveAbs.nDir currAZ newAZ = Direction.MAXDOMEII_EW_DIR →
      mod360 (newAZ - currAZ) ≤ 180 ∧ mod360 (newAZ - currAZ) ≤ mod360 (currAZ - newAZ)) ∧
    (MoveAbs.nDir currAZ newAZ = Direction.MAXDOMEII_WE_DIR →
      mod360 (currAZ - newAZ) ≤ 180 ∧ mod360 (currAZ - newAZ) ≤ mod360 (newAZ - currAZ)) := by
  unfold MoveAbs.nDir
  by_cases hgt : newAZ > currAZ
  · rw [if_pos hgt, mod360_of_nonneg_lt (newAZ - currAZ) (by linarith) (by linarith),
      mod360_of_neg (currAZ - newAZ) (by linarith) (by linarith)]
    by_cases hfar : newAZ - currAZ > 180
    · rw [if_pos hfar]
      exact ⟨fun h => absurd h (by decide), fun _ => ⟨by linarith, by linarith⟩⟩
    · rw [if_neg hfar]
      exact ⟨fun _ => ⟨by linarith, by linarith⟩, fun h => absurd h (by decide)⟩
  · rw [if_neg hgt, mod360_of_nonneg_lt (currAZ - newAZ) (by linarith) (by linarith)]
    by_cases hfar : currAZ - newAZ > 180
    · rw [if_pos hfar, mod360_of_neg (newAZ - currAZ) (by linarith) (by linarith)]
      exact ⟨fun _ => ⟨by linarith, by linarith⟩, fun h => absurd h (by decide)⟩
    · rw [if_neg hfar]
      refine ⟨fun h => absurd h (by decide), fun _ => ⟨by linarith, ?_⟩⟩
      by_cases heq : newAZ = currAZ
      · rw [heq, sub_self, mod360_of_nonneg_lt 0 (le_refl 0) (by norm_num)]
      · have hlt : newAZ - currAZ < 0 := by
          rcases lt_or_gt_of_ne heq with h | h
          · linarith
          · exact absurd h hgt
        rw [mod360_of_neg (newAZ - currAZ) (by linarith) hlt]
        linarith

/-- What `MoveAbs` does, in terms of the hardware outcomes: `k` attempts
(`1 <= k <= 3`) of `GotoAzimuth` with the chosen direction and the converted
target; Busy with target and timer set when the last attempt succeeded, Alert
with target and timer untouched when it failed. -/
theorem MoveAbs_spec (env : Env) (newAZ : ℚ) (s : Dome) :
    ∃ k : Nat, 1 ≤ k ∧ k ≤ 3 ∧
      (MoveAbs env newAZ s).2.hwCalls = s.hwCalls ++ List.replicate k
        (HwCall.GotoAzimuth (MoveAbs.nDir s.DomeAbsPosN_value newAZ)
          (AzimuthToTicks s.nHomeAzimuth s.nTicksPerTurn newAZ)) ∧
      (env.driverError (s.hwCalls.length + (k - 1)) = 0 →
        (MoveAbs env newAZ s).1 = IPState.IPS_BUSY ∧
        (MoveAbs env newAZ s).2.nTargetAzimuth
          = AzimuthToTicks s.nHomeAzimuth s.nTicksPerTurn newAZ ∧
        (MoveAbs env newAZ s).2.nTimeSinceAzimuthStart = 0) ∧
      (env.driverError (s.hwCalls.length + (k - 1)) ≠ 0 →
        (MoveAbs env newAZ s).1 = IPState.IPS_ALERT ∧
        (MoveAbs env newAZ s).2.nTargetAzimuth = s.nTargetAzimuth ∧
        (MoveAbs env newAZ s).2.nTimeSinceAzimuthStart = s.nTimeSinceAzimuthStart) := by
  obtain ⟨k, hk1, hk3, hlog, _, herr, _, hfr⟩ := retryLoop_spec env
    (HwCall.GotoAzimuth (MoveAbs.nDir s.DomeAbsPosN_value newAZ)
      (AzimuthToTicks s.nHomeAzimuth s.nTicksPerTurn newAZ)) 3 0 s (by decide)
  have htarget := congrArg Dome.nTargetAzimuth hfr
  have htimer := congrArg Dome.nTimeSinceAzimuthStart hfr
  simp only [] at htarget htimer
  refine ⟨k, hk1, hk3, ?_, ?_, ?_⟩
  · unfold MoveAbs
    simp only []
    split_ifs <;> exact hlog
  · intro h0
    rw [← herr] at h0
    unfold MoveAbs
    simp only []
    rw [if_neg (not_not.mpr h0)]
    exact ⟨rfl, rfl, rfl⟩
  · intro hne
    rw [← herr] at hne
    unfold MoveAbs
    simp only []
    rw [if_pos hne]
    exact ⟨rfl, htarget, htimer⟩


/-- C9: `MoveAbs` takes the shortest path.  For a current azimuth (the
published position) and a target, both in `[0, 360)`, every `GotoAzimuth` call
of `MoveAbs` carries one direction `d`, and at least one call is made; `d` is
the increasing direction `MAXDOMEII_EW_DIR` only if `(target - current) mod 360
<= 180`, and the decreasing direction `MAXDOMEII_WE_DIR` only if
`(current - target) mod 360 <= 180`; in both cases the travel in the chosen
direction is at most the travel in the other one.  From 10 to 200 the direction
is decreasing, from 10 to 100 increasing. -/
theorem C9_MoveAbs_shortest_path (env : Env) (newAZ : ℚ) (s : Dome)
    (hc0 : 0 ≤ s.DomeAbsPosN_value) (hc : s.DomeAbsPosN_value < 360)
    (ht0 : 0 ≤ newAZ) (ht : newAZ < 360) :
    (∃ (d : Direction) (k : Nat), 1 ≤ k ∧ k ≤ 3 ∧
      (MoveAbs env newAZ s).2.hwCalls = s.hwCalls ++ List.replicate k
        (HwCall.GotoAzimuth d (AzimuthToTicks s.nHomeAzimuth s.nTicksPerTurn newAZ)) ∧
      (d = Direction.MAXDOMEII_EW_DIR →
        mod360 (newAZ - s.DomeAbsPosN_value) ≤ 180 ∧
        mod360 (newAZ - s.DomeAbsPosN_value) ≤ mod360 (s.DomeAbsPosN_value - newAZ)) ∧
      (d = Direction.MAXDOMEII_WE_DIR →
        mod360 (s.DomeAbsPosN_value - newAZ) ≤ 180 ∧
        mod360 (s.DomeAbsPosN_value - newAZ) ≤ mod360 (newAZ - s.DomeAbsPosN_value))) ∧
    MoveAbs.nDir 10 200 = Direction.MAXDOMEII_WE_DIR ∧
    MoveAbs.nDir 10 100 = Direction.MAXDOMEII_EW_DIR := by
  obtain ⟨k, hk1, hk3, hlog, _⟩ := MoveAbs_spec env newAZ s
  obtain ⟨hew, hwe⟩ := MoveAbs_nDir_shortest s.DomeAbsPosN_value newAZ hc0 hc ht0 ht
  refine ⟨⟨MoveAbs.nDir s.DomeAbsPosN_value newAZ, k, hk1, hk3, hlog, hew, hwe⟩, ?_, ?_⟩
  · unfold MoveAbs.nDir
    norm_num
  · unfold MoveAbs.nDir
    norm_num

/-- Witness of C9: the published azimuth is 10 and the target 200; the
`GotoAzimuth` calls carry the decreasing direction. -/
theorem C9_MoveAbs_shortest_path_witness :
    ∃ (d : Direction) (k : Nat), 1 ≤ k ∧ k ≤ 3 ∧
      (MoveAbs envShutterOpen 200 domeAt10).2.hwCalls = domeAt10.hwCalls ++ List.replicate k
        (HwCall.GotoAzimuth d (AzimuthToTicks domeAt10.nHomeAzimuth domeAt10.nTicksPerTurn 200)) ∧
      (d = Direction.MAXDOMEII_EW_DIR →
        mod360 (200 - domeAt10.DomeAbsPosN_value) ≤ 180 ∧
        mod360 (200 - domeAt10.DomeAbsPosN_value) ≤ mod360 (domeAt10.DomeAbsPosN_value - 200)) ∧
      (d = Direction.MAXDOMEII_WE_DIR →
        mod360 (domeAt10.DomeAbsPosN_value - 200) ≤ 180 ∧
        mod360 (domeAt10.DomeAbsPosN_value - 200) ≤ mod360 (200 - domeAt10.DomeAbsPosN_value)) :=
  (C9_MoveAbs_shortest_path envShutterOpen 200 domeAt10
    (by norm_num [domeAt10]) (by norm_num [domeAt10]) (by norm_num) (by norm_num)).1

/-- C10: `MoveAbs(target)` makes `k` attempts of `GotoAzimuth` (`1 <= k <= 3`) and
returns Busy exactly when the last attempt ended without error; then the stored
target is `AzimuthToTicks(target)` and the azimuth timer is 0.  When the last
attempt ended with an error, `MoveAbs` returns Alert and the stored target and
the azimuth timer are unchanged. -/
theorem C10_MoveAbs_result (env : Env) (newAZ : ℚ) (s : Dome) :
    ∃ k : Nat, 1 ≤ k ∧ k ≤ 3 ∧
      (MoveAbs env newAZ s).2.hwCalls = s.hwCalls ++ List.replicate k
        (HwCall.GotoAzimuth (MoveAbs.nDir s.DomeAbsPosN_value newAZ)
          (AzimuthToTicks s.nHomeAzimuth s.nTicksPerTurn newAZ)) ∧
      ((MoveAbs env newAZ s).1 = IPState.IPS_BUSY ↔
        env.driverError (s.hwCalls.length + (k - 1)) = 0) ∧
      (env.driverError (s.hwCalls.length + (k - 1)) = 0 →
        (MoveAbs env newAZ s).2.nTargetAzimuth
          = AzimuthToTicks s.nHomeAzimuth s.nTicksPerTurn newAZ ∧
        (MoveAbs env newAZ s).2.nTimeSinceAzimuthStart = 0) ∧
      (env.driverError (s.hwCalls.length + (k - 1)) ≠ 0 →
        (MoveAbs env newAZ s).1 = IPState.IPS_ALERT ∧
        (MoveAbs env newAZ s).2.nTargetAzimuth = s.nTargetAzimuth ∧
        (MoveAbs env newAZ s).2.nTimeSinceAzimuthStart = s.nTimeSinceAzimuthStart) := by
  obtain ⟨k, hk1, hk3, hlog, hok, hfail⟩ := MoveAbs_spec env newAZ s
  refine ⟨k, hk1, hk3, hlog, ⟨?_, fun h => (hok h).1⟩, fun h => (hok h).2, hfail⟩
  intro hbusy
  by_contra hne
  rw [(hfail hne).1] at hbusy
  exact absurd hbusy (by decide)

/-- Witness of C10: a move to 200 degrees on a hardware that always fails with
code -3 returns Alert and leaves target and timer as they were. -/
theorem C10_MoveAbs_result_witness :
    ∃ k : Nat, 1 ≤ k ∧ k ≤ 3 ∧
      (MoveAbs envAlwaysFails 200 domeAt10).2.hwCalls = domeAt10.hwCalls ++ List.replicate k
        (HwCall.GotoAzimuth (MoveAbs.nDir domeAt10.DomeAbsPosN_value 200)
          (AzimuthToTicks domeAt10.nHomeAzimuth domeAt10.nTicksPerTurn 200)) ∧
      (MoveAbs envAlwaysFails 200 domeAt10).1 = IPState.IPS_ALERT ∧
      (MoveAbs envAlwaysFails 200 domeAt10).2.nTargetAzimuth = domeAt10.nTargetAzimuth ∧
      (MoveAbs envAlwaysFails 200 domeAt10).2.nTimeSinceAzimuthStart
        = domeAt10.nTimeSinceAzimuthStart := by
  obtain ⟨k, hk1, hk3, hlog, _, _, hfail⟩ := C10_MoveAbs_result envAlwaysFails 200 domeAt10
  exact ⟨k, hk1, hk3, hlog, hfail (by simp [envAlwaysFails])⟩

/-! ## Frame equations of the poll cycle -/

theorem sameButLink_eq {s t : Dome} (h : s.sameButLink t) :
    t = { s with PortFD := t.PortFD, nConnect := t.nConnect, hwCalls := t.hwCalls } := h

/-- The timer increments change only the two movement timers. -/
theorem TimerHit_timers_changes (s : Dome) :
    TimerHit.timers s = { s with
      nTimeSinceShutterStart := (TimerHit.timers s).nTimeSinceShutterStart,
      nTimeSinceAzimuthStart := (TimerHit.timers s).nTimeSinceAzimuthStart } := by
  unfold TimerHit.timers
  simp only []
  split_ifs <;> rfl

/-- The shutter command changes only the link fields and the shutter timer. -/
theorem ControlShutter_changes (env : Env) (op : ShutterOperation) (s : Dome) :
    (ControlShutter env op s).2 = { s with
      PortFD := (ControlShutter env op s).2.PortFD,
      nConnect := (ControlShutter env op s).2.nConnect,
      hwCalls := (ControlShutter env op s).2.hwCalls,
      nTimeSinceShutterStart := 0 } := by
  have h1 := (retryLoop_spec env HwCall.CloseShutter 3 0 s (by decide)).choose_spec.2.2.2.2.2.2
  have h2 := (retryLoop_spec env HwCall.OpenShutter 3 0 s (by decide)).choose_spec.2.2.2.2.2.2
  have h3 := (retryLoop_spec env HwCall.OpenUpperShutterOnly 3 0 s (by decide)).choose_spec.2.2.2.2.2.2
  unfold Dome.sameButLink at h1 h2 h3
  unfold ControlShutter
  simp only []
  split_ifs
  · show ({ (retryLoop env HwCall.CloseShutter 3 0 s).dome with nTimeSinceShutterStart := 0 } : Dome) = _
    rw [h1]
  · show ({ (retryLoop env HwCall.CloseShutter 3 0 s).dome with nTimeSinceShutterStart := 0 } : Dome) = _
    rw [h1]
  · show ({ (retryLoop env HwCall.OpenShutter 3 0 s).dome with nTimeSinceShutterStart := 0 } : Dome) = _
    rw [h2]
  · show ({ (retryLoop env HwCall.OpenShutter 3 0 s).dome with nTimeSinceShutterStart := 0 } : Dome) = _
    rw [h2]
  · show ({ (retryLoop env HwCall.OpenUpperShutterOnly 3 0 s).dome with nTimeSinceShutterStart := 0 } : Dome) = _
    rw [h3]
  · show ({ (retryLoop env HwCall.OpenUpperShutterOnly 3 0 s).dome with nTimeSinceShutterStart := 0 } : Dome) = _
    rw [h3]

/-- The watchdog block changes only the cycle counter and, when it fires, the
link fields, the shutter timer, the shutter public state and the notices. -/
theorem TimerHit_watchdog_changes (env : Env) (st : ShStatus) (s : Dome) :
    TimerHit.watchdog env st s = { s with
      nTimeSinceLastCommunication := s.nTimeSinceLastCommunication + 1,
      PortFD := (TimerHit.watchdog env st s).PortFD,
      nConnect := (TimerHit.watchdog env st s).nConnect,
      hwCalls := (TimerHit.watchdog env st s).hwCalls,
      nTimeSinceShutterStart := (TimerHit.watchdog env st s).nTimeSinceShutterStart,
      DomeShutterSP_s := (TimerHit.watchdog env st s).DomeShutterSP_s,
      notices := (TimerHit.watchdog env st s).notices } := by
  unfold TimerHit.watchdog
  simp only []
  split_ifs
  · rw [ControlShutter_changes]
    rfl
  · rfl
  · rfl

/-- The watchdog block when it does not fire: only the counter advances. -/
theorem TimerHit_watchdog_quiet (env : Env) (st : ShStatus) (s : Dome)
    (h : ¬ ((0 < s.WatchDogN_value ∧
        s.WatchDogN_value ≤ ((s.nTimeSinceLastCommunication + 1 : Int) : ℚ)) ∧
        st ≠ ShStatus.SS_CLOSED)) :
    TimerHit.watchdog env st s
      = { s with nTimeSinceLastCommunication := s.nTimeSinceLastCommunication + 1 } := by
  unfold TimerHit.watchdog
  simp only []
  by_cases hdue : 0 < s.WatchDogN_value ∧
      s.WatchDogN_value ≤ ((s.nTimeSinceLastCommunication + 1 : Int) : ℚ)
  · have hst : ¬ st ≠ ShStatus.SS_CLOSED := fun hne => h ⟨hdue, hne⟩
    rw [if_pos (by simpa using hdue), if_neg hst]
  · rw [if_neg (by simpa using hdue)]

/-- The shutter reconciliation changes only the shutter public state, the two
direction flags, the shutter timer and the notices. -/
theorem TimerHit_shutter_changes (st : ShStatus) (s : Dome) :
    TimerHit.shutter st s = { s with
      DomeShutterSP_s := (TimerHit.shutter st s).DomeShutterSP_s,
      DomeShutterS0 := (TimerHit.shutter st s).DomeShutterS0,
      DomeShutterS1 := (TimerHit.shutter st s).DomeShutterS1,
      nTimeSinceShutterStart := (TimerHit.shutter st s).nTimeSinceShutterStart,
      notices := (TimerHit.shutter st s).notices } := by
  cases st <;> dsimp only [TimerHit.shutter] <;> (try split_ifs) <;> rfl

/-- The position refresh changes only the published position and the notices. -/
theorem TimerHit_position_changes (s : Dome) :
    TimerHit.position s = { s with
      DomeAbsPosN_value := (TimerHit.position s).DomeAbsPosN_value,
      notices := (TimerHit.position s).notices } := by
  unfold TimerHit.position
  simp only []
  split_ifs <;> rfl

/-- The arrival branch changes only the azimuth public state and timer, the home
control, the parked flag with its log, and the notices. -/
theorem TimerHit_arrival_changes (s : Dome) :
    TimerHit.arrival s = { s with
      DomeAbsPosNP_s := (TimerHit.arrival s).DomeAbsPosNP_s,
      nTimeSinceAzimuthStart := (TimerHit.arrival s).nTimeSinceAzimuthStart,
      HomeS0 := (TimerHit.arrival s).HomeS0,
      HomeSP_s := (TimerHit.arrival s).HomeSP_s,
      IsParked := (TimerHit.arrival s).IsParked,
      setParkedCalls := (TimerHit.arrival s).setParkedCalls,
      notices := (TimerHit.arrival s).notices } := by
  unfold TimerHit.arrival
  simp only []
  split_ifs <;> rfl

/-- The azimuth reconciliation changes only the azimuth public state, timer and
target, the home control, the parked flag with its log, and the notices. -/
theorem TimerHit_azimuth_changes (az : AzStatus) (s : Dome) :
    TimerHit.azimuth az s = { s with
      DomeAbsPosNP_s := (TimerHit.azimuth az s).DomeAbsPosNP_s,
      nTimeSinceAzimuthStart := (TimerHit.azimuth az s).nTimeSinceAzimuthStart,
      nTargetAzimuth := (TimerHit.azimuth az s).nTargetAzimuth,
      HomeS0 := (TimerHit.azimuth az s).HomeS0,
      HomeSP_s := (TimerHit.azimuth az s).HomeSP_s,
      IsParked := (TimerHit.azimuth az s).IsParked,
      setParkedCalls := (TimerHit.azimuth az s).setParkedCalls,
      notices := (TimerHit.azimuth az s).notices } := by
  cases az <;> dsimp only [TimerHit.azimuth] <;> (try split_ifs) <;>
    first
      | rfl
      | rw [TimerHit_arrival_changes]

/-- A poll cycle while connected, in terms of its parts. -/
theorem TimerHit_connected (env : Env) (s : Dome) (hconn : s.connected = true) :
    TimerHit env s =
      if (driverCall env HwCall.Status s).1 = 0 then
        SetTimer (TimerHit.azimuth (env.statusReply s.hwCalls.length).nAzimuthStatus
          (TimerHit.position (TimerHit.shutter (env.statusReply s.hwCalls.length).shutterSt
            (TimerHit.watchdog env (env.statusReply s.hwCalls.length).shutterSt
              (TimerHit.timers (handle_driver_error env (driverCall env HwCall.Status s).1 1
                { (driverCall env HwCall.Status s).2 with
                  nCurrentTicks := (env.statusReply s.hwCalls.length).nCurrentTicks }).2)))))
      else
        TimerHit.watchdog env (env.statusReply s.hwCalls.length).shutterSt
          (TimerHit.timers (handle_driver_error env (driverCall env HwCall.Status s).1 1
            { (driverCall env HwCall.Status s).2 with
              nCurrentTicks := (env.statusReply s.hwCalls.length).nCurrentTicks }).2) := by
  unfold TimerHit
  rw [if_neg (by simp [hconn])]

/-- A successful poll cycle while connected: the polled tick count is stored, the
timers advance, then watchdog, shutter, position and azimuth blocks run and the
next poll is scheduled. -/
theorem TimerHit_success (env : Env) (s : Dome) (hconn : s.connected = true)
    (hok : env.driverError s.hwCalls.length = 0) :
    TimerHit env s =
      SetTimer (TimerHit.azimuth (env.statusReply s.hwCalls.length).nAzimuthStatus
        (TimerHit.position (TimerHit.shutter (env.statusReply s.hwCalls.length).shutterSt
          (TimerHit.watchdog env (env.statusReply s.hwCalls.length).shutterSt
            (TimerHit.timers
              { s with hwCalls := s.hwCalls ++ [HwCall.Status],
                       nCurrentTicks := (env.statusReply s.hwCalls.length).nCurrentTicks }))))) := by
  rw [TimerHit_connected env s hconn, driverCall_fst, hok, if_pos rfl,
    handle_driver_error_success]
  rfl

/-- A failed poll cycle while connected: after the timers and the watchdog block
the function returns. -/
theorem TimerHit_failure (env : Env) (s : Dome) (hconn : s.connected = true)
    (herr : env.driverError s.hwCalls.length ≠ 0) :
    TimerHit env s =
      TimerHit.watchdog env (env.statusReply s.hwCalls.length).shutterSt
        (TimerHit.timers (handle_driver_error env (env.driverError s.hwCalls.length) 1
          { s with hwCalls := s.hwCalls ++ [HwCall.Status],
                   nCurrentTicks := (env.statusReply s.hwCalls.length).nCurrentTicks }).2) := by
  rw [TimerHit_connected env s hconn, driverCall_fst, if_neg herr]
  rfl

/-! ## What each block of the poll cycle leaves alone -/

theorem TimerHit_timers_side (s : Dome) :
    (TimerHit.timers s).azimuthSide = s.azimuthSide ∧
      (TimerHit.timers s).nCurrentTicks = s.nCurrentTicks ∧
      (TimerHit.timers s).hwCalls = s.hwCalls := by
  have h := TimerHit_timers_changes s
  have a0 := congrArg Dome.azimuthSide h
  have a1 := congrArg Dome.nCurrentTicks h
  have a2 := congrArg Dome.hwCalls h
  exact ⟨a0, a1, a2⟩

theorem TimerHit_watchdog_side (env : Env) (st : ShStatus) (s : Dome) :
    (TimerHit.watchdog env st s).azimuthSide = s.azimuthSide ∧
      (TimerHit.watchdog env st s).azimuthClock = s.azimuthClock := by
  have h := TimerHit_watchdog_changes env st s
  have a0 := congrArg Dome.azimuthSide h
  have a1 := congrArg Dome.azimuthClock h
  exact ⟨a0, a1⟩

theorem TimerHit_shutter_side (st : ShStatus) (s : Dome) :
    (TimerHit.shutter st s).azimuthSide = s.azimuthSide ∧
      (TimerHit.shutter st s).azimuthClock = s.azimuthClock := by
  have h := TimerHit_shutter_changes st s
  have a0 := congrArg Dome.azimuthSide h
  have a1 := congrArg Dome.azimuthClock h
  exact ⟨a0, a1⟩

theorem TimerHit_position_side (s : Dome) :
    (TimerHit.position s).azimuthSide = s.azimuthSide ∧
      (TimerHit.position s).azimuthClock = s.azimuthClock ∧
      (TimerHit.position s).shutterSide = s.shutterSide := by
  have h := TimerHit_position_changes s
  have a0 := congrArg Dome.azimuthSide h
  have a1 := congrArg Dome.azimuthClock h
  have a2 := congrArg Dome.shutterSide h
  exact ⟨a0, a1, a2⟩

theorem TimerHit_azimuth_shutterSide (az : AzStatus) (s : Dome) :
    (TimerHit.azimuth az s).shutterSide = s.shutterSide := by
  have h := TimerHit_azimuth_changes az s
  have a0 := congrArg Dome.shutterSide h
  exact a0

theorem handle_driver_error_side (env : Env) (e : Int) (n : Nat) (s : Dome) :
    (handle_driver_error env e n s).2.azimuthSide = s.azimuthSide ∧
      (handle_driver_error env e n s).2.azimuthClock = s.azimuthClock := by
  have h := sameButLink_eq (handle_driver_error_frame env e n s).2
  have a0 := congrArg Dome.azimuthSide h
  have a1 := congrArg Dome.azimuthClock h
  exact ⟨a0, a1⟩

theorem TimerHit_timers_azimuth (s : Dome) :
    (TimerHit.timers s).nTimeSinceAzimuthStart
      = if s.nTimeSinceAzimuthStart ≥ 0 then s.nTimeSinceAzimuthStart + 1
        else s.nTimeSinceAzimuthStart := by
  unfold TimerHit.timers
  simp only []
  split_ifs <;> rfl

theorem TimerHit_timers_shutter (s : Dome) :
    (TimerHit.timers s).shutterSide
      = (s.DomeShutterSP_s, s.DomeShutterS0, s.DomeShutterS1,
          if s.nTimeSinceShutterStart ≥ 0 then s.nTimeSinceShutterStart + 1
          else s.nTimeSinceShutterStart) := by
  unfold TimerHit.timers Dome.shutterSide
  simp only []
  split_ifs <;> rfl

/-- The state a successful poll cycle hands to its azimuth block: the azimuth
side is that of the start of the cycle, the tick count is the polled one and the
azimuth timer has advanced when it was outstanding. -/
theorem TimerHit_before_azimuth (env : Env) (st : ShStatus) (c : Int) (s : Dome) :
    (TimerHit.position (TimerHit.shutter st (TimerHit.watchdog env st (TimerHit.timers
        { s with hwCalls := s.hwCalls ++ [HwCall.Status], nCurrentTicks := c })))).azimuthSide
      = s.azimuthSide ∧
    (TimerHit.position (TimerHit.shutter st (TimerHit.watchdog env st (TimerHit.timers
        { s with hwCalls := s.hwCalls ++ [HwCall.Status], nCurrentTicks := c })))).azimuthClock
      = (if s.nTimeSinceAzimuthStart ≥ 0 then s.nTimeSinceAzimuthStart + 1
          else s.nTimeSinceAzimuthStart, c) := by
  constructor
  · rw [(TimerHit_position_side _).1, (TimerHit_shutter_side _ _).1,
      (TimerHit_watchdog_side _ _ _).1, (TimerHit_timers_side _).1]
    rfl
  · rw [(TimerHit_position_side _).2.1, (TimerHit_shutter_side _ _).2,
      (TimerHit_watchdog_side _ _ _).2]
    unfold Dome.azimuthClock
    rw [TimerHit_timers_azimuth, (TimerHit_timers_side _).2.1]

/-- The schedule count after a poll cycle while connected: one more when the
status query succeeded, unchanged when it failed. -/
theorem TimerHit_schedules (env : Env) (s : Dome) (hconn : s.connected = true) :
    (env.driverError s.hwCalls.length = 0 → (TimerHit env s).nSetTimer = s.nSetTimer + 1) ∧
    (env.driverError s.hwCalls.length ≠ 0 → (TimerHit env s).nSetTimer = s.nSetTimer) := by
  constructor
  · intro hok
    rw [TimerHit_success env s hconn hok]
    have h1 := congrArg Dome.nSetTimer (TimerHit_azimuth_changes
      (env.statusReply s.hwCalls.length).nAzimuthStatus
      (TimerHit.position (TimerHit.shutter (env.statusReply s.hwCalls.length).shutterSt
        (TimerHit.watchdog env (env.statusReply s.hwCalls.length).shutterSt (TimerHit.timers
          { s with hwCalls := s.hwCalls ++ [HwCall.Status],
                   nCurrentTicks := (env.statusReply s.hwCalls.length).nCurrentTicks })))))
    have h2 := (TimerHit_before_azimuth env (env.statusReply s.hwCalls.length).shutterSt
      (env.statusReply s.hwCalls.length).nCurrentTicks s).1
    simp only [Dome.azimuthSide, Prod.mk.injEq] at h2
    show (TimerHit.azimuth _ _).nSetTimer + 1 = s.nSetTimer + 1
    rw [h1]
    show (TimerHit.position _).nSetTimer + 1 = s.nSetTimer + 1
    rw [h2.2.2.2.2.2.2.2.2.2.2.2.1]
  · intro herr
    rw [TimerHit_failure env s hconn herr]
    have h1 := (TimerHit_watchdog_side env (env.statusReply s.hwCalls.length).shutterSt
      (TimerHit.timers (handle_driver_error env (env.driverError s.hwCalls.length) 1
          { s with hwCalls := s.hwCalls ++ [HwCall.Status],
                   nCurrentTicks := (env.statusReply s.hwCalls.length).nCurrentTicks }).2)).1
    rw [(TimerHit_timers_side _).1, (handle_driver_error_side _ _ _ _).1] at h1
    simp only [Dome.azimuthSide, Prod.mk.injEq] at h1
    exact h1.2.2.2.2.2.2.2.2.2.2.2.1

/-! ## The azimuth block on an idle dome -/

theorem TimerHit_azimuth_idle_wait (az : AzStatus) (s : Dome)
    (hidle : az = AzStatus.AS_IDLE ∨ az = AzStatus.AS_IDLE2)
    (h : s.nTimeSinceAzimuthStart ≤ 3) : TimerHit.azimuth az s = s := by
  rcases hidle with rfl | rfl <;> dsimp only [TimerHit.azimuth] <;> rw [if_neg (by omega)]

theorem TimerHit_azimuth_idle_missed (az : AzStatus) (s : Dome)
    (hidle : az = AzStatus.AS_IDLE ∨ az = AzStatus.AS_IDLE2)
    (h : 3 < s.nTimeSinceAzimuthStart) (hg : 0 ≤ s.nTargetAzimuth)
    (hd : 3 < AzimuthDistance s.nTicksPerTurn s.nTargetAzimuth s.nCurrentTicks) :
    TimerHit.azimuth az s = IDSet Property.DomeAbsPosNP "Could not position right"
      { s with DomeAbsPosNP_s := IPState.IPS_ALERT, nTimeSinceAzimuthStart := -1 } := by
  rcases hidle with rfl | rfl <;> dsimp only [TimerHit.azimuth] <;>
    rw [if_pos (by omega), if_pos ⟨by omega, by omega⟩]

theorem TimerHit_azimuth_idle_arrived (az : AzStatus) (s : Dome)
    (hidle : az = AzStatus.AS_IDLE ∨ az = AzStatus.AS_IDLE2)
    (h : 3 < s.nTimeSinceAzimuthStart)
    (hd : ¬ (0 ≤ s.nTargetAzimuth ∧
      3 < AzimuthDistance s.nTicksPerTurn s.nTargetAzimuth s.nCurrentTicks)) :
    TimerHit.azimuth az s = TimerHit.arrival s := by
  have hd2 : ¬ (s.nTargetAzimuth ≥ 0 ∧
      AzimuthDistance s.nTicksPerTurn s.nTargetAzimuth s.nCurrentTicks > 3) := hd
  rcases hidle with rfl | rfl <;> dsimp only [TimerHit.azimuth] <;>
    rw [if_pos (by omega), if_neg hd2]

/-- The arrival branch leaves the azimuth public state Ok. -/
theorem TimerHit_arrival_ok (s : Dome) : (TimerHit.arrival s).DomeAbsPosNP_s = IPState.IPS_OK := by
  unfold TimerHit.arrival
  simp only []
  by_cases h1 : s.DomeAbsPosNP_s = IPState.IPS_OK
  · rw [if_neg (not_not.mpr h1)]
    split_ifs <;> exact h1
  · rw [if_pos h1]
    split_ifs <;> rfl

/-! ## Abort: the claims -/

/-- The two loops of `Abort`: the first makes one to three `AbortAzimuth`
attempts and leaves `nRetry = 0`, so the second loop is not entered; only the
link fields change. -/
theorem Abort_loops (env : Env) (s : Dome) :
    ∃ k : Nat, 1 ≤ k ∧ k ≤ 3 ∧
      (retryLoop env HwCall.AbortShutter (retryLoop env HwCall.AbortAzimuth 3 0 s).nRetry
          (retryLoop env HwCall.AbortAzimuth 3 0 s).error
          (retryLoop env HwCall.AbortAzimuth 3 0 s).dome).dome
        = (retryLoop env HwCall.AbortAzimuth 3 0 s).dome ∧
      (retryLoop env HwCall.AbortAzimuth 3 0 s).dome.hwCalls
        = s.hwCalls ++ List.replicate k HwCall.AbortAzimuth ∧
      s.sameButLink (retryLoop env HwCall.AbortAzimuth 3 0 s).dome := by
  obtain ⟨k, hk1, hk3, hlog, _, _, hret, hfr⟩ :=
    retryLoop_spec env HwCall.AbortAzimuth 3 0 s (by decide)
  refine ⟨k, hk1, hk3, ?_, hlog, hfr⟩
  rw [hret, retryLoop_zero]

/-- C11 on the code: for every hardware behaviour and every state, all driver
calls of `Abort` are `AbortAzimuth` attempts (one to three of them); no
`AbortShutter` call is made, because the second loop starts with the `nRetry`
the first loop left, which is 0. -/
theorem C11_Abort_never_calls_AbortShutter (env : Env) (s : Dome) :
    (∃ k : Nat, 1 ≤ k ∧ k ≤ 3 ∧
      (Abort env s).2.hwCalls = s.hwCalls ++ List.replicate k HwCall.AbortAzimuth) ∧
    List.count HwCall.AbortShutter (Abort env s).2.hwCalls
      = List.count HwCall.AbortShutter s.hwCalls := by
  obtain ⟨k, hk1, hk3, h2, hlog, _⟩ := Abort_loops env s
  have hcalls : (Abort env s).2.hwCalls = s.hwCalls ++ List.replicate k HwCall.AbortAzimuth := by
    unfold Abort
    simp only []
    rw [h2]
    split_ifs <;> exact hlog
  refine ⟨⟨k, hk1, hk3, hcalls⟩, ?_⟩
  rw [hcalls, List.count_append, List.count_replicate]
  simp

/-- C12: for every state and every hardware behaviour, `Abort` sets the azimuth
public state to Idle; it returns failure exactly when the shutter public state
was Busy on entry, and then the shutter public state is Alert; otherwise it
returns success and the shutter public state is unchanged. -/
theorem C12_Abort_result (env : Env) (s : Dome) :
    (Abort env s).2.DomeAbsPosNP_s = IPState.IPS_IDLE ∧
    ((Abort env s).1 = false ↔ s.DomeShutterSP_s = IPState.IPS_BUSY) ∧
    (s.DomeShutterSP_s = IPState.IPS_BUSY →
      (Abort env s).2.DomeShutterSP_s = IPState.IPS_ALERT) ∧
    (s.DomeShutterSP_s ≠ IPState.IPS_BUSY →
      (Abort env s).1 = true ∧ (Abort env s).2.DomeShutterSP_s = s.DomeShutterSP_s) := by
  obtain ⟨k, _, _, h2, _, hfr⟩ := Abort_loops env s
  have hsp : (retryLoop env HwCall.AbortAzimuth 3 0 s).dome.DomeShutterSP_s
      = s.DomeShutterSP_s := by
    have h := congrArg Dome.DomeShutterSP_s (sameButLink_eq hfr)
    exact h
  unfold Abort
  simp only []
  rw [h2]
  by_cases hb : s.DomeShutterSP_s = IPState.IPS_BUSY
  · have hb2 : (IDSet Property.DomeAbsPosNP ""
        { (retryLoop env HwCall.AbortAzimuth 3 0 s).dome with
          DomeAbsPosNP_s := IPState.IPS_IDLE }).DomeShutterSP_s = IPState.IPS_BUSY :=
      hsp.trans hb
    rw [if_pos hb2]
    exact ⟨rfl, ⟨fun _ => hb, fun _ => rfl⟩, fun _ => rfl, fun h => absurd hb h⟩
  · have hb2 : ¬ (IDSet Property.DomeAbsPosNP ""
        { (retryLoop env HwCall.AbortAzimuth 3 0 s).dome with
          DomeAbsPosNP_s := IPState.IPS_IDLE }).DomeShutterSP_s = IPState.IPS_BUSY :=
      fun h => hb (hsp.symm.trans h)
    rw [if_neg hb2]
    exact ⟨rfl, ⟨fun h => by simp at h, fun h => absurd h hb⟩, fun h => absurd h hb,
      fun _ => ⟨rfl, hsp⟩⟩

/-- Witness of C12: an abort while the shutter public state is Busy, and one
while it is Idle. -/
theorem C12_Abort_result_witness :
    (Abort envShutterOpen shutterBusy).2.DomeShutterSP_s = IPState.IPS_ALERT ∧
      (Abort envShutterOpen newMaxDomeII).1 = true ∧
      (Abort envShutterOpen newMaxDomeII).2.DomeShutterSP_s = newMaxDomeII.DomeShutterSP_s :=
  ⟨(C12_Abort_result envShutterOpen shutterBusy).2.2.1 rfl,
    (C12_Abort_result envShutterOpen newMaxDomeII).2.2.2 (by decide)⟩

/-! ## Poll scheduling: the claim -/

/-- C13 as stated fails: on the freshly constructed, connected driver a poll cycle
whose status query fails (error code -3) leaves the schedule count at 0: no next
poll is scheduled. -/
theorem C13_failed_poll_schedules_nothing :
    newMaxDomeII.connected = true ∧
      envAlwaysFails.driverError newMaxDomeII.hwCalls.length ≠ 0 ∧
      (TimerHit envAlwaysFails newMaxDomeII).nSetTimer = 0 :=
  ⟨rfl, by decide, (TimerHit_schedules envAlwaysFails newMaxDomeII rfl).2 (by decide)⟩

/-- C13, amended: every poll cycle executed while connected whose status query
succeeds schedules the next poll (exactly one `SetTimer`); a poll cycle whose
status query fails returns without scheduling one. -/
theorem C13_poll_scheduled_on_success (env : Env) (s : Dome) (hconn : s.connected = true) :
    (env.driverError s.hwCalls.length = 0 → (TimerHit env s).nSetTimer = s.nSetTimer + 1) ∧
    (env.driverError s.hwCalls.length ≠ 0 → (TimerHit env s).nSetTimer = s.nSetTimer) :=
  TimerHit_schedules env s hconn

/-- Witness of C13 amended: a successful and a failed poll cycle on the freshly
constructed driver. -/
theorem C13_poll_scheduled_on_success_witness :
    (TimerHit envShutterOpen newMaxDomeII).nSetTimer = newMaxDomeII.nSetTimer + 1 ∧
      (TimerHit envAlwaysFails newMaxDomeII).nSetTimer = newMaxDomeII.nSetTimer :=
  ⟨(C13_poll_scheduled_on_success envShutterOpen newMaxDomeII rfl).1 rfl,
    (C13_poll_scheduled_on_success envAlwaysFails newMaxDomeII rfl).2 (by decide)⟩

/-! ## Configuration commands -/

/-- What `ConfigureShutterOperation` does on a changed configuration, for error
codes that are 0 or negative: `k` attempts (`1 <= k <= 3`) of `SetPark` with the
flag and the converted azimuth; Ok with both values stored when the last attempt
succeeded, Alert with both values untouched when it failed. -/
theorem ConfigureShutterOperation_changed (env : Env) (nMDBOS : Int) (az : ℚ) (s : Dome)
    (hcodes : ∀ k : Nat, env.driverError k ≤ 0)
    (hch : az ≠ s.nShutterOperationPosition ∨ nMDBOS ≠ s.nMoveDomeBeforeOperateShutter) :
    ∃ k : Nat, 1 ≤ k ∧ k ≤ 3 ∧
      (ConfigureShutterOperation env nMDBOS az s).2.hwCalls = s.hwCalls ++ List.replicate k
        (HwCall.SetPark nMDBOS (AzimuthToTicks s.nHomeAzimuth s.nTicksPerTurn az)) ∧
      (env.driverError (s.hwCalls.length + (k - 1)) = 0 →
        (ConfigureShutterOperation env nMDBOS az s).1 = IPState.IPS_OK ∧
        (ConfigureShutterOperation env nMDBOS az s).2.nShutterOperationPosition = az ∧
        (ConfigureShutterOperation env nMDBOS az s).2.nMoveDomeBeforeOperateShutter = nMDBOS) ∧
      (env.driverError (s.hwCalls.length + (k - 1)) ≠ 0 →
        (ConfigureShutterOperation env nMDBOS az s).1 = IPState.IPS_ALERT ∧
        (ConfigureShutterOperation env nMDBOS az s).2.nShutterOperationPosition
          = s.nShutterOperationPosition ∧
        (ConfigureShutterOperation env nMDBOS az s).2.nMoveDomeBeforeOperateShutter
          = s.nMoveDomeBeforeOperateShutter) := by
  obtain ⟨k, hk1, hk3, hlog, _, herr, _, hfr⟩ := retryLoop_spec env
    (HwCall.SetPark nMDBOS (AzimuthToTicks s.nHomeAzimuth s.nTicksPerTurn az)) 3 0 s (by decide)
  have hpos := congrArg Dome.nShutterOperationPosition (sameButLink_eq hfr)
  have hflag := congrArg Dome.nMoveDomeBeforeOperateShutter (sameButLink_eq hfr)
  simp only [] at hpos hflag
  refine ⟨k, hk1, hk3, ?_, ?_, ?_⟩
  · unfold ConfigureShutterOperation
    rw [if_pos hch]
    simp only []
    split_ifs <;> exact hlog
  · intro h0
    rw [← herr] at h0
    unfold ConfigureShutterOperation
    rw [if_pos hch]
    simp only []
    rw [if_pos (by rw [h0])]
    exact ⟨rfl, rfl, rfl⟩
  · intro hne
    have hneg : ¬ (retryLoop env
        (HwCall.SetPark nMDBOS (AzimuthToTicks s.nHomeAzimuth s.nTicksPerTurn az)) 3 0 s).error
        ≥ 0 := by
      rw [herr]
      have := hcodes (s.hwCalls.length + (k - 1))
      omega
    unfold ConfigureShutterOperation
    rw [if_pos hch]
    simp only []
    rw [if_neg hneg]
    exact ⟨rfl, hpos, hflag⟩

theorem ConfigureShutterOperation_unchanged (env : Env) (nMDBOS : Int) (az : ℚ) (s : Dome)
    (h1 : az = s.nShutterOperationPosition) (h2 : nMDBOS = s.nMoveDomeBeforeOperateShutter) :
    ConfigureShutterOperation env nMDBOS az s = (IPState.IPS_OK, s) := by
  unfold ConfigureShutterOperation
  rw [if_neg (by simp [h1, h2])]

/-- C16: `ConfigureShutterOperation(flag, azimuth)`.  When both arguments equal the
current configuration it makes no hardware call, changes nothing and returns Ok.
Otherwise (the driver's error codes being 0 or negative) it issues `SetPark`
with the flag and `AzimuthToTicks(azimuth)`, one to three times, and stores the
two arguments exactly when the command ends without error (returning Ok); when
it ends with an error it returns Alert and both stored values are unchanged. -/
theorem C16_ConfigureShutterOperation (env : Env) (nMDBOS : Int) (az : ℚ) (s : Dome)
    (hcodes : ∀ k : Nat, env.driverError k ≤ 0) :
    (az = s.nShutterOperationPosition ∧ nMDBOS = s.nMoveDomeBeforeOperateShutter →
      ConfigureShutterOperation env nMDBOS az s = (IPState.IPS_OK, s)) ∧
    (az ≠ s.nShutterOperationPosition ∨ nMDBOS ≠ s.nMoveDomeBeforeOperateShutter →
      ∃ k : Nat, 1 ≤ k ∧ k ≤ 3 ∧
        (ConfigureShutterOperation env nMDBOS az s).2.hwCalls = s.hwCalls ++ List.replicate k
          (HwCall.SetPark nMDBOS (AzimuthToTicks s.nHomeAzimuth s.nTicksPerTurn az)) ∧
        (env.driverError (s.hwCalls.length + (k - 1)) = 0 →
          (ConfigureShutterOperation env nMDBOS az s).1 = IPState.IPS_OK ∧
          (ConfigureShutterOperation env nMDBOS az s).2.nShutterOperationPosition = az ∧
          (ConfigureShutterOperation env nMDBOS az s).2.nMoveDomeBeforeOperateShutter
            = nMDBOS) ∧
        (env.driverError (s.hwCalls.length + (k - 1)) ≠ 0 →
          (ConfigureShutterOperation env nMDBOS az s).1 = IPState.IPS_ALERT ∧
          (ConfigureShutterOperation env nMDBOS az s).2.nShutterOperationPosition
            = s.nShutterOperationPosition ∧
          (ConfigureShutterOperation env nMDBOS az s).2.nMoveDomeBeforeOperateShutter
            = s.nMoveDomeBeforeOperateShutter)) :=
  ⟨fun h => ConfigureShutterOperation_unchanged env nMDBOS az s h.1 h.2,
    fun h => ConfigureShutterOperation_changed env nMDBOS az s hcodes h⟩

/-- Witness of C16: on the freshly constructed driver (operation azimuth 0, flag
0) the unchanged configuration is a no-op, and a change to azimuth 90 with flag
1 on a hardware that always fails with code -3 returns Alert. -/
theorem C16_ConfigureShutterOperation_witness :
    ConfigureShutterOperation envAlwaysFails 0 0 newMaxDomeII = (IPState.IPS_OK, newMaxDomeII) ∧
    ∃ k : Nat, 1 ≤ k ∧ k ≤ 3 ∧
      (ConfigureShutterOperation envAlwaysFails 1 90 newMaxDomeII).2.hwCalls
        = newMaxDomeII.hwCalls ++ List.replicate k
          (HwCall.SetPark 1
            (AzimuthToTicks newMaxDomeII.nHomeAzimuth newMaxDomeII.nTicksPerTurn 90)) ∧
      (ConfigureShutterOperation envAlwaysFails 1 90 newMaxDomeII).1 = IPState.IPS_ALERT := by
  have hcodes : ∀ k : Nat, envAlwaysFails.driverError k ≤ 0 := by
    intro k
    simp [envAlwaysFails]
  refine ⟨(C16_ConfigureShutterOperation envAlwaysFails 0 0 newMaxDomeII hcodes).1 ⟨rfl, rfl⟩, ?_⟩
  obtain ⟨k, hk1, hk3, hlog, _, hfail⟩ :=
    (C16_ConfigureShutterOperation envAlwaysFails 1 90 newMaxDomeII hcodes).2
      (Or.inr (by decide))
  exact ⟨k, hk1, hk3, hlog, (hfail (by simp [envAlwaysFails])).1⟩

theorem IUUpdateNumber_reject (r : NumberRange) (p : NumberName) (v : ℚ) (s : Dome)
    (h : v < r.min ∨ v > r.max) :
    IUUpdateNumber r p v s
      = (-1, IDSet p.property "Invalid range" (setNumberState p IPState.IPS_ALERT s)) := by
  unfold IUUpdateNumber
  rw [if_pos h]

theorem IUUpdateNumber_accept (r : NumberRange) (p : NumberName) (v : ℚ) (s : Dome)
    (h : ¬ (v < r.min ∨ v > r.max)) :
    IUUpdateNumber r p v s = (0, setNumberValue p v s) := by
  unfold IUUpdateNumber
  rw [if_neg h]

theorem truncToInt_intCast (n : Int) (h : 0 ≤ n) : truncToInt (n : ℚ) = n := by
  unfold truncToInt
  rw [if_pos (by exact_mod_cast h)]
  exact Int.floor_intCast n

/-- The ticks-per-turn command with a value outside `[100, 2000]`: rejected by the
host-side range check or by the driver's own check, in both cases without a
hardware call, with the control set to Alert and `nTicksPerTurn`, `nHomeTicks`
untouched. -/
theorem ISNewNumber_ticks_invalid (env : Env) (ranges : NumberRanges) (v : ℚ) (s : Dome)
    (h : v < 100 ∨ 2000 < v) :
    (ISNewNumber env ranges NumberName.TicksPerTurn v s).1 = false ∧
      (ISNewNumber env ranges NumberName.TicksPerTurn v s).2.hwCalls = s.hwCalls ∧
      (ISNewNumber env ranges NumberName.TicksPerTurn v s).2.TicksPerTurnNP_s
        = IPState.IPS_ALERT ∧
      (ISNewNumber env ranges NumberName.TicksPerTurn v s).2.nTicksPerTurn = s.nTicksPerTurn ∧
      (ISNewNumber env ranges NumberName.TicksPerTurn v s).2.nHomeTicks = s.nHomeTicks := by
  have hnot : ¬ (v ≥ 100 ∧ v ≤ 2000) := by
    rintro ⟨h1, h2⟩
    rcases h with h | h <;> linarith
  by_cases hlib : v < ranges.TicksPerTurnN.min ∨ v > ranges.TicksPerTurnN.max
  · dsimp only [ISNewNumber]
    rw [IUUpdateNumber_reject _ _ _ _ hlib, if_pos (show (-1 : Int) < 0 by decide)]
    exact ⟨rfl, rfl, rfl, rfl, rfl⟩
  · dsimp only [ISNewNumber]
    rw [IUUpdateNumber_accept _ _ _ _ hlib, if_neg (show ¬ ((0 : Int) < 0) by decide), if_neg hnot]
    exact ⟨rfl, rfl, rfl, rfl, rfl⟩

/-- The ticks-per-turn command with a whole value `n` in `[100, 2000]` that the
host-side range check lets through: `k` attempts (`1 <= k <= 3`) of
`SetTicksPerTurn(n)`; when the last one succeeds the command returns true and
`nTicksPerTurn` is `n`, with the home azimuth untouched. -/
theorem ISNewNumber_ticks_valid (env : Env) (ranges : NumberRanges) (n : Int) (s : Dome)
    (h1 : 100 ≤ n) (h2 : n ≤ 2000)
    (hlib : ¬ ((n : ℚ) < ranges.TicksPerTurnN.min ∨ (n : ℚ) > ranges.TicksPerTurnN.max)) :
    ∃ k : Nat, 1 ≤ k ∧ k ≤ 3 ∧
      (ISNewNumber env ranges NumberName.TicksPerTurn (n : ℚ) s).2.hwCalls
        = s.hwCalls ++ List.replicate k (HwCall.SetTicksPerTurn n) ∧
      (env.driverError (s.hwCalls.length + (k - 1)) = 0 →
        (ISNewNumber env ranges NumberName.TicksPerTurn (n : ℚ) s).1 = true ∧
        (ISNewNumber env ranges NumberName.TicksPerTurn (n : ℚ) s).2.nTicksPerTurn = n ∧
        (ISNewNumber env ranges NumberName.TicksPerTurn (n : ℚ) s).2.nHomeAzimuth
          = s.nHomeAzimuth) := by
  have hin : (n : ℚ) ≥ 100 ∧ (n : ℚ) ≤ 2000 := ⟨by exact_mod_cast h1, by exact_mod_cast h2⟩
  obtain ⟨k, hk1, hk3, hlog, _, herr, _, hfr⟩ := retryLoop_spec env (HwCall.SetTicksPerTurn n) 3 0
    (setNumberValue NumberName.TicksPerTurn (n : ℚ) (userCommandReceived s)) (by decide)
  have hhome := congrArg Dome.nHomeAzimuth (sameButLink_eq hfr)
  simp only [] at hhome
  refine ⟨k, hk1, hk3, ?_, ?_⟩
  · dsimp only [ISNewNumber]
    rw [IUUpdateNumber_accept _ _ _ _ hlib, if_neg (show ¬ ((0 : Int) < 0) by decide), if_pos hin,
      truncToInt_intCast n (by omega)]
    split_ifs <;> exact hlog
  · intro h0
    have hlen : (setNumberValue NumberName.TicksPerTurn (n : ℚ)
        (userCommandReceived s)).hwCalls.length = s.hwCalls.length := rfl
    rw [hlen, h0] at herr
    dsimp only [ISNewNumber]
    rw [IUUpdateNumber_accept _ _ _ _ hlib, if_neg (show ¬ ((0 : Int) < 0) by decide), if_pos hin,
      truncToInt_intCast n (by omega), if_pos (by rw [herr])]
    exact ⟨rfl, rfl, hhome⟩

theorem truncToInt_of_nonneg (v : ℚ) (h : 0 ≤ v) : truncToInt v = ⌊v⌋ := by
  unfold truncToInt
  rw [if_pos h]

/-- The ticks-per-turn command with a value `v` in `[100, 2000]` that the
host-side range check lets through: `k` attempts (`1 <= k <= 3`) of
`SetTicksPerTurn` with `v` converted to `int`; when the last one succeeds the
command returns true, `nTicksPerTurn` is `v` converted to `int`, the control
holds `v` itself and the home azimuth is untouched. -/
theorem ISNewNumber_ticks_accept (env : Env) (ranges : NumberRanges) (v : ℚ) (s : Dome)
    (h1 : 100 ≤ v) (h2 : v ≤ 2000)
    (hlib : ¬ (v < ranges.TicksPerTurnN.min ∨ v > ranges.TicksPerTurnN.max)) :
    ∃ k : Nat, 1 ≤ k ∧ k ≤ 3 ∧
      (ISNewNumber env ranges NumberName.TicksPerTurn v s).2.hwCalls
        = s.hwCalls ++ List.replicate k (HwCall.SetTicksPerTurn (truncToInt v)) ∧
      (env.driverError (s.hwCalls.length + (k - 1)) = 0 →
        (ISNewNumber env ranges NumberName.TicksPerTurn v s).1 = true ∧
        (ISNewNumber env ranges NumberName.TicksPerTurn v s).2.nTicksPerTurn = truncToInt v ∧
        (ISNewNumber env ranges NumberName.TicksPerTurn v s).2.nHomeAzimuth = s.nHomeAzimuth ∧
        (ISNewNumber env ranges NumberName.TicksPerTurn v s).2.TicksPerTurnN_value = v) := by
  have hin : v ≥ 100 ∧ v ≤ 2000 := ⟨h1, h2⟩
  obtain ⟨k, hk1, hk3, hlog, _, herr, _, hfr⟩ :=
    retryLoop_spec env (HwCall.SetTicksPerTurn (truncToInt v)) 3 0
      (setNumberValue NumberName.TicksPerTurn v (userCommandReceived s)) (by decide)
  have hhome := congrArg Dome.nHomeAzimuth (sameButLink_eq hfr)
  simp only [] at hhome
  refine ⟨k, hk1, hk3, ?_, ?_⟩
  · dsimp only [ISNewNumber]
    rw [IUUpdateNumber_accept _ _ _ _ hlib, if_neg (show ¬ ((0 : Int) < 0) by decide), if_pos hin]
    split_ifs <;> exact hlog
  · intro h0
    have hlen : (setNumberValue NumberName.TicksPerTurn v
        (userCommandReceived s)).hwCalls.length = s.hwCalls.length := rfl
    rw [hlen, h0] at herr
    dsimp only [ISNewNumber]
    rw [IUUpdateNumber_accept _ _ _ _ hlib, if_neg (show ¬ ((0 : Int) < 0) by decide), if_pos hin,
      if_pos (by rw [herr])]
    exact ⟨rfl, rfl, hhome, rfl⟩

/-- C14 as stated fails for a value that is not whole: the request 500.5 is in
`[100, 2000]`, the hardware accepts it and the command returns true, but
`nTicksPerTurn` becomes 500 (the `double` is converted to `int`), not 500.5. -/
theorem C14_fraction_is_truncated :
    (100 : ℚ) ≤ 1001 / 2 ∧ (1001 / 2 : ℚ) ≤ 2000 ∧
      (ISNewNumber envShutterOpen initProperties_ranges NumberName.TicksPerTurn (1001 / 2)
        newMaxDomeII).1 = true ∧
      (ISNewNumber envShutterOpen initProperties_ranges NumberName.TicksPerTurn (1001 / 2)
        newMaxDomeII).2.nTicksPerTurn = 500 ∧
      (((ISNewNumber envShutterOpen initProperties_ranges NumberName.TicksPerTurn (1001 / 2)
        newMaxDomeII).2.nTicksPerTurn : Int) : ℚ) ≠ 1001 / 2 := by
  obtain ⟨k, _, _, _, hok⟩ := ISNewNumber_ticks_accept envShutterOpen initProperties_ranges
    (1001 / 2) newMaxDomeII (by norm_num) (by norm_num) (by norm_num [initProperties_ranges])
  obtain ⟨r1, r2, _, _⟩ := hok rfl
  have ht : truncToInt (1001 / 2) = 500 := by
    rw [truncToInt_of_nonneg _ (by norm_num), Int.floor_eq_iff]
    norm_num
  rw [ht] at r2
  refine ⟨by norm_num, by norm_num, r1, r2, ?_⟩
  rw [r2]
  norm_num

/-- C14, amended: ticks-per-turn validation.  For every requested value `v`
outside `[100, 2000]` (whatever range the host-side check enforces) the command
makes no hardware call, sets the ticks-per-turn control to Alert and leaves
`nTicksPerTurn` and `nHomeTicks` unchanged.  For every `v` in `[100, 2000]` that
the host-side check lets through, the command issues `SetTicksPerTurn` with `v`
truncated to an integer (one to three attempts), and when it succeeds
`nTicksPerTurn` is that truncation, `floor(v)`, which is `v` itself when `v` is
whole; it is the value read by `TicksToAzimuth`, `AzimuthToTicks` and
`AzimuthDistance` from then on. -/
theorem C14_ticks_per_turn_validation (env : Env) (ranges : NumberRanges) (v : ℚ) (s : Dome) :
    (v < 100 ∨ 2000 < v →
      (ISNewNumber env ranges NumberName.TicksPerTurn v s).1 = false ∧
      (ISNewNumber env ranges NumberName.TicksPerTurn v s).2.hwCalls = s.hwCalls ∧
      (ISNewNumber env ranges NumberName.TicksPerTurn v s).2.TicksPerTurnNP_s
        = IPState.IPS_ALERT ∧
      (ISNewNumber env ranges NumberName.TicksPerTurn v s).2.nTicksPerTurn = s.nTicksPerTurn ∧
      (ISNewNumber env ranges NumberName.TicksPerTurn v s).2.nHomeTicks = s.nHomeTicks) ∧
    (100 ≤ v → v ≤ 2000 →
      ¬ (v < ranges.TicksPerTurnN.min ∨ v > ranges.TicksPerTurnN.max) →
      ∃ k : Nat, 1 ≤ k ∧ k ≤ 3 ∧
        (ISNewNumber env ranges NumberName.TicksPerTurn v s).2.hwCalls
          = s.hwCalls ++ List.replicate k (HwCall.SetTicksPerTurn ⌊v⌋) ∧
        (env.driverError (s.hwCalls.length + (k - 1)) = 0 →
          (ISNewNumber env ranges NumberName.TicksPerTurn v s).1 = true ∧
          (ISNewNumber env ranges NumberName.TicksPerTurn v s).2.nTicksPerTurn = ⌊v⌋ ∧
          (∀ n : Int, v = (n : ℚ) →
            (ISNewNumber env ranges NumberName.TicksPerTurn v s).2.nTicksPerTurn = n) ∧
          ∀ (t : Int) (az : ℚ) (p1 p2 : Int),
            (ISNewNumber env ranges NumberName.TicksPerTurn v s).2.TicksToAzimuth t
              = TicksToAzimuth s.nHomeAzimuth ⌊v⌋ t ∧
            (ISNewNumber env ranges NumberName.TicksPerTurn v s).2.AzimuthToTicks az
              = AzimuthToTicks s.nHomeAzimuth ⌊v⌋ az ∧
            (ISNewNumber env ranges NumberName.TicksPerTurn v s).2.AzimuthDistance p1 p2
              = AzimuthDistance ⌊v⌋ p1 p2)) := by
  refine ⟨ISNewNumber_ticks_invalid env ranges v s, ?_⟩
  intro h1 h2 hlib
  obtain ⟨k, hk1, hk3, hlog, hok⟩ := ISNewNumber_ticks_accept env ranges v s h1 h2 hlib
  have ht := truncToInt_of_nonneg v (by linarith)
  rw [ht] at hlog hok
  refine ⟨k, hk1, hk3, hlog, ?_⟩
  intro h0
  obtain ⟨r1, r2, r3, _⟩ := hok h0
  refine ⟨r1, r2, ?_, ?_⟩
  · intro n hn
    rw [r2, hn]
    exact Int.floor_intCast n
  · intro t az p1 p2
    unfold Dome.TicksToAzimuth Dome.AzimuthToTicks Dome.AzimuthDistance
    rw [r2, r3]
    exact ⟨rfl, rfl, rfl⟩

/-- Witness of C14 amended: on the freshly constructed driver (360 ticks per
turn) the requests 50 and 2500 are rejected and leave 360 ticks per turn; the
request 500, on a hardware that accepts it, sets 500 ticks per turn. -/
theorem C14_ticks_per_turn_validation_witness :
    ((ISNewNumber envShutterOpen initProperties_ranges NumberName.TicksPerTurn 50
        newMaxDomeII).2.TicksPerTurnNP_s = IPState.IPS_ALERT ∧
      (ISNewNumber envShutterOpen initProperties_ranges NumberName.TicksPerTurn 50
        newMaxDomeII).2.nTicksPerTurn = 360) ∧
    ((ISNewNumber envShutterOpen initProperties_ranges NumberName.TicksPerTurn 2500
        newMaxDomeII).2.TicksPerTurnNP_s = IPState.IPS_ALERT ∧
      (ISNewNumber envShutterOpen initProperties_ranges NumberName.TicksPerTurn 2500
        newMaxDomeII).2.nTicksPerTurn = 360) ∧
    (ISNewNumber envShutterOpen initProperties_ranges NumberName.TicksPerTurn 500
        newMaxDomeII).1 = true ∧
    (ISNewNumber envShutterOpen initProperties_ranges NumberName.TicksPerTurn 500
        newMaxDomeII).2.nTicksPerTurn = 500 := by
  have a := (C14_ticks_per_turn_validation envShutterOpen initProperties_ranges 50
    newMaxDomeII).1 (Or.inl (by norm_num))
  have b := (C14_ticks_per_turn_validation envShutterOpen initProperties_ranges 2500
    newMaxDomeII).1 (Or.inr (by norm_num))
  obtain ⟨k, _, _, _, hok⟩ := (C14_ticks_per_turn_validation envShutterOpen
    initProperties_ranges 500 newMaxDomeII).2 (by norm_num) (by norm_num)
    (by norm_num [initProperties_ranges])
  exact ⟨⟨a.2.2.1, a.2.2.2.1⟩, ⟨b.2.2.1, b.2.2.2.1⟩, (hok rfl).1,
    (hok rfl).2.2.1 500 (by norm_num)⟩

/-! ## Configuration ranges as an invariant -/

theorem retryLoop_config (env : Env) (c : HwCall) (e : Int) (s : Dome) :
    (retryLoop env c 3 e s).dome.nTicksPerTurn = s.nTicksPerTurn ∧
      (retryLoop env c 3 e s).dome.nHomeAzimuth = s.nHomeAzimuth ∧
      (retryLoop env c 3 e s).dome.nShutterOperationPosition = s.nShutterOperationPosition ∧
      (retryLoop env c 3 e s).dome.WatchDogN_value = s.WatchDogN_value := by
  have h := sameButLink_eq (retryLoop_spec env c 3 e s (by decide)).choose_spec.2.2.2.2.2.2
  have a0 := congrArg Dome.nTicksPerTurn h
  have a1 := congrArg Dome.nHomeAzimuth h
  have a2 := congrArg Dome.nShutterOperationPosition h
  have a3 := congrArg Dome.WatchDogN_value h
  exact ⟨a0, a1, a2, a3⟩

theorem truncToInt_bounds (v : ℚ) (h1 : 100 ≤ v) (h2 : v ≤ 2000) :
    100 ≤ truncToInt v ∧ truncToInt v ≤ 2000 := by
  unfold truncToInt
  rw [if_pos (by linarith)]
  constructor
  · exact Int.le_floor.mpr (by exact_mod_cast h1)
  · have h3 : ((⌊v⌋ : Int) : ℚ) ≤ 2000 := le_trans (Int.floor_le v) h2
    exact_mod_cast h3

/-- The shutter-operation command keeps the configuration ranges when the
requested azimuth is in `[0, 360)`. -/
theorem ConfigureShutterOperation_inRange (env : Env) (nMDBOS : Int) (az : ℚ) (s : Dome)
    (h : s.configInRange) (h0 : 0 ≤ az) (h1 : az < 360) :
    (ConfigureShutterOperation env nMDBOS az s).2.configInRange := by
  obtain ⟨c0, c1, c2, c3⟩ := retryLoop_config env
    (HwCall.SetPark nMDBOS (AzimuthToTicks s.nHomeAzimuth s.nTicksPerTurn az)) 0 s
  obtain ⟨t, hm, so, wd⟩ := h
  unfold ConfigureShutterOperation
  simp only []
  split_ifs
  · exact ⟨by rw [show _ = s.nTicksPerTurn from c0]; exact t,
      by rw [show _ = s.nHomeAzimuth from c1]; exact hm, ⟨h0, h1⟩,
      by rw [show _ = s.WatchDogN_value from c3]; exact wd⟩
  · unfold Dome.configInRange
    rw [c0, c1, c2, c3]
    exact ⟨t, hm, so, wd⟩
  · exact ⟨t, hm, so, wd⟩

/-- One configuration command, checked against the declared ranges, keeps the
configuration ranges. -/
theorem ISNewNumber_inRange (env : Env) (name : NumberName) (v : ℚ) (s : Dome)
    (h : s.configInRange) :
    (ISNewNumber env initProperties_ranges name v s).2.configInRange := by
  obtain ⟨t, hm, so, wd⟩ := h
  cases name
  · -- ticks per turn
    by_cases hlib : v < 100 ∨ v > 2000
    · dsimp only [ISNewNumber]
      rw [IUUpdateNumber_reject _ _ _ _ hlib, if_pos (show (-1 : Int) < 0 by decide)]
      exact ⟨t, hm, so, wd⟩
    · have hin : v ≥ 100 ∧ v ≤ 2000 := by
        constructor
        · by_contra hc
          exact hlib (Or.inl (not_le.mp hc))
        · by_contra hc
          exact hlib (Or.inr (not_le.mp hc))
      obtain ⟨c0, c1, c2, c3⟩ := retryLoop_config env (HwCall.SetTicksPerTurn (truncToInt v)) 0
        (setNumberValue NumberName.TicksPerTurn v (userCommandReceived s))
      dsimp only [ISNewNumber]
      rw [IUUpdateNumber_accept _ _ _ _ hlib, if_neg (show ¬ ((0 : Int) < 0) by decide),
        if_pos hin]
      split_ifs
      · exact ⟨truncToInt_bounds v hin.1 hin.2,
          by rw [show _ = s.nHomeAzimuth from c1]; exact hm,
          by rw [show _ = s.nShutterOperationPosition from c2]; exact so,
          by rw [show _ = s.WatchDogN_value from c3]; exact wd⟩
      · exact ⟨by rw [show _ = s.nTicksPerTurn from c0]; exact t,
          by rw [show _ = s.nHomeAzimuth from c1]; exact hm,
          by rw [show _ = s.nShutterOperationPosition from c2]; exact so,
          by rw [show _ = s.WatchDogN_value from c3]; exact wd⟩
  · -- home azimuth
    by_cases hlib : v < 0 ∨ v > 360
    · dsimp only [ISNewNumber]
      rw [IUUpdateNumber_reject _ _ _ _ hlib, if_pos (show (-1 : Int) < 0 by decide)]
      exact ⟨t, hm, so, wd⟩
    · have hin : v ≥ 0 ∧ v ≤ 360 := by
        constructor
        · by_contra hc
          exact hlib (Or.inl (not_le.mp hc))
        · by_contra hc
          exact hlib (Or.inr (not_le.mp hc))
      dsimp only [ISNewNumber]
      rw [IUUpdateNumber_accept _ _ _ _ hlib, if_neg (show ¬ ((0 : Int) < 0) by decide),
        if_pos hin]
      exact ⟨t, hin, so, wd⟩
  · -- watchdog
    by_cases hlib : v < 0 ∨ v > 3600
    · dsimp only [ISNewNumber]
      rw [IUUpdateNumber_reject _ _ _ _ hlib, if_pos (show (-1 : Int) < 0 by decide)]
      exact ⟨t, hm, so, wd⟩
    · have hin : v ≥ 0 ∧ v ≤ 3600 := by
        constructor
        · by_contra hc
          exact hlib (Or.inl (not_le.mp hc))
        · by_contra hc
          exact hlib (Or.inr (not_le.mp hc))
      dsimp only [ISNewNumber]
      rw [IUUpdateNumber_accept _ _ _ _ hlib, if_neg (show ¬ ((0 : Int) < 0) by decide),
        if_pos hin]
      exact ⟨t, hm, so, hin⟩
  · -- shutter operation azimuth
    by_cases hlib : v < 0 ∨ v > 360
    · dsimp only [ISNewNumber]
      rw [IUUpdateNumber_reject _ _ _ _ hlib, if_pos (show (-1 : Int) < 0 by decide)]
      exact ⟨t, hm, so, wd⟩
    · dsimp only [ISNewNumber]
      rw [IUUpdateNumber_accept _ _ _ _ hlib, if_neg (show ¬ ((0 : Int) < 0) by decide)]
      by_cases hin : v ≥ 0 ∧ v < 360
      · rw [if_pos hin]
        have hc := ConfigureShutterOperation_inRange env
          (setNumberValue NumberName.ShutterOperationAzimuth v
            (userCommandReceived s)).nMoveDomeBeforeOperateShutter v
          (setNumberValue NumberName.ShutterOperationAzimuth v (userCommandReceived s))
          ⟨t, hm, so, wd⟩ hin.1 hin.2
        obtain ⟨t2, hm2, so2, wd2⟩ := hc
        split_ifs
        · exact ⟨t2, hm2, hin, wd2⟩
        · exact ⟨t2, hm2, so2, wd2⟩
      · rw [if_neg hin]
        exact ⟨t, hm, so, wd⟩

theorem configure_inRange (env : Env) (cmds : List (NumberName × ℚ)) :
    ∀ s : Dome, s.configInRange → (configure env cmds s).configInRange := by
  induction cmds with
  | nil => intro s h; exact h
  | cons c rest ih =>
    intro s h
    exact ih _ (ISNewNumber_inRange env c.1 c.2 s h)

/-- C15 as stated fails: from the constructor defaults, the single command "home
azimuth 360" is accepted (the declared range and the driver's test
`nVal <= 360` both include 360) and leaves `nHomeAzimuth = 360`, outside
`[0, 360)`. -/
theorem C15_home_azimuth_360_accepted :
    (ISNewNumber envShutterOpen initProperties_ranges NumberName.HomeAzimuth 360
        newMaxDomeII).1 = true ∧
      (configure envShutterOpen [(NumberName.HomeAzimuth, 360)] newMaxDomeII).nHomeAzimuth
        = 360 ∧
      ¬ (configure envShutterOpen [(NumberName.HomeAzimuth, 360)] newMaxDomeII).nHomeAzimuth
        < 360 := by
  have hlib : ¬ ((360 : ℚ) < initProperties_ranges.HomeAzimuthN.min ∨
      (360 : ℚ) > initProperties_ranges.HomeAzimuthN.max) := by
    norm_num [initProperties_ranges]
  have hin : (360 : ℚ) ≥ 0 ∧ (360 : ℚ) ≤ 360 := by norm_num
  have e : ISNewNumber envShutterOpen initProperties_ranges NumberName.HomeAzimuth 360
      newMaxDomeII
      = (true, IDSet Property.HomeAzimuthNP "New home azimuth set"
          { (setNumberValue NumberName.HomeAzimuth 360 (userCommandReceived newMaxDomeII)) with
            nHomeAzimuth := 360,
            nHomeTicks := ⌊(1 / 2 : ℚ) + (360 : ℚ) * ((360 : Int) : ℚ) / 360⌋,
            HomeAzimuthNP_s := IPState.IPS_OK,
            HomeAzimuthN_value := 360 }) := by
    dsimp only [ISNewNumber]
    rw [IUUpdateNumber_accept _ _ _ _ hlib, if_neg (show ¬ ((0 : Int) < 0) by decide),
      if_pos hin]
    rfl
  have e2 : (configure envShutterOpen [(NumberName.HomeAzimuth, 360)] newMaxDomeII).nHomeAzimuth
      = 360 := by
    show (ISNewNumber envShutterOpen initProperties_ranges NumberName.HomeAzimuth 360
      newMaxDomeII).2.nHomeAzimuth = 360
    rw [e]
    rfl
  refine ⟨by rw [e], e2, ?_⟩
  rw [e2]
  norm_num

/-- C15, amended: starting from the constructor defaults, after any sequence of
configuration commands (ticks per turn, home azimuth, shutter operation azimuth,
watchdog timeout) with arbitrary requested values and any hardware behaviour,
ticksPerTurn is in `[100, 2000]`, homeAzimuth is in `[0, 360]` (360 included),
shutterOperationAzimuth is in `[0, 360)` and the watchdog timeout is in
`[0, 3600]`. -/
theorem C15_config_ranges_invariant (env : Env) (cmds : List (NumberName × ℚ)) :
    (100 ≤ (configure env cmds newMaxDomeII).nTicksPerTurn ∧
      (configure env cmds newMaxDomeII).nTicksPerTurn ≤ 2000) ∧
    (0 ≤ (configure env cmds newMaxDomeII).nHomeAzimuth ∧
      (configure env cmds newMaxDomeII).nHomeAzimuth ≤ 360) ∧
    (0 ≤ (configure env cmds newMaxDomeII).nShutterOperationPosition ∧
      (configure env cmds newMaxDomeII).nShutterOperationPosition < 360) ∧
    (0 ≤ (configure env cmds newMaxDomeII).WatchDogN_value ∧
      (configure env cmds newMaxDomeII).WatchDogN_value ≤ 3600) :=
  configure_inRange env cmds newMaxDomeII (by
    unfold Dome.configInRange newMaxDomeII
    norm_num)

/-! ## Shutter reconciliation: the claims -/

/-- The shutter tracker after a successful poll cycle is the one its shutter
block leaves. -/
theorem TimerHit_shutterSide (env : Env) (s : Dome) (hconn : s.connected = true)
    (hok : env.driverError s.hwCalls.length = 0) :
    (TimerHit env s).shutterSide
      = (TimerHit.shutter (env.statusReply s.hwCalls.length).shutterSt
          (TimerHit.watchdog env (env.statusReply s.hwCalls.length).shutterSt
            (TimerHit.timers
              { s with hwCalls := s.hwCalls ++ [HwCall.Status],
                       nCurrentTicks := (env.statusReply s.hwCalls.length).nCurrentTicks }))).shutterSide := by
  rw [TimerHit_success env s hconn hok]
  show (TimerHit.azimuth _ _).shutterSide = _
  rw [TimerHit_azimuth_shutterSide, (TimerHit_position_side _).2.2]

/-- The shutter tracker the shutter block receives in a cycle in which the
watchdog does not fire: only the shutter timer has advanced, when outstanding. -/
theorem TimerHit_before_shutter_quiet (env : Env) (st : ShStatus) (c : Int) (s : Dome)
    (h : ¬ ((0 < s.WatchDogN_value ∧
        s.WatchDogN_value ≤ ((s.nTimeSinceLastCommunication + 1 : Int) : ℚ)) ∧
        st ≠ ShStatus.SS_CLOSED)) :
    (TimerHit.watchdog env st (TimerHit.timers
        { s with hwCalls := s.hwCalls ++ [HwCall.Status], nCurrentTicks := c })).shutterSide
      = (s.DomeShutterSP_s, s.DomeShutterS0, s.DomeShutterS1,
          if s.nTimeSinceShutterStart ≥ 0 then s.nTimeSinceShutterStart + 1
          else s.nTimeSinceShutterStart) := by
  have hT := TimerHit_timers_changes
    { s with hwCalls := s.hwCalls ++ [HwCall.Status], nCurrentTicks := c }
  have hw := congrArg Dome.WatchDogN_value hT
  have hn := congrArg Dome.nTimeSinceLastCommunication hT
  simp only [] at hw hn
  rw [TimerHit_watchdog_quiet env st _ (by rw [hw, hn]; exact h)]
  exact TimerHit_timers_shutter _

theorem TimerHit_shutter_closed_unexpected (s : Dome) (h1 : s.DomeShutterS1 ≠ ISState.ISS_ON)
    (h2 : s.nTimeSinceShutterStart < 0) :
    (TimerHit.shutter ShStatus.SS_CLOSED s).shutterSide
      = (IPState.IPS_IDLE, ISState.ISS_OFF, ISState.ISS_ON, s.nTimeSinceShutterStart) := by
  dsimp only [TimerHit.shutter]
  rw [if_neg h1, if_neg (by omega)]
  rfl

/-- The code on status Open with the open flag off and no timer: public state
Idle, and the flags are set as in the Closed case (close flag on, open flag
off). -/
theorem TimerHit_shutter_open_unexpected (s : Dome) (h1 : s.DomeShutterS0 ≠ ISState.ISS_ON)
    (h2 : s.nTimeSinceShutterStart < 0) :
    (TimerHit.shutter ShStatus.SS_OPEN s).shutterSide
      = (IPState.IPS_IDLE, ISState.ISS_OFF, ISState.ISS_ON, s.nTimeSinceShutterStart) := by
  dsimp only [TimerHit.shutter]
  rw [if_neg h1, if_neg (by omega)]
  rfl

/-- C17: unexpected closure.  For every connected state in which the close flag
is not on and no shutter timer is outstanding, a successful poll cycle whose raw
shutter status is Closed sets the shutter public state to Idle, the open flag
off and the close flag on, and leaves the shutter timer none. -/
theorem C17_unexpected_closure (env : Env) (s : Dome) (hconn : s.connected = true)
    (hok : env.driverError s.hwCalls.length = 0)
    (hst : (env.statusReply s.hwCalls.length).shutterSt = ShStatus.SS_CLOSED)
    (hdir : s.DomeShutterS1 ≠ ISState.ISS_ON) (htimer : s.nTimeSinceShutterStart < 0) :
    (TimerHit env s).DomeShutterSP_s = IPState.IPS_IDLE ∧
      (TimerHit env s).DomeShutterS0 = ISState.ISS_OFF ∧
      (TimerHit env s).DomeShutterS1 = ISState.ISS_ON ∧
      (TimerHit env s).nTimeSinceShutterStart < 0 := by
  have h := TimerHit_shutterSide env s hconn hok
  have hq := TimerHit_before_shutter_quiet env (env.statusReply s.hwCalls.length).shutterSt
    (env.statusReply s.hwCalls.length).nCurrentTicks s (fun hh => hh.2 hst)
  rw [if_neg (by omega)] at hq
  simp only [Dome.shutterSide, Prod.mk.injEq] at hq
  rw [hst] at h hq
  rw [TimerHit_shutter_closed_unexpected _ (by rw [hq.2.2.1]; exact hdir)
    (by rw [hq.2.2.2]; exact htimer), hq.2.2.2] at h
  simp only [Dome.shutterSide, Prod.mk.injEq] at h
  exact ⟨h.1, h.2.1, h.2.2.1, by rw [h.2.2.2]; exact htimer⟩

/-- Witness of C17: the freshly constructed driver (flags off, no timer) polled
with the shutter reported closed. -/
theorem C17_unexpected_closure_witness :
    (TimerHit envShutterClosed newMaxDomeII).DomeShutterSP_s = IPState.IPS_IDLE ∧
      (TimerHit envShutterClosed newMaxDomeII).DomeShutterS0 = ISState.ISS_OFF ∧
      (TimerHit envShutterClosed newMaxDomeII).DomeShutterS1 = ISState.ISS_ON ∧
      (TimerHit envShutterClosed newMaxDomeII).nTimeSinceShutterStart < 0 :=
  C17_unexpected_closure envShutterClosed newMaxDomeII rfl rfl rfl (by decide) (by decide)

theorem ControlShutter_result (env : Env) (op : ShutterOperation) (s : Dome) :
    (ControlShutter env op s).1 = IPState.IPS_ALERT ∨
      (ControlShutter env op s).1 = IPState.IPS_BUSY := by
  unfold ControlShutter
  simp only []
  split_ifs <;> simp

/-- The shutter tracker after a watchdog block that fires: the public state is the
result of the close command, the flags are untouched, the timer is 0. -/
theorem TimerHit_watchdog_fires (env : Env) (st : ShStatus) (s : Dome)
    (hdue : 0 < s.WatchDogN_value ∧
      s.WatchDogN_value ≤ ((s.nTimeSinceLastCommunication + 1 : Int) : ℚ))
    (hst : st ≠ ShStatus.SS_CLOSED) :
    ((TimerHit.watchdog env st s).DomeShutterSP_s = IPState.IPS_ALERT ∨
      (TimerHit.watchdog env st s).DomeShutterSP_s = IPState.IPS_BUSY) ∧
    (TimerHit.watchdog env st s).DomeShutterS0 = s.DomeShutterS0 ∧
    (TimerHit.watchdog env st s).DomeShutterS1 = s.DomeShutterS1 ∧
    (TimerHit.watchdog env st s).nTimeSinceShutterStart = 0 := by
  have hc := ControlShutter_changes env ShutterOperation.SHUTTER_CLOSE
    { s with nTimeSinceLastCommunication := s.nTimeSinceLastCommunication + 1 }
  have h0 := congrArg Dome.DomeShutterS0 hc
  have h1 := congrArg Dome.DomeShutterS1 hc
  have ht := congrArg Dome.nTimeSinceShutterStart hc
  simp only [] at h0 h1 ht
  unfold TimerHit.watchdog
  simp only []
  rw [if_pos (by simpa using hdue), if_pos hst]
  exact ⟨ControlShutter_result _ _ _, h0, h1, ht⟩

theorem TimerHit_shutter_open_waiting (s : Dome) (h1 : s.DomeShutterS0 ≠ ISState.ISS_ON)
    (h2 : 0 ≤ s.nTimeSinceShutterStart) (h3 : s.nTimeSinceShutterStart < 4) :
    TimerHit.shutter ShStatus.SS_OPEN s = s := by
  dsimp only [TimerHit.shutter]
  rw [if_neg h1, if_pos (by omega), if_neg (by omega)]

/-- A successful poll cycle with status Open, the open flag off and the watchdog
firing: the shutter public state is the result of the close command (Alert or
Busy), not Idle. -/
theorem TimerHit_open_watchdog_fires (env : Env) (s : Dome) (hconn : s.connected = true)
    (hok : env.driverError s.hwCalls.length = 0)
    (hst : (env.statusReply s.hwCalls.length).shutterSt = ShStatus.SS_OPEN)
    (hdir : s.DomeShutterS0 ≠ ISState.ISS_ON)
    (hdue : 0 < s.WatchDogN_value ∧
      s.WatchDogN_value ≤ ((s.nTimeSinceLastCommunication + 1 : Int) : ℚ)) :
    (TimerHit env s).DomeShutterSP_s ≠ IPState.IPS_IDLE := by
  have h := TimerHit_shutterSide env s hconn hok
  have hT := TimerHit_timers_changes
    { s with hwCalls := s.hwCalls ++ [HwCall.Status],
             nCurrentTicks := (env.statusReply s.hwCalls.length).nCurrentTicks }
  have hw := congrArg Dome.WatchDogN_value hT
  have hn := congrArg Dome.nTimeSinceLastCommunication hT
  have hs0 := congrArg Dome.DomeShutterS0 hT
  simp only [] at hw hn hs0
  rw [hst] at h
  obtain ⟨f1, f2, _, f4⟩ := TimerHit_watchdog_fires env ShStatus.SS_OPEN
    (TimerHit.timers
      { s with hwCalls := s.hwCalls ++ [HwCall.Status],
               nCurrentTicks := (env.statusReply s.hwCalls.length).nCurrentTicks })
    (by rw [hw, hn]; exact hdue) (by decide)
  rw [TimerHit_shutter_open_waiting _ (by rw [f2, hs0]; exact hdir) (by rw [f4]) (by rw [f4]; decide)]
    at h
  simp only [Dome.shutterSide, Prod.mk.injEq] at h
  rw [h.1]
  rcases f1 with f | f <;> rw [f] <;> decide

/-- C20 as stated fails: with the open flag off, no shutter timer, the watchdog
timeout 1 and the status Open, a successful poll cycle issues the watchdog close
command first and leaves the shutter public state Alert or Busy, not Idle. -/
theorem C20_open_with_watchdog_due :
    watchdog1.connected = true ∧ watchdog1.DomeShutterS0 = ISState.ISS_OFF ∧
      watchdog1.nTimeSinceShutterStart < 0 ∧
      envShutterOpen.driverError watchdog1.hwCalls.length = 0 ∧
      (envShutterOpen.statusReply watchdog1.hwCalls.length).shutterSt = ShStatus.SS_OPEN ∧
      (TimerHit envShutterOpen watchdog1).DomeShutterSP_s ≠ IPState.IPS_IDLE :=
  ⟨rfl, rfl, by decide, rfl, rfl,
    TimerHit_open_watchdog_fires envShutterOpen watchdog1 rfl rfl rfl (by decide)
      (by norm_num [watchdog1, newMaxDomeII])⟩

/-- C20, amended: unexpected opening completed.  For every connected state in
which the open flag is off, no shutter timer is outstanding and the watchdog
does not fire in this cycle (timeout 0, or above the counter of the cycle), a
successful poll cycle whose raw shutter status is Open sets the shutter public
state to Idle and leaves the shutter timer none. -/
theorem C20_unexpected_open_idle (env : Env) (s : Dome) (hconn : s.connected = true)
    (hok : env.driverError s.hwCalls.length = 0)
    (hst : (env.statusReply s.hwCalls.length).shutterSt = ShStatus.SS_OPEN)
    (hdir : s.DomeShutterS0 = ISState.ISS_OFF) (htimer : s.nTimeSinceShutterStart < 0)
    (hquiet : ¬ (0 < s.WatchDogN_value ∧
      s.WatchDogN_value ≤ ((s.nTimeSinceLastCommunication + 1 : Int) : ℚ))) :
    (TimerHit env s).DomeShutterSP_s = IPState.IPS_IDLE ∧
      (TimerHit env s).nTimeSinceShutterStart < 0 := by
  have h := TimerHit_shutterSide env s hconn hok
  have hq := TimerHit_before_shutter_quiet env (env.statusReply s.hwCalls.length).shutterSt
    (env.statusReply s.hwCalls.length).nCurrentTicks s (fun hh => hquiet hh.1)
  rw [if_neg (by omega)] at hq
  simp only [Dome.shutterSide, Prod.mk.injEq] at hq
  rw [hst] at h hq
  rw [TimerHit_shutter_open_unexpected _ (by rw [hq.2.1, hdir]; decide)
    (by rw [hq.2.2.2]; exact htimer), hq.2.2.2] at h
  simp only [Dome.shutterSide, Prod.mk.injEq] at h
  exact ⟨h.1, by rw [h.2.2.2]; exact htimer⟩

/-- Witness of C20 amended: the freshly constructed driver (watchdog disabled,
flags off, no timer) polled with the shutter reported open. -/
theorem C20_unexpected_open_idle_witness :
    (TimerHit envShutterOpen newMaxDomeII).DomeShutterSP_s = IPState.IPS_IDLE ∧
      (TimerHit envShutterOpen newMaxDomeII).nTimeSinceShutterStart < 0 :=
  C20_unexpected_open_idle envShutterOpen newMaxDomeII rfl rfl rfl rfl (by decide)
    (by norm_num [newMaxDomeII])

/-! ## Azimuth arrival -/

/-- One successful poll cycle with the azimuth status idle, on the azimuth
tracker: the cycle keeps the connection and the configuration; while the timer
is below 3 it only advances the timer; from 3 on it reports Alert when the
target is set and further than 3 ticks from the polled position, and Ok
otherwise. -/
theorem TimerHit_idle_step (env : Env) (s : Dome) (hconn : s.connected = true)
    (hok : env.driverError s.hwCalls.length = 0)
    (hidle : (env.statusReply s.hwCalls.length).nAzimuthStatus = AzStatus.AS_IDLE ∨
      (env.statusReply s.hwCalls.length).nAzimuthStatus = AzStatus.AS_IDLE2) :
    (TimerHit env s).connected = true ∧
    (TimerHit env s).nTicksPerTurn = s.nTicksPerTurn ∧
    (0 ≤ s.nTimeSinceAzimuthStart → s.nTimeSinceAzimuthStart < 3 →
      (TimerHit env s).DomeAbsPosNP_s = s.DomeAbsPosNP_s ∧
      (TimerHit env s).nTargetAzimuth = s.nTargetAzimuth ∧
      (TimerHit env s).nTimeSinceAzimuthStart = s.nTimeSinceAzimuthStart + 1) ∧
    (3 ≤ s.nTimeSinceAzimuthStart → 0 ≤ s.nTargetAzimuth →
      3 < AzimuthDistance s.nTicksPerTurn s.nTargetAzimuth
        (env.statusReply s.hwCalls.length).nCurrentTicks →
      (TimerHit env s).DomeAbsPosNP_s = IPState.IPS_ALERT) ∧
    (3 ≤ s.nTimeSinceAzimuthStart →
      ¬ (0 ≤ s.nTargetAzimuth ∧ 3 < AzimuthDistance s.nTicksPerTurn s.nTargetAzimuth
        (env.statusReply s.hwCalls.length).nCurrentTicks) →
      (TimerHit env s).DomeAbsPosNP_s = IPState.IPS_OK) := by
  obtain ⟨hside, hclock⟩ := TimerHit_before_azimuth env
    (env.statusReply s.hwCalls.length).shutterSt (env.statusReply s.hwCalls.length).nCurrentTicks s
  rw [TimerHit_success env s hconn hok]
  generalize TimerHit.position (TimerHit.shutter (env.statusReply s.hwCalls.length).shutterSt
    (TimerHit.watchdog env (env.statusReply s.hwCalls.length).shutterSt (TimerHit.timers
      { s with hwCalls := s.hwCalls ++ [HwCall.Status],
               nCurrentTicks := (env.statusReply s.hwCalls.length).nCurrentTicks }))) = P
    at hside hclock ⊢
  simp only [Dome.azimuthSide, Dome.azimuthClock, Prod.mk.injEq] at hside hclock
  obtain ⟨hstate, htarget, hN, _, _, _, _, _, _, _, _, _, hc⟩ := hside
  obtain ⟨htimer, hticks⟩ := hclock
  have hch := TimerHit_azimuth_changes (env.statusReply s.hwCalls.length).nAzimuthStatus P
  have hconn2 := congrArg Dome.connected hch
  have hN2 := congrArg Dome.nTicksPerTurn hch
  simp only [] at hconn2 hN2
  refine ⟨?_, ?_, ?_, ?_, ?_⟩
  · show (TimerHit.azimuth _ P).connected = true
    rw [hconn2, hc, hconn]
  · show (TimerHit.azimuth _ P).nTicksPerTurn = s.nTicksPerTurn
    rw [hN2, hN]
  · intro h0 h3
    rw [if_pos (by omega)] at htimer
    rw [TimerHit_azimuth_idle_wait _ P hidle (by omega)]
    exact ⟨hstate, htarget, htimer⟩
  · intro h3 hg hd
    rw [if_pos (by omega)] at htimer
    rw [TimerHit_azimuth_idle_missed _ P hidle (by omega) (by omega)
      (by rw [hN, htarget, hticks]; exact hd)]
    rfl
  · intro h3 hd
    rw [if_pos (by omega)] at htimer
    rw [TimerHit_azimuth_idle_arrived _ P hidle (by omega)
      (by rw [hN, htarget, hticks]; exact hd)]
    exact TimerHit_arrival_ok P

/-- A run of successful polls reporting the dome idle at tick `c`, started with
the timer at 0 and a target `g`: after `i <= 3` polls the public state and the
target are unchanged and the timer is `i`. -/
theorem idle_run_waits (env : Env) (s : Dome) (g c : Int) (hconn : s.connected = true)
    (htimer : s.nTimeSinceAzimuthStart = 0) (htarget : s.nTargetAzimuth = g)
    (hpoll : ∀ i : Nat, i < 4 →
      env.driverError (pollCycles env i s).hwCalls.length = 0 ∧
      ((env.statusReply (pollCycles env i s).hwCalls.length).nAzimuthStatus = AzStatus.AS_IDLE ∨
        (env.statusReply (pollCycles env i s).hwCalls.length).nAzimuthStatus
          = AzStatus.AS_IDLE2) ∧
      (env.statusReply (pollCycles env i s).hwCalls.length).nCurrentTicks = c) :
    ∀ i : Nat, i ≤ 3 →
      (pollCycles env i s).connected = true ∧
      (pollCycles env i s).nTicksPerTurn = s.nTicksPerTurn ∧
      (pollCycles env i s).DomeAbsPosNP_s = s.DomeAbsPosNP_s ∧
      (pollCycles env i s).nTargetAzimuth = g ∧
      (pollCycles env i s).nTimeSinceAzimuthStart = (i : Int) := by
  intro i
  induction i with
  | zero =>
    intro _
    exact ⟨hconn, rfl, rfl, htarget, by simpa [pollCycles] using htimer⟩
  | succ i ih =>
    intro hi
    obtain ⟨c1, c2, c3, c4, c5⟩ := ih (by omega)
    obtain ⟨hok, hidle, _⟩ := hpoll i (by omega)
    obtain ⟨k1, k2, kwait, _, _⟩ := TimerHit_idle_step env (pollCycles env i s) c1 hok hidle
    obtain ⟨w1, w2, w3⟩ := kwait (by omega) (by omega)
    rw [pollCycles_succ]
    refine ⟨k1, k2.trans c2, w1.trans c3, w2.trans c4, ?_⟩
    rw [w3, c5]
    push_cast
    ring

/-- The fourth poll of such a run: Ok when the target is within 3 ticks of the
polled position, Alert when it is further. -/
theorem idle_run_fourth (env : Env) (s : Dome) (g c : Int) (hconn : s.connected = true)
    (htimer : s.nTimeSinceAzimuthStart = 0) (htarget : s.nTargetAzimuth = g) (hg : 0 ≤ g)
    (hpoll : ∀ i : Nat, i < 4 →
      env.driverError (pollCycles env i s).hwCalls.length = 0 ∧
      ((env.statusReply (pollCycles env i s).hwCalls.length).nAzimuthStatus = AzStatus.AS_IDLE ∨
        (env.statusReply (pollCycles env i s).hwCalls.length).nAzimuthStatus
          = AzStatus.AS_IDLE2) ∧
      (env.statusReply (pollCycles env i s).hwCalls.length).nCurrentTicks = c) :
    (AzimuthDistance s.nTicksPerTurn g c ≤ 3 →
      (pollCycles env 4 s).DomeAbsPosNP_s = IPState.IPS_OK) ∧
    (3 < AzimuthDistance s.nTicksPerTurn g c →
      (pollCycles env 4 s).DomeAbsPosNP_s = IPState.IPS_ALERT) := by
  obtain ⟨c1, c2, _, c4, c5⟩ := idle_run_waits env s g c hconn htimer htarget hpoll 3 (le_refl 3)
  obtain ⟨hok, hidle, hc⟩ := hpoll 3 (by decide)
  obtain ⟨_, _, _, kmiss, karr⟩ := TimerHit_idle_step env (pollCycles env 3 s) c1 hok hidle
  rw [c2, c4, c5, hc] at kmiss karr
  rw [pollCycles_succ]
  constructor
  · intro hd
    exact karr (by norm_num) (fun h => absurd h.2 (by omega))
  · intro hd
    exact kmiss (by norm_num) hg hd

theorem AzimuthToTicks_raise_nonneg (N : Int) (hN : 0 < N) (n : Nat) :
    ∀ t : Int, (-t).toNat ≤ n → 0 ≤ AzimuthToTicks.raise N t := by
  induction n with
  | zero =>
    intro t ht
    rw [AzimuthToTicks_raise_of_nonneg N t (by omega)]
    omega
  | succ n ih =>
    intro t ht
    by_cases h0 : 0 ≤ t
    · rw [AzimuthToTicks_raise_of_nonneg N t h0]
      exact h0
    · rw [AzimuthToTicks_raise_of_neg N t (by omega) hN]
      exact ih (t + N) (by omega)

theorem AzimuthToTicks_nonneg (home : ℚ) (N : Int) (hN : 0 < N) (az : ℚ) :
    0 ≤ AzimuthToTicks home N az := by
  unfold AzimuthToTicks
  simp only []
  exact AzimuthToTicks_raise_nonneg N hN _ _ (le_refl _)

/-- With home azimuth 0 and 360 ticks per turn a whole azimuth `k` in `[0, 360]`
is tick `k`. -/
theorem AzimuthToTicks_whole (k : Int) (h0 : 0 ≤ k) (h : k ≤ 360) (az : ℚ) (haz : az = (k : ℚ)) :
    AzimuthToTicks 0 360 az = k := by
  have hfl : ⌊(1 / 2 : ℚ) + (az - 0) * ((360 : Int) : ℚ) / 360⌋ = k := by
    rw [Int.floor_eq_iff, haz]
    constructor
    · push_cast
      linarith
    · push_cast
      linarith
  unfold AzimuthToTicks
  simp only []
  rw [hfl, AzimuthToTicks_lower_of_le 360 k h, AzimuthToTicks_raise_of_nonneg 360 k h0]

/-- A move command changes only the link fields, the target and the azimuth
timer. -/
theorem MoveAbs_changes (env : Env) (newAZ : ℚ) (s : Dome) :
    (MoveAbs env newAZ s).2 = { s with
      PortFD := (MoveAbs env newAZ s).2.PortFD,
      nConnect := (MoveAbs env newAZ s).2.nConnect,
      hwCalls := (MoveAbs env newAZ s).2.hwCalls,
      nTargetAzimuth := (MoveAbs env newAZ s).2.nTargetAzimuth,
      nTimeSinceAzimuthStart := (MoveAbs env newAZ s).2.nTimeSinceAzimuthStart } := by
  have h := sameButLink_eq (retryLoop_spec env
    (HwCall.GotoAzimuth (MoveAbs.nDir s.DomeAbsPosN_value newAZ)
      (AzimuthToTicks s.nHomeAzimuth s.nTicksPerTurn newAZ)) 3 0 s
    (by decide)).choose_spec.2.2.2.2.2.2
  unfold MoveAbs
  simp only []
  split_ifs
  · show (retryLoop env _ 3 0 s).dome = _
    rw [h]
  · show ({ (retryLoop env _ 3 0 s).dome with nTargetAzimuth := _, nTimeSinceAzimuthStart := 0 }
      : Dome) = _
    rw [h]

/-- What a move command that returns Busy leaves: the timer at 0, a target that is
not negative (for a positive ticks-per-turn), the connection flag, the
configuration and the public state as they were. -/
theorem MoveAbs_busy (env : Env) (newAZ : ℚ) (s : Dome) (hN : 0 < s.nTicksPerTurn)
    (hmove : (MoveAbs env newAZ s).1 = IPState.IPS_BUSY) :
    (MoveAbs env newAZ s).2.nTimeSinceAzimuthStart = 0 ∧
      0 ≤ (MoveAbs env newAZ s).2.nTargetAzimuth ∧
      (MoveAbs env newAZ s).2.nTargetAzimuth
        = AzimuthToTicks s.nHomeAzimuth s.nTicksPerTurn newAZ ∧
      (MoveAbs env newAZ s).2.connected = s.connected ∧
      (MoveAbs env newAZ s).2.nTicksPerTurn = s.nTicksPerTurn ∧
      (MoveAbs env newAZ s).2.DomeAbsPosNP_s = s.DomeAbsPosNP_s := by
  obtain ⟨k, _, _, _, hok, hfail⟩ := MoveAbs_spec env newAZ s
  have hch := MoveAbs_changes env newAZ s
  have e1 := congrArg Dome.connected hch
  have e2 := congrArg Dome.nTicksPerTurn hch
  have e3 := congrArg Dome.DomeAbsPosNP_s hch
  simp only [] at e1 e2 e3
  by_cases h0 : env.driverError (s.hwCalls.length + (k - 1)) = 0
  · obtain ⟨_, ht, htm⟩ := hok h0
    refine ⟨htm, ?_, ht, e1, e2, e3⟩
    rw [ht]
    exact AzimuthToTicks_nonneg _ _ hN _
  · rw [(hfail h0).1] at hmove
    exact absurd hmove (by decide)

/-- C18 as stated fails on the timer: after a successful move to 102 degrees
(timer 0), the first poll that reports the dome idle leaves the azimuth timer at
1, not unchanged. -/
theorem C18_first_poll_advances_timer :
    (MoveAbs envIdleAt100 102 newMaxDomeII).1 = IPState.IPS_BUSY ∧
      (MoveAbs envIdleAt100 102 newMaxDomeII).2.nTimeSinceAzimuthStart = 0 ∧
      (pollCycles envIdleAt100 1 (MoveAbs envIdleAt100 102 newMaxDomeII).2).nTimeSinceAzimuthStart
        = 1 := by
  obtain ⟨k, _, _, _, hok, _⟩ := MoveAbs_spec envIdleAt100 102 newMaxDomeII
  have hbusy := (hok rfl).1
  obtain ⟨b1, _, _, b4, _, _⟩ := MoveAbs_busy envIdleAt100 102 newMaxDomeII (by decide) hbusy
  have hrun := idle_run_waits envIdleAt100 (MoveAbs envIdleAt100 102 newMaxDomeII).2
    (MoveAbs envIdleAt100 102 newMaxDomeII).2.nTargetAzimuth 100 b4 b1 rfl
    (fun i _ => ⟨rfl, Or.inl rfl, rfl⟩) 1 (by decide)
  exact ⟨hbusy, b1, hrun.2.2.2.2⟩

/-- C18, amended: azimuth arrival.  After a `MoveAbs` that returns Busy (it stores
the target `g = AzimuthToTicks(target)` and sets the timer to 0), on a connected
driver with a positive ticks-per-turn, if each of the next four polls succeeds
and reports the azimuth status idle with current ticks `c`, then the first three
polls leave the azimuth public state and the target unchanged while the timer
advances to 1, 2, 3, and the fourth poll sets the azimuth public state to Ok when
`AzimuthDistance(g, c) <= 3` and to Alert when `AzimuthDistance(g, c) > 3`. -/
theorem C18_arrival_after_move (env : Env) (newAZ : ℚ) (s : Dome) (c : Int)
    (hconn : s.connected = true) (hN : 0 < s.nTicksPerTurn)
    (hmove : (MoveAbs env newAZ s).1 = IPState.IPS_BUSY)
    (hpoll : ∀ i : Nat, i < 4 →
      env.driverError (pollCycles env i (MoveAbs env newAZ s).2).hwCalls.length = 0 ∧
      ((env.statusReply (pollCycles env i (MoveAbs env newAZ s).2).hwCalls.length).nAzimuthStatus
          = AzStatus.AS_IDLE ∨
        (env.statusReply (pollCycles env i (MoveAbs env newAZ s).2).hwCalls.length).nAzimuthStatus
          = AzStatus.AS_IDLE2) ∧
      (env.statusReply (pollCycles env i (MoveAbs env newAZ s).2).hwCalls.length).nCurrentTicks
        = c) :
    (MoveAbs env newAZ s).2.nTargetAzimuth = AzimuthToTicks s.nHomeAzimuth s.nTicksPerTurn newAZ ∧
    (MoveAbs env newAZ s).2.nTimeSinceAzimuthStart = 0 ∧
    (∀ i : Nat, 1 ≤ i → i ≤ 3 →
      (pollCycles env i (MoveAbs env newAZ s).2).DomeAbsPosNP_s
        = (MoveAbs env newAZ s).2.DomeAbsPosNP_s ∧
      (pollCycles env i (MoveAbs env newAZ s).2).nTargetAzimuth
        = (MoveAbs env newAZ s).2.nTargetAzimuth ∧
      (pollCycles env i (MoveAbs env newAZ s).2).nTimeSinceAzimuthStart = (i : Int)) ∧
    (AzimuthDistance s.nTicksPerTurn (MoveAbs env newAZ s).2.nTargetAzimuth c ≤ 3 →
      (pollCycles env 4 (MoveAbs env newAZ s).2).DomeAbsPosNP_s = IPState.IPS_OK) ∧
    (3 < AzimuthDistance s.nTicksPerTurn (MoveAbs env newAZ s).2.nTargetAzimuth c →
      (pollCycles env 4 (MoveAbs env newAZ s).2).DomeAbsPosNP_s = IPState.IPS_ALERT) := by
  obtain ⟨b1, b2, b3, b4, b5, _⟩ := MoveAbs_busy env newAZ s hN hmove
  have hconn2 : (MoveAbs env newAZ s).2.connected = true := b4.trans hconn
  have hwait := idle_run_waits env (MoveAbs env newAZ s).2
    (MoveAbs env newAZ s).2.nTargetAzimuth c hconn2 b1 rfl hpoll
  have hfourth := idle_run_fourth env (MoveAbs env newAZ s).2
    (MoveAbs env newAZ s).2.nTargetAzimuth c hconn2 b1 rfl b2 hpoll
  rw [b5] at hfourth
  refine ⟨b3, b1, ?_, hfourth.1, hfourth.2⟩
  intro i _ hi
  obtain ⟨_, _, w3, w4, w5⟩ := hwait i hi
  exact ⟨w3, w4, w5⟩

/-- Witness of C18 amended: 360 ticks per turn, home azimuth 0, the dome reported
idle at tick 100; a move to 102 degrees (target tick 102, distance 2) ends Ok, a
move to 110 degrees (target tick 110, distance 10) ends Alert. -/
theorem C18_arrival_after_move_witness :
    (pollCycles envIdleAt100 4 (MoveAbs envIdleAt100 102 newMaxDomeII).2).DomeAbsPosNP_s
        = IPState.IPS_OK ∧
      (pollCycles envIdleAt100 4 (MoveAbs envIdleAt100 110 newMaxDomeII).2).DomeAbsPosNP_s
        = IPState.IPS_ALERT := by
  obtain ⟨k, _, _, _, hok, _⟩ := MoveAbs_spec envIdleAt100 102 newMaxDomeII
  obtain ⟨k2, _, _, _, hok2, _⟩ := MoveAbs_spec envIdleAt100 110 newMaxDomeII
  have t1 : (MoveAbs envIdleAt100 102 newMaxDomeII).2.nTargetAzimuth = 102 :=
    (hok rfl).2.1.trans (AzimuthToTicks_whole 102 (by decide) (by decide) 102 (by norm_num))
  have t2 : (MoveAbs envIdleAt100 110 newMaxDomeII).2.nTargetAzimuth = 110 :=
    (hok2 rfl).2.1.trans (AzimuthToTicks_whole 110 (by decide) (by decide) 110 (by norm_num))
  constructor
  · refine (C18_arrival_after_move envIdleAt100 102 newMaxDomeII 100 rfl (by decide)
      (hok rfl).1 (fun i _ => ⟨rfl, Or.inl rfl, rfl⟩)).2.2.2.1 ?_
    rw [t1]
    decide
  · refine (C18_arrival_after_move envIdleAt100 110 newMaxDomeII 100 rfl (by decide)
      (hok2 rfl).1 (fun i _ => ⟨rfl, Or.inl rfl, rfl⟩)).2.2.2.2 ?_
    rw [t2]
    decide

/-! ## Parked flag -/

/-- The arrival branch with a park request pending (park control not Ok, park
switch on, unpark switch off) sets the parked flag. -/
theorem TimerHit_arrival_parks (s : Dome) (h1 : s.ParkSP_s ≠ IPState.IPS_OK)
    (h2 : s.ParkS0 = ISState.ISS_ON) (h3 : s.ParkS1 ≠ ISState.ISS_ON) :
    (TimerHit.arrival s).IsParked = true := by
  unfold TimerHit.arrival
  simp only []
  split_ifs <;> first | rfl | contradiction

/-- Outside its arrival branch the azimuth block leaves the parked flag and the
log of `SetParked` calls alone. -/
theorem TimerHit_azimuth_parked (az : AzStatus) (s : Dome)
    (h : (TimerHit.azimuth az s).IsParked ≠ s.IsParked ∨
      (TimerHit.azimuth az s).setParkedCalls ≠ s.setParkedCalls) :
    (az = AzStatus.AS_IDLE ∨ az = AzStatus.AS_IDLE2) ∧ 3 < s.nTimeSinceAzimuthStart ∧
      (s.nTargetAzimuth < 0 ∨
        AzimuthDistance s.nTicksPerTurn s.nTargetAzimuth s.nCurrentTicks ≤ 3) := by
  have key : ∀ a : AzStatus, (a = AzStatus.AS_IDLE ∨ a = AzStatus.AS_IDLE2) →
      ((TimerHit.azimuth a s).IsParked ≠ s.IsParked ∨
        (TimerHit.azimuth a s).setParkedCalls ≠ s.setParkedCalls) →
      3 < s.nTimeSinceAzimuthStart ∧
        (s.nTargetAzimuth < 0 ∨
          AzimuthDistance s.nTicksPerTurn s.nTargetAzimuth s.nCurrentTicks ≤ 3) := by
    intro a ha hh
    by_cases ht : s.nTimeSinceAzimuthStart ≤ 3
    · rw [TimerHit_azimuth_idle_wait a s ha ht] at hh
      simp at hh
    · by_cases hd : 0 ≤ s.nTargetAzimuth ∧
          3 < AzimuthDistance s.nTicksPerTurn s.nTargetAzimuth s.nCurrentTicks
      · rw [TimerHit_azimuth_idle_missed a s ha (by omega) hd.1 hd.2] at hh
        simp [IDSet] at hh
      · exact ⟨by omega, by omega⟩
  cases az
  · exact ⟨Or.inl rfl, key _ (Or.inl rfl) h⟩
  · exfalso
    dsimp only [TimerHit.azimuth] at h
    split_ifs at h <;> simp [IDSet] at h
  · exfalso
    dsimp only [TimerHit.azimuth] at h
    split_ifs at h <;> simp [IDSet] at h
  · exact ⟨Or.inr rfl, key _ (Or.inr rfl) h⟩
  · exfalso
    dsimp only [TimerHit.azimuth] at h
    split_ifs at h <;> simp [IDSet] at h
  · exfalso
    dsimp only [TimerHit.azimuth] at h
    simp at h

/-- A poll cycle that changes the parked flag or calls `SetParked` is a
successful one, on a connected driver, with the dome reported idle and the
azimuth timer at 3 or more before the cycle; the target is absent (negative) or
within 3 ticks of the polled position. -/
theorem TimerHit_parked_only_on_arrival (env : Env) (s : Dome)
    (h : (TimerHit env s).IsParked ≠ s.IsParked ∨
      (TimerHit env s).setParkedCalls ≠ s.setParkedCalls) :
    s.connected = true ∧ env.driverError s.hwCalls.length = 0 ∧
      ((env.statusReply s.hwCalls.length).nAzimuthStatus = AzStatus.AS_IDLE ∨
        (env.statusReply s.hwCalls.length).nAzimuthStatus = AzStatus.AS_IDLE2) ∧
      3 ≤ s.nTimeSinceAzimuthStart ∧
      (s.nTargetAzimuth < 0 ∨
        AzimuthDistance s.nTicksPerTurn s.nTargetAzimuth
          (env.statusReply s.hwCalls.length).nCurrentTicks ≤ 3) := by
  by_cases hconn : s.connected = true
  swap
  · exfalso
    have hs : TimerHit env s = s := by
      unfold TimerHit
      rw [if_pos (by simpa using hconn)]
    rw [hs] at h
    simp at h
  by_cases hok : env.driverError s.hwCalls.length = 0
  swap
  · exfalso
    have h1 := (TimerHit_watchdog_side env (env.statusReply s.hwCalls.length).shutterSt
      (TimerHit.timers (handle_driver_error env (env.driverError s.hwCalls.length) 1
          { s with hwCalls := s.hwCalls ++ [HwCall.Status],
                   nCurrentTicks := (env.statusReply s.hwCalls.length).nCurrentTicks }).2)).1
    rw [(TimerHit_timers_side _).1, (handle_driver_error_side _ _ _ _).1] at h1
    simp only [Dome.azimuthSide, Prod.mk.injEq] at h1
    rw [TimerHit_failure env s hconn hok, h1.2.2.2.2.2.2.2.2.2.1,
      h1.2.2.2.2.2.2.2.2.2.2.1] at h
    simp at h
  obtain ⟨hside, hclock⟩ := TimerHit_before_azimuth env
    (env.statusReply s.hwCalls.length).shutterSt (env.statusReply s.hwCalls.length).nCurrentTicks s
  rw [TimerHit_success env s hconn hok] at h
  generalize TimerHit.position (TimerHit.shutter (env.statusReply s.hwCalls.length).shutterSt
    (TimerHit.watchdog env (env.statusReply s.hwCalls.length).shutterSt (TimerHit.timers
      { s with hwCalls := s.hwCalls ++ [HwCall.Status],
               nCurrentTicks := (env.statusReply s.hwCalls.length).nCurrentTicks }))) = P
    at hside hclock h
  simp only [Dome.azimuthSide, Dome.azimuthClock, Prod.mk.injEq] at hside hclock
  obtain ⟨_, htarget, hN, _, _, _, _, _, _, hpark, hlog, _, _⟩ := hside
  obtain ⟨htimer, hticks⟩ := hclock
  have h2 : (TimerHit.azimuth (env.statusReply s.hwCalls.length).nAzimuthStatus P).IsParked
        ≠ P.IsParked ∨
      (TimerHit.azimuth (env.statusReply s.hwCalls.length).nAzimuthStatus P).setParkedCalls
        ≠ P.setParkedCalls := by
    rw [hpark, hlog]
    exact h
  obtain ⟨hidle, ht, hd⟩ := TimerHit_azimuth_parked _ P h2
  rw [htarget, hN, hticks] at hd
  refine ⟨hconn, hok, hidle, ?_, hd⟩
  rw [htimer] at ht
  split_ifs at ht <;> omega

/-- A successful poll cycle with the dome reported idle, the azimuth timer at 3
or more, no target or a target within 3 ticks, and a park request pending, sets
the parked flag. -/
theorem TimerHit_parks (env : Env) (s : Dome) (hconn : s.connected = true)
    (hok : env.driverError s.hwCalls.length = 0)
    (hidle : (env.statusReply s.hwCalls.length).nAzimuthStatus = AzStatus.AS_IDLE ∨
      (env.statusReply s.hwCalls.length).nAzimuthStatus = AzStatus.AS_IDLE2)
    (ht : 3 ≤ s.nTimeSinceAzimuthStart)
    (hd : ¬ (0 ≤ s.nTargetAzimuth ∧ 3 < AzimuthDistance s.nTicksPerTurn s.nTargetAzimuth
      (env.statusReply s.hwCalls.length).nCurrentTicks))
    (h1 : s.ParkSP_s ≠ IPState.IPS_OK) (h2 : s.ParkS0 = ISState.ISS_ON)
    (h3 : s.ParkS1 ≠ ISState.ISS_ON) :
    (TimerHit env s).IsParked = true := by
  obtain ⟨hside, hclock⟩ := TimerHit_before_azimuth env
    (env.statusReply s.hwCalls.length).shutterSt (env.statusReply s.hwCalls.length).nCurrentTicks s
  rw [TimerHit_success env s hconn hok]
  generalize TimerHit.position (TimerHit.shutter (env.statusReply s.hwCalls.length).shutterSt
    (TimerHit.watchdog env (env.statusReply s.hwCalls.length).shutterSt (TimerHit.timers
      { s with hwCalls := s.hwCalls ++ [HwCall.Status],
               nCurrentTicks := (env.statusReply s.hwCalls.length).nCurrentTicks }))) = P
    at hside hclock ⊢
  simp only [Dome.azimuthSide, Dome.azimuthClock, Prod.mk.injEq] at hside hclock
  obtain ⟨_, htarget, hN, _, _, _, p1, p2, p3, _, _, _, _⟩ := hside
  obtain ⟨htimer, hticks⟩ := hclock
  rw [if_pos (by omega)] at htimer
  show (TimerHit.azimuth _ P).IsParked = true
  rw [TimerHit_azimuth_idle_arrived _ P hidle (by omega)
    (by rw [hN, htarget, hticks]; exact hd)]
  exact TimerHit_arrival_parks P (by rw [p1]; exact h1) (by rw [p2]; exact h2)
    (by rw [p3]; exact h3)

theorem ControlShutter_calls (env : Env) (op : ShutterOperation) (s : Dome) :
    ∃ l : List HwCall, (ControlShutter env op s).2.hwCalls = s.hwCalls ++ l := by
  obtain ⟨k1, _, _, h1, _⟩ := retryLoop_spec env HwCall.CloseShutter 3 0 s (by decide)
  obtain ⟨k2, _, _, h2, _⟩ := retryLoop_spec env HwCall.OpenShutter 3 0 s (by decide)
  obtain ⟨k3, _, _, h3, _⟩ := retryLoop_spec env HwCall.OpenUpperShutterOnly 3 0 s (by decide)
  unfold ControlShutter
  simp only []
  split_ifs
  · exact ⟨_, h1⟩
  · exact ⟨_, h1⟩
  · exact ⟨_, h2⟩
  · exact ⟨_, h2⟩
  · exact ⟨_, h3⟩
  · exact ⟨_, h3⟩

/-- The part of `UnPark` after `SetParked(false)`: it starts with one to three
`HomeAzimuth` attempts and never touches the parked flag. -/
theorem UnPark_home_spec (env : Env) (openOnUnpark : Bool) (s : Dome) :
    (UnPark.home env openOnUnpark s).2.IsParked = s.IsParked ∧
    ∃ (k : Nat) (l : List HwCall), 1 ≤ k ∧ k ≤ 3 ∧
      (UnPark.home env openOnUnpark s).2.hwCalls
        = s.hwCalls ++ List.replicate k HwCall.HomeAzimuth ++ l := by
  obtain ⟨k, hk1, hk3, hlog, _, _, _, hfr⟩ :=
    retryLoop_spec env HwCall.HomeAzimuth 3 0 s (by decide)
  have hp := congrArg Dome.IsParked (sameButLink_eq hfr)
  simp only [] at hp
  have hc := ControlShutter_changes env ShutterOperation.SHUTTER_OPEN
    { (retryLoop env HwCall.HomeAzimuth 3 0 s).dome with
      nTimeSinceAzimuthStart := 0, nTargetAzimuth := -1 }
  have hcp := congrArg Dome.IsParked hc
  simp only [] at hcp
  obtain ⟨l, hl⟩ := ControlShutter_calls env ShutterOperation.SHUTTER_OPEN
    { (retryLoop env HwCall.HomeAzimuth 3 0 s).dome with
      nTimeSinceAzimuthStart := 0, nTargetAzimuth := -1 }
  unfold UnPark.home
  simp only []
  split_ifs
  · refine ⟨hcp.trans hp, k, l, hk1, hk3, ?_⟩
    show (ControlShutter env ShutterOperation.SHUTTER_OPEN _).2.hwCalls = _
    rw [hl]
    show (retryLoop env HwCall.HomeAzimuth 3 0 s).dome.hwCalls ++ l = _
    rw [hlog]
  · refine ⟨hp, k, [], hk1, hk3, ?_⟩
    show (retryLoop env HwCall.HomeAzimuth 3 0 s).dome.hwCalls = _
    rw [hlog, List.append_nil]

/-! ## Parked flag: the claim -/

/-- C19 as stated fails: with a park request pending, the azimuth timer at 3 and
no target set (`nTargetAzimuth = -1`), a successful poll that reports the dome
idle sets the parked flag to true although no target tick is set. -/
theorem C19_parked_without_target :
    parkPendingNoTarget.nTargetAzimuth < 0 ∧ parkPendingNoTarget.IsParked = false ∧
      (TimerHit envIdleAt100 parkPendingNoTarget).IsParked = true :=
  ⟨by decide, rfl,
    TimerHit_parks envIdleAt100 parkPendingNoTarget rfl rfl (Or.inl rfl) (by decide)
      (fun h => absurd h.1 (by decide)) (by decide) rfl (by decide)⟩

/-- The part of `UnPark` after `SetParked(false)` makes no `SetParked` call. -/
theorem UnPark_home_parkLog (env : Env) (openOnUnpark : Bool) (s : Dome) :
    (UnPark.home env openOnUnpark s).2.setParkedCalls = s.setParkedCalls := by
  obtain ⟨k, _, _, _, _, _, _, hfr⟩ :=
    retryLoop_spec env HwCall.HomeAzimuth 3 0 s (by decide)
  have hp := congrArg Dome.setParkedCalls (sameButLink_eq hfr)
  simp only [] at hp
  have hc := ControlShutter_changes env ShutterOperation.SHUTTER_OPEN
    { (retryLoop env HwCall.HomeAzimuth 3 0 s).dome with
      nTimeSinceAzimuthStart := 0, nTargetAzimuth := -1 }
  have hcp := congrArg Dome.setParkedCalls hc
  simp only [] at hcp
  unfold UnPark.home
  simp only []
  split_ifs
  · exact hcp.trans hp
  · exact hp

/-- C19, amended: in every poll cycle that sets the parked flag to true (more
generally, that changes the flag or calls `SetParked`), the status query
succeeded, the dome is reported idle, the azimuth timer was at 3 or more (above
3 once advanced), and either no target is set (`target < 0`) or
`AzimuthDistance(target, currentTicks) <= 3`.  `UnPark` sets the parked flag to
false before issuing any hardware command: it makes one `SetParked` call,
`SetParked(false)`, at a moment when the log of driver calls is still the one of
entry, then issues its hardware commands, the first of which is `HomeAzimuth`,
and it leaves the flag false. -/
theorem C19_parked_only_on_arrival (env : Env) (s : Dome) (openOnUnpark : Bool) :
    ((TimerHit env s).IsParked ≠ s.IsParked ∨
        (TimerHit env s).setParkedCalls ≠ s.setParkedCalls →
      s.connected = true ∧ env.driverError s.hwCalls.length = 0 ∧
      ((env.statusReply s.hwCalls.length).nAzimuthStatus = AzStatus.AS_IDLE ∨
        (env.statusReply s.hwCalls.length).nAzimuthStatus = AzStatus.AS_IDLE2) ∧
      3 ≤ s.nTimeSinceAzimuthStart ∧
      (s.nTargetAzimuth < 0 ∨
        AzimuthDistance s.nTicksPerTurn s.nTargetAzimuth
          (env.statusReply s.hwCalls.length).nCurrentTicks ≤ 3)) ∧
    (UnPark env openOnUnpark s).2.IsParked = false ∧
    (UnPark env openOnUnpark s).2.setParkedCalls
      = s.setParkedCalls ++ [(false, s.hwCalls.length)] ∧
    ∃ (k : Nat) (l : List HwCall), 1 ≤ k ∧ k ≤ 3 ∧
      (UnPark env openOnUnpark s).2.hwCalls
        = s.hwCalls ++ List.replicate k HwCall.HomeAzimuth ++ l := by
  obtain ⟨hp, hcalls⟩ := UnPark_home_spec env openOnUnpark (SetParked false s)
  exact ⟨TimerHit_parked_only_on_arrival env s, hp,
    UnPark_home_parkLog env openOnUnpark (SetParked false s), hcalls⟩

/-- Witness of C19 amended: the poll cycle that parks the driver with a park
request pending, and an unpark of that driver on a hardware that accepts every
command: the one `SetParked(false)` call is logged with no driver call made. -/
theorem C19_parked_only_on_arrival_witness :
    (parkPendingNoTarget.connected = true ∧
      envIdleAt100.driverError parkPendingNoTarget.hwCalls.length = 0 ∧
      ((envIdleAt100.statusReply parkPendingNoTarget.hwCalls.length).nAzimuthStatus
          = AzStatus.AS_IDLE ∨
        (envIdleAt100.statusReply parkPendingNoTarget.hwCalls.length).nAzimuthStatus
          = AzStatus.AS_IDLE2) ∧
      3 ≤ parkPendingNoTarget.nTimeSinceAzimuthStart ∧
      (parkPendingNoTarget.nTargetAzimuth < 0 ∨
        AzimuthDistance parkPendingNoTarget.nTicksPerTurn parkPendingNoTarget.nTargetAzimuth
          (envIdleAt100.statusReply parkPendingNoTarget.hwCalls.length).nCurrentTicks ≤ 3)) ∧
    (UnPark envIdleAt100 false parkPendingNoTarget).2.IsParked = false ∧
    (UnPark envIdleAt100 false parkPendingNoTarget).2.setParkedCalls = [(false, 0)] :=
  ⟨(C19_parked_only_on_arrival envIdleAt100 parkPendingNoTarget false).1
    (Or.inl (by
      rw [TimerHit_parks envIdleAt100 parkPendingNoTarget rfl rfl (Or.inl rfl) (by decide)
        (fun h => absurd h.1 (by decide)) (by decide) rfl (by decide)]
      decide)),
    (C19_parked_only_on_arrival envIdleAt100 parkPendingNoTarget false).2.1,
    (C19_parked_only_on_arrival envIdleAt100 parkPendingNoTarget false).2.2.1⟩

/-! ## Rounding, full-turn distance and the frame of Abort: the claims -/

theorem AzimuthToTicks_wraps_nTicks (home : ℚ) (N : Int) (a : ℚ) :
    AzimuthToTicks home N a
      = AzimuthToTicks.raise N (AzimuthToTicks.lower N (AzimuthToTicks.nTicks home N a)) := rfl

/-- The integer `floor(1/2 + x)` is a nearest integer of `x`, and among the
nearest integers it is the largest. -/
theorem floor_half_nearest (x : ℚ) (m : Int) :
    |x - (⌊(1 / 2 : ℚ) + x⌋ : ℚ)| ≤ |x - (m : ℚ)| ∧
      (|x - (m : ℚ)| = |x - (⌊(1 / 2 : ℚ) + x⌋ : ℚ)| → m ≤ ⌊(1 / 2 : ℚ) + x⌋) := by
  have h1 : ((⌊(1 / 2 : ℚ) + x⌋ : Int) : ℚ) ≤ 1 / 2 + x := Int.floor_le _
  have h2 : 1 / 2 + x < ((⌊(1 / 2 : ℚ) + x⌋ : Int) : ℚ) + 1 := Int.lt_floor_add_one _
  generalize ⌊(1 / 2 : ℚ) + x⌋ = n at h1 h2
  have hn : |x - (n : ℚ)| ≤ 1 / 2 := by
    rw [abs_le]
    constructor <;> linarith
  rcases lt_trichotomy m n with hlt | heq | hgt
  · have hm : (m : ℚ) + 1 ≤ n := by exact_mod_cast hlt
    have hfar : 1 / 2 ≤ |x - (m : ℚ)| := by
      rw [le_abs]
      left
      linarith
    exact ⟨hn.trans hfar, fun _ => le_of_lt hlt⟩
  · rw [heq]
    exact ⟨le_refl _, fun _ => le_refl _⟩
  · have hm : (n : ℚ) + 1 ≤ m := by exact_mod_cast hgt
    have hfar : 1 / 2 < |x - (m : ℚ)| := by
      rw [lt_abs]
      right
      linarith
    refine ⟨hn.trans (le_of_lt hfar), fun he => ?_⟩
    rw [he] at hfar
    exact absurd hn (not_le.mpr hfar)

/-- Where `x` is not a negative exact half, `floor(1/2 + x)` is the round half
away from zero of `x`. -/
theorem floor_half_eq_away (x : ℚ) (h : ¬ (x < 0 ∧ ∃ k : Int, x = (k : ℚ) + 1 / 2)) :
    ⌊(1 / 2 : ℚ) + x⌋ = roundHalfAwayFromZero x := by
  unfold roundHalfAwayFromZero
  by_cases h0 : 0 ≤ x
  · rw [if_pos h0, add_comm]
  · rw [if_neg h0]
    have h1 : ((⌊(1 / 2 : ℚ) + x⌋ : Int) : ℚ) ≤ 1 / 2 + x := Int.floor_le _
    have h2 : 1 / 2 + x < ((⌊(1 / 2 : ℚ) + x⌋ : Int) : ℚ) + 1 := Int.lt_floor_add_one _
    have hne : ((⌊(1 / 2 : ℚ) + x⌋ : Int) : ℚ) ≠ 1 / 2 + x := by
      intro he
      apply h
      refine ⟨lt_of_not_le h0, ⌊(1 / 2 : ℚ) + x⌋ - 1, ?_⟩
      push_cast
      linarith
    symm
    rw [Int.ceil_eq_iff]
    constructor
    · have := lt_of_le_of_ne h1 hne
      linarith
    · linarith


/-- C25 as stated fails at a negative exact half: with home azimuth 1/2 and 360
ticks per turn the azimuth 0 gives `x = -1/2`; the code computes `floor(0.5 + x)
= 0` (and returns tick 0), where round half away from zero gives -1. -/
theorem C25_negative_half_rounds_to_zero :
    ((0 : ℚ) - 1 / 2) * ((360 : Int) : ℚ) / 360 = -1 / 2 ∧
      AzimuthToTicks.nTicks (1 / 2) 360 0 = 0 ∧
      roundHalfAwayFromZero (-1 / 2) = -1 ∧
      AzimuthToTicks (1 / 2) 360 0 = 0 := by
  have hn : AzimuthToTicks.nTicks (1 / 2) 360 0 = 0 := by
    unfold AzimuthToTicks.nTicks
    norm_num
  refine ⟨by norm_num, hn, ?_, ?_⟩
  · unfold roundHalfAwayFromZero
    rw [if_neg (by norm_num), Int.ceil_eq_iff]
    norm_num
  · rw [AzimuthToTicks_wraps_nTicks, hn, AzimuthToTicks_lower_of_le 360 0 (by decide),
      AzimuthToTicks_raise_of_nonneg 360 0 (le_refl 0)]

/-- C25, amended: `AzimuthToTicks` rounds half up.  For every azimuth `a`, home
azimuth and ticks-per-turn, with `x = (a - homeAzimuth) * ticksPerTurn / 360`
over exact rationals, the value `n` that `AzimuthToTicks` wraps is an integer
nearest to `x` (no integer is closer), and every integer as near to `x` as `n`
is at most `n` (an exact half goes up); `n` is the round half away from zero of
`x` unless `x` is a negative exact half. -/
theorem C25_AzimuthToTicks_rounds_half_up (home : ℚ) (N : Int) (a : ℚ) :
    AzimuthToTicks home N a
        = AzimuthToTicks.raise N (AzimuthToTicks.lower N (AzimuthToTicks.nTicks home N a)) ∧
      (∀ m : Int, |(a - home) * (N : ℚ) / 360 - (AzimuthToTicks.nTicks home N a : ℚ)|
          ≤ |(a - home) * (N : ℚ) / 360 - (m : ℚ)|) ∧
      (∀ m : Int, |(a - home) * (N : ℚ) / 360 - (m : ℚ)|
          = |(a - home) * (N : ℚ) / 360 - (AzimuthToTicks.nTicks home N a : ℚ)| →
        m ≤ AzimuthToTicks.nTicks home N a) ∧
      (¬ ((a - home) * (N : ℚ) / 360 < 0 ∧
          ∃ k : Int, (a - home) * (N : ℚ) / 360 = (k : ℚ) + 1 / 2) →
        AzimuthToTicks.nTicks home N a = roundHalfAwayFromZero ((a - home) * (N : ℚ) / 360)) :=
  ⟨rfl, fun m => (floor_half_nearest _ m).1, fun m => (floor_half_nearest _ m).2,
    fun h => floor_half_eq_away _ h⟩

/-- C27: `AzimuthDistance` reads the tick value `N = ticksPerTurn` as tick 0.  For
every `N >= 1` and every current tick `c` in `[0, N)`,
`AzimuthDistance(N, c) = AzimuthDistance(0, c)`, and this value is in
`[0, N / 2]` (integer division). -/
theorem C27_AzimuthDistance_full_turn (N c : Int) (hN : 1 ≤ N) (hc0 : 0 ≤ c) (hc : c < N) :
    AzimuthDistance N N c = AzimuthDistance N 0 c ∧
      0 ≤ AzimuthDistance N N c ∧ AzimuthDistance N N c ≤ N / 2 := by
  rw [AzimuthDistance_eq N N c (by omega), AzimuthDistance_eq N 0 c (by omega)]
  have h1 : |N - c| = N - c := abs_of_nonneg (by omega)
  have h2 : |0 - c| = c := by
    rw [zero_sub, abs_neg]
    exact abs_of_nonneg hc0
  rw [h1, h2]
  refine ⟨?_, ?_, ?_⟩
  · split <;> split <;> omega
  · split <;> omega
  · split <;> omega

/-- Witness of C27: 360 ticks per turn, current tick 100 (distance 100), and 7
ticks per turn, current tick 3. -/
theorem C27_AzimuthDistance_full_turn_witness :
    (AzimuthDistance 360 360 100 = AzimuthDistance 360 0 100 ∧
      0 ≤ AzimuthDistance 360 360 100 ∧ AzimuthDistance 360 360 100 ≤ 360 / 2) ∧
    (AzimuthDistance 7 7 3 = AzimuthDistance 7 0 3 ∧
      0 ≤ AzimuthDistance 7 7 3 ∧ AzimuthDistance 7 7 3 ≤ 7 / 2) :=
  ⟨C27_AzimuthDistance_full_turn 360 100 (by decide) (by decide) (by decide),
    C27_AzimuthDistance_full_turn 7 3 (by decide) (by decide) (by decide)⟩

/-- What `Abort` changes: the link fields, the two public states and the log of
notifications; every other member is as on entry. -/
theorem Abort_changes (env : Env) (s : Dome) :
    (Abort env s).2 = { s with
      PortFD := (Abort env s).2.PortFD,
      nConnect := (Abort env s).2.nConnect,
      hwCalls := (Abort env s).2.hwCalls,
      DomeAbsPosNP_s := IPState.IPS_IDLE,
      DomeShutterSP_s := (Abort env s).2.DomeShutterSP_s,
      notices := (Abort env s).2.notices } := by
  obtain ⟨k, _, _, h2, _, hfr⟩ := Abort_loops env s
  have h := sameButLink_eq hfr
  unfold Abort
  simp only []
  rw [h2]
  split_ifs
  · show IDSet Property.DomeShutterSP "Shutter operation aborted."
      { IDSet Property.DomeAbsPosNP ""
          { (retryLoop env HwCall.AbortAzimuth 3 0 s).dome with
            DomeAbsPosNP_s := IPState.IPS_IDLE } with
        DomeShutterSP_s := IPState.IPS_ALERT } = _
    rw [h]
    rfl
  · show IDSet Property.DomeAbsPosNP ""
      { (retryLoop env HwCall.AbortAzimuth 3 0 s).dome with
        DomeAbsPosNP_s := IPState.IPS_IDLE } = _
    rw [h]
    rfl

/-- C28: for every state and every hardware behaviour, `Abort` leaves the azimuth
movement timer, the stored target ticks, the shutter movement timer and both
commanded-direction flags exactly as they were on entry; besides the link
fields and the log of notifications it changes only the azimuth and the shutter
public state. -/
theorem C28_Abort_keeps_timers_and_target (env : Env) (s : Dome) :
    (Abort env s).2.nTimeSinceAzimuthStart = s.nTimeSinceAzimuthStart ∧
      (Abort env s).2.nTargetAzimuth = s.nTargetAzimuth ∧
      (Abort env s).2.nTimeSinceShutterStart = s.nTimeSinceShutterStart ∧
      (Abort env s).2.DomeShutterS0 = s.DomeShutterS0 ∧
      (Abort env s).2.DomeShutterS1 = s.DomeShutterS1 ∧
      (Abort env s).2 = { s with
        PortFD := (Abort env s).2.PortFD,
        nConnect := (Abort env s).2.nConnect,
        hwCalls := (Abort env s).2.hwCalls,
        DomeAbsPosNP_s := (Abort env s).2.DomeAbsPosNP_s,
        DomeShutterSP_s := (Abort env s).2.DomeShutterSP_s,
        notices := (Abort env s).2.notices } := by
  have h := Abort_changes env s
  have a1 := congrArg Dome.nTimeSinceAzimuthStart h
  have a2 := congrArg Dome.nTargetAzimuth h
  have a3 := congrArg Dome.nTimeSinceShutterStart h
  have a4 := congrArg Dome.DomeShutterS0 h
  have a5 := congrArg Dome.DomeShutterS1 h
  have a6 := congrArg Dome.DomeAbsPosNP_s h
  refine ⟨a1, a2, a3, a4, a5, ?_⟩
  rw [show (Abort env s).2.DomeAbsPosNP_s = IPState.IPS_IDLE from a6]
  exact h

/-! ## Azimuth status Error -/

/-- One successful poll cycle with the azimuth status Error, on the azimuth
tracker: with a timer outstanding the public state becomes Alert and timer and
target are cleared; with none the three are left as they were. -/
theorem TimerHit_error_step (env : Env) (s : Dome) (hconn : s.connected = true)
    (hok : env.driverError s.hwCalls.length = 0)
    (herr : (env.statusReply s.hwCalls.length).nAzimuthStatus = AzStatus.AS_ERROR) :
    (0 ≤ s.nTimeSinceAzimuthStart →
      (TimerHit env s).DomeAbsPosNP_s = IPState.IPS_ALERT ∧
      (TimerHit env s).nTimeSinceAzimuthStart = -1 ∧
      (TimerHit env s).nTargetAzimuth = -1) ∧
    (s.nTimeSinceAzimuthStart < 0 →
      (TimerHit env s).DomeAbsPosNP_s = s.DomeAbsPosNP_s ∧
      (TimerHit env s).nTimeSinceAzimuthStart = s.nTimeSinceAzimuthStart ∧
      (TimerHit env s).nTargetAzimuth = s.nTargetAzimuth) := by
  obtain ⟨hside, hclock⟩ := TimerHit_before_azimuth env
    (env.statusReply s.hwCalls.length).shutterSt (env.statusReply s.hwCalls.length).nCurrentTicks s
  rw [TimerHit_success env s hconn hok, herr]
  generalize TimerHit.position (TimerHit.shutter (env.statusReply s.hwCalls.length).shutterSt
    (TimerHit.watchdog env (env.statusReply s.hwCalls.length).shutterSt (TimerHit.timers
      { s with hwCalls := s.hwCalls ++ [HwCall.Status],
               nCurrentTicks := (env.statusReply s.hwCalls.length).nCurrentTicks }))) = P
    at hside hclock ⊢
  simp only [Dome.azimuthSide, Dome.azimuthClock, Prod.mk.injEq] at hside hclock
  obtain ⟨hstate, htarget, _⟩ := hside
  obtain ⟨htimer, _⟩ := hclock
  constructor
  · intro h0
    rw [if_pos (by omega)] at htimer
    have hP : P.nTimeSinceAzimuthStart ≥ 0 := by omega
    show (TimerHit.azimuth AzStatus.AS_ERROR P).DomeAbsPosNP_s = _ ∧
      (TimerHit.azimuth AzStatus.AS_ERROR P).nTimeSinceAzimuthStart = _ ∧
      (TimerHit.azimuth AzStatus.AS_ERROR P).nTargetAzimuth = _
    dsimp only [TimerHit.azimuth]
    rw [if_pos hP]
    exact ⟨rfl, rfl, rfl⟩
  · intro h0
    rw [if_neg (by omega)] at htimer
    have hP : ¬ P.nTimeSinceAzimuthStart ≥ 0 := by omega
    show (TimerHit.azimuth AzStatus.AS_ERROR P).DomeAbsPosNP_s = _ ∧
      (TimerHit.azimuth AzStatus.AS_ERROR P).nTimeSinceAzimuthStart = _ ∧
      (TimerHit.azimuth AzStatus.AS_ERROR P).nTargetAzimuth = _
    dsimp only [TimerHit.azimuth]
    rw [if_neg hP]
    exact ⟨hstate, htimer, htarget⟩

/-- C23 as stated fails with no timer outstanding: after a confirmed arrival
(public state Ok, timer none, target 102 still stored) a successful poll cycle
whose azimuth status is Error leaves the public state Ok and the target 102. -/
theorem C23_error_ignored_without_timer :
    arrivedAt102.connected = true ∧
      envAzimuthError.driverError arrivedAt102.hwCalls.length = 0 ∧
      (envAzimuthError.statusReply arrivedAt102.hwCalls.length).nAzimuthStatus
        = AzStatus.AS_ERROR ∧
      arrivedAt102.nTimeSinceAzimuthStart = -1 ∧
      (TimerHit envAzimuthError arrivedAt102).DomeAbsPosNP_s = IPState.IPS_OK ∧
      (TimerHit envAzimuthError arrivedAt102).nTargetAzimuth = 102 :=
  ⟨rfl, rfl, rfl, rfl,
    ((TimerHit_error_step envAzimuthError arrivedAt102 rfl rfl rfl).2 (by decide)).1,
    ((TimerHit_error_step envAzimuthError arrivedAt102 rfl rfl rfl).2 (by decide)).2.2⟩

/-- C23, amended: for every connected state in which an azimuth movement timer is
outstanding, a successful poll cycle whose raw azimuth status is Error sets the
azimuth public state to Alert and leaves the azimuth timer none and the target
none; when no azimuth timer is outstanding, such a cycle leaves the azimuth
public state, the timer and the target as they were. -/
theorem C23_azimuth_error (env : Env) (s : Dome) (hconn : s.connected = true)
    (hok : env.driverError s.hwCalls.length = 0)
    (herr : (env.statusReply s.hwCalls.length).nAzimuthStatus = AzStatus.AS_ERROR) :
    (0 ≤ s.nTimeSinceAzimuthStart →
      (TimerHit env s).DomeAbsPosNP_s = IPState.IPS_ALERT ∧
      (TimerHit env s).nTimeSinceAzimuthStart = -1 ∧
      (TimerHit env s).nTargetAzimuth = -1) ∧
    (s.nTimeSinceAzimuthStart < 0 →
      (TimerHit env s).DomeAbsPosNP_s = s.DomeAbsPosNP_s ∧
      (TimerHit env s).nTimeSinceAzimuthStart = s.nTimeSinceAzimuthStart ∧
      (TimerHit env s).nTargetAzimuth = s.nTargetAzimuth) :=
  TimerHit_error_step env s hconn hok herr

/-- Witness of C23 amended: a move to tick 110 in flight (timer 4) polled with the
azimuth status Error. -/
theorem C23_azimuth_error_witness :
    (TimerHit envAzimuthError moveTo110).DomeAbsPosNP_s = IPState.IPS_ALERT ∧
      (TimerHit envAzimuthError moveTo110).nTimeSinceAzimuthStart = -1 ∧
      (TimerHit envAzimuthError moveTo110).nTargetAzimuth = -1 :=
  (C23_azimuth_error envAzimuthError moveTo110 rfl rfl rfl).1 (by decide)

/-! ## Arrival mismatch -/

/-- One successful poll cycle with the azimuth status idle, the timer at 3 or
more on entry (above 3 once advanced), a target set and further than 3 ticks
from the polled position: Alert, the timer cleared, the target kept. -/
theorem TimerHit_missed_step (env : Env) (s : Dome) (hconn : s.connected = true)
    (hok : env.driverError s.hwCalls.length = 0)
    (hidle : (env.statusReply s.hwCalls.length).nAzimuthStatus = AzStatus.AS_IDLE ∨
      (env.statusReply s.hwCalls.length).nAzimuthStatus = AzStatus.AS_IDLE2)
    (h3 : 3 ≤ s.nTimeSinceAzimuthStart) (hg : 0 ≤ s.nTargetAzimuth)
    (hd : 3 < AzimuthDistance s.nTicksPerTurn s.nTargetAzimuth
      (env.statusReply s.hwCalls.length).nCurrentTicks) :
    (TimerHit env s).DomeAbsPosNP_s = IPState.IPS_ALERT ∧
      (TimerHit env s).nTimeSinceAzimuthStart = -1 ∧
      (TimerHit env s).nTargetAzimuth = s.nTargetAzimuth := by
  obtain ⟨hside, hclock⟩ := TimerHit_before_azimuth env
    (env.statusReply s.hwCalls.length).shutterSt (env.statusReply s.hwCalls.length).nCurrentTicks s
  rw [TimerHit_success env s hconn hok]
  generalize TimerHit.position (TimerHit.shutter (env.statusReply s.hwCalls.length).shutterSt
    (TimerHit.watchdog env (env.statusReply s.hwCalls.length).shutterSt (TimerHit.timers
      { s with hwCalls := s.hwCalls ++ [HwCall.Status],
               nCurrentTicks := (env.statusReply s.hwCalls.length).nCurrentTicks }))) = P
    at hside hclock ⊢
  simp only [Dome.azimuthSide, Dome.azimuthClock, Prod.mk.injEq] at hside hclock
  obtain ⟨_, htarget, hN, _⟩ := hside
  obtain ⟨htimer, hticks⟩ := hclock
  rw [if_pos (by omega)] at htimer
  rw [TimerHit_azimuth_idle_missed _ P hidle (by omega) (by omega)
    (by rw [hN, htarget, hticks]; exact hd)]
  exact ⟨rfl, rfl, htarget⟩

/-- C24 as stated fails on the target: with 360 ticks per turn, a move to tick 110
in flight (timer 4) and the dome reported idle at tick 100 (distance 10), the
successful poll cycle sets Alert and clears the timer, but the stored target is
still 110. -/
theorem C24_mismatch_keeps_target :
    moveTo110.connected = true ∧
      envIdleAt100.driverError moveTo110.hwCalls.length = 0 ∧
      (envIdleAt100.statusReply moveTo110.hwCalls.length).nAzimuthStatus = AzStatus.AS_IDLE ∧
      3 < moveTo110.nTimeSinceAzimuthStart ∧ 0 ≤ moveTo110.nTargetAzimuth ∧
      3 < AzimuthDistance moveTo110.nTicksPerTurn moveTo110.nTargetAzimuth
        (envIdleAt100.statusReply moveTo110.hwCalls.length).nCurrentTicks ∧
      (TimerHit envIdleAt100 moveTo110).nTargetAzimuth = 110 :=
  ⟨rfl, rfl, rfl, by decide, by decide, by decide,
    (TimerHit_missed_step envIdleAt100 moveTo110 rfl rfl (Or.inl rfl) (by decide) (by decide)
      (by decide)).2.2⟩

/-- C24, amended: arrival mismatch ends the move and keeps the target.  In every
successful poll cycle of a connected driver whose raw azimuth status is idle,
with the azimuth timer above 3 once advanced by the cycle (at least 3 on entry),
a target set and `AzimuthDistance(target, currentTicks) > 3` for the polled
ticks, the azimuth public state becomes Alert and the azimuth timer becomes
none; the stored target is left as it was. -/
theorem C24_arrival_mismatch (env : Env) (s : Dome) (hconn : s.connected = true)
    (hok : env.driverError s.hwCalls.length = 0)
    (hidle : (env.statusReply s.hwCalls.length).nAzimuthStatus = AzStatus.AS_IDLE ∨
      (env.statusReply s.hwCalls.length).nAzimuthStatus = AzStatus.AS_IDLE2)
    (h3 : 3 ≤ s.nTimeSinceAzimuthStart) (hg : 0 ≤ s.nTargetAzimuth)
    (hd : 3 < AzimuthDistance s.nTicksPerTurn s.nTargetAzimuth
      (env.statusReply s.hwCalls.length).nCurrentTicks) :
    (TimerHit env s).DomeAbsPosNP_s = IPState.IPS_ALERT ∧
      (TimerHit env s).nTimeSinceAzimuthStart = -1 ∧
      (TimerHit env s).nTargetAzimuth = s.nTargetAzimuth :=
  TimerHit_missed_step env s hconn hok hidle h3 hg hd

/-- Witness of C24 amended: the move to tick 110 with the dome reported idle at
tick 100. -/
theorem C24_arrival_mismatch_witness :
    (TimerHit envIdleAt100 moveTo110).DomeAbsPosNP_s = IPState.IPS_ALERT ∧
      (TimerHit envIdleAt100 moveTo110).nTimeSinceAzimuthStart = -1 ∧
      (TimerHit envIdleAt100 moveTo110).nTargetAzimuth = moveTo110.nTargetAzimuth :=
  C24_arrival_mismatch envIdleAt100 moveTo110 rfl rfl (Or.inl rfl) (by decide) (by decide)
    (by decide)

/-! ## Unexpected opening -/

/-- The shutter block on status Opening with the open flag off: Alert, and both
direction flags off. -/
theorem TimerHit_shutter_opening_unexpected (s : Dome) (h : s.DomeShutterS0 = ISState.ISS_OFF) :
    (TimerHit.shutter ShStatus.SS_OPENING s).shutterSide
      = (IPState.IPS_ALERT, ISState.ISS_OFF, ISState.ISS_OFF, s.nTimeSinceShutterStart) := by
  dsimp only [TimerHit.shutter]
  rw [if_pos h]
  rfl

/-- The open flag is not touched before the shutter block of a poll cycle. -/
theorem TimerHit_before_shutter_flags (env : Env) (st : ShStatus) (c : Int) (s : Dome) :
    (TimerHit.watchdog env st (TimerHit.timers
        { s with hwCalls := s.hwCalls ++ [HwCall.Status], nCurrentTicks := c })).DomeShutterS0
      = s.DomeShutterS0 ∧
    (TimerHit.watchdog env st (TimerHit.timers
        { s with hwCalls := s.hwCalls ++ [HwCall.Status], nCurrentTicks := c })).DomeShutterS1
      = s.DomeShutterS1 := by
  have hT := TimerHit_timers_changes
    { s with hwCalls := s.hwCalls ++ [HwCall.Status], nCurrentTicks := c }
  have hW := TimerHit_watchdog_changes env st (TimerHit.timers
    { s with hwCalls := s.hwCalls ++ [HwCall.Status], nCurrentTicks := c })
  have a0 := congrArg Dome.DomeShutterS0 hW
  have a1 := congrArg Dome.DomeShutterS1 hW
  have b0 := congrArg Dome.DomeShutterS0 hT
  have b1 := congrArg Dome.DomeShutterS1 hT
  simp only [] at a0 a1 b0 b1
  exact ⟨a0.trans b0, a1.trans b1⟩

/-- C21 on the code: for every connected state in which the open flag is off,
whatever the shutter timer and the watchdog, a successful poll cycle whose raw
shutter status is Opening sets the shutter public state to Alert and leaves
both commanded-direction flags off: the open flag is not turned on. -/
theorem C21_unexpected_opening_clears_flags (env : Env) (s : Dome) (hconn : s.connected = true)
    (hok : env.driverError s.hwCalls.length = 0)
    (hst : (env.statusReply s.hwCalls.length).shutterSt = ShStatus.SS_OPENING)
    (hdir : s.DomeShutterS0 = ISState.ISS_OFF) :
    (TimerHit env s).DomeShutterSP_s = IPState.IPS_ALERT ∧
      (TimerHit env s).DomeShutterS0 = ISState.ISS_OFF ∧
      (TimerHit env s).DomeShutterS1 = ISState.ISS_OFF := by
  have h := TimerHit_shutterSide env s hconn hok
  have hf := (TimerHit_before_shutter_flags env (env.statusReply s.hwCalls.length).shutterSt
    (env.statusReply s.hwCalls.length).nCurrentTicks s).1
  rw [hst] at h hf
  rw [TimerHit_shutter_opening_unexpected _ (hf.trans hdir)] at h
  simp only [Dome.shutterSide, Prod.mk.injEq] at h
  exact ⟨h.1, h.2.1, h.2.2.1⟩

/-- Witness of C21: after a completed close (close flag on, open flag off, public
state Ok) the shutter is reported opening: Alert, and both flags off. -/
theorem C21_unexpected_opening_clears_flags_witness :
    shutterClosedOk.DomeShutterS0 = ISState.ISS_OFF ∧
      shutterClosedOk.DomeShutterS1 = ISState.ISS_ON ∧
      (TimerHit envShutterOpening shutterClosedOk).DomeShutterSP_s = IPState.IPS_ALERT ∧
      (TimerHit envShutterOpening shutterClosedOk).DomeShutterS0 = ISState.ISS_OFF ∧
      (TimerHit envShutterOpening shutterClosedOk).DomeShutterS1 = ISState.ISS_OFF :=
  ⟨rfl, rfl, C21_unexpected_opening_clears_flags envShutterOpening shutterClosedOk rfl rfl rfl rfl⟩

/-! ## Shutter notifications -/

theorem IDSet_shutterNotices (p : Property) (msg : String) (s : Dome) :
    shutterNotices (IDSet p msg s).notices
      = shutterNotices s.notices + (if p = Property.DomeShutterSP then 1 else 0) := by
  by_cases hp : p = Property.DomeShutterSP <;>
    simp [shutterNotices, IDSet, List.countP_append, hp]

theorem TimerHit_position_shutterNotices (s : Dome) :
    shutterNotices (TimerHit.position s).notices = shutterNotices s.notices := by
  unfold TimerHit.position
  simp only []
  split_ifs
  · rw [IDSet_shutterNotices]
    rfl
  · rfl

theorem TimerHit_arrival_shutterNotices (s : Dome) :
    shutterNotices (TimerHit.arrival s).notices = shutterNotices s.notices := by
  unfold TimerHit.arrival
  simp only []
  split_ifs <;>
    simp [shutterNotices, IDSet, SetParked, setDomeState_DOME_SYNCED, List.countP_append]

theorem TimerHit_azimuth_shutterNotices (az : AzStatus) (s : Dome) :
    shutterNotices (TimerHit.azimuth az s).notices = shutterNotices s.notices := by
  cases az <;> dsimp only [TimerHit.azimuth] <;> (try split_ifs) <;>
    first
      | rfl
      | exact TimerHit_arrival_shutterNotices s
      | (rw [IDSet_shutterNotices]; rfl)

/-- A successful poll cycle in which the watchdog does not fire, around its
shutter block: the block receives the shutter tracker of the start of the cycle
with the timer advanced and the log of notifications of the start of the cycle;
the shutter tracker and the number of shutter notifications the cycle leaves are
those the block leaves. -/
theorem TimerHit_quiet_parts (env : Env) (s : Dome) (hconn : s.connected = true)
    (hok : env.driverError s.hwCalls.length = 0)
    (hquiet : ¬ ((0 < s.WatchDogN_value ∧
        s.WatchDogN_value ≤ ((s.nTimeSinceLastCommunication + 1 : Int) : ℚ)) ∧
        (env.statusReply s.hwCalls.length).shutterSt ≠ ShStatus.SS_CLOSED)) :
    ∃ W : Dome,
      W.shutterSide = (s.DomeShutterSP_s, s.DomeShutterS0, s.DomeShutterS1,
          if s.nTimeSinceShutterStart ≥ 0 then s.nTimeSinceShutterStart + 1
          else s.nTimeSinceShutterStart) ∧
      W.notices = s.notices ∧
      (TimerHit env s).shutterSide
        = (TimerHit.shutter (env.statusReply s.hwCalls.length).shutterSt W).shutterSide ∧
      shutterNotices (TimerHit env s).notices
        = shutterNotices (TimerHit.shutter (env.statusReply s.hwCalls.length).shutterSt W).notices := by
  refine ⟨TimerHit.watchdog env (env.statusReply s.hwCalls.length).shutterSt
    (TimerHit.timers
      { s with hwCalls := s.hwCalls ++ [HwCall.Status],
               nCurrentTicks := (env.statusReply s.hwCalls.length).nCurrentTicks }),
    TimerHit_before_shutter_quiet env _ _ s hquiet, ?_, TimerHit_shutterSide env s hconn hok, ?_⟩
  · have hT := TimerHit_timers_changes
      { s with hwCalls := s.hwCalls ++ [HwCall.Status],
               nCurrentTicks := (env.statusReply s.hwCalls.length).nCurrentTicks }
    have hw := congrArg Dome.WatchDogN_value hT
    have hn := congrArg Dome.nTimeSinceLastCommunication hT
    have hl := congrArg Dome.notices hT
    simp only [] at hw hn hl
    rw [TimerHit_watchdog_quiet env _ _ (by rw [hw, hn]; exact hquiet)]
    exact hl
  · rw [TimerHit_success env s hconn hok]
    show shutterNotices (TimerHit.azimuth _ _).notices = _
    rw [TimerHit_azimuth_shutterNotices, TimerHit_position_shutterNotices]

theorem TimerHit_shutter_closed_waiting (s : Dome) (h1 : s.DomeShutterS1 ≠ ISState.ISS_ON)
    (h2 : 0 ≤ s.nTimeSinceShutterStart) (h3 : s.nTimeSinceShutterStart < 4) :
    TimerHit.shutter ShStatus.SS_CLOSED s = s := by
  dsimp only [TimerHit.shutter]
  rw [if_neg h1, if_pos (by omega), if_neg (by omega)]

theorem TimerHit_shutter_opening_running (s : Dome) (h1 : s.DomeShutterS0 ≠ ISState.ISS_OFF)
    (h2 : 0 ≤ s.nTimeSinceShutterStart) (h3 : s.DomeShutterSP_s ≠ IPState.IPS_ALERT) :
    TimerHit.shutter ShStatus.SS_OPENING s = s := by
  dsimp only [TimerHit.shutter]
  rw [if_neg h1, if_neg (by omega), if_neg h3]

theorem TimerHit_shutter_open_done (s : Dome) (h1 : s.DomeShutterS0 = ISState.ISS_ON)
    (h2 : s.DomeShutterSP_s = IPState.IPS_BUSY ∨ s.DomeShutterSP_s = IPState.IPS_ALERT) :
    (TimerHit.shutter ShStatus.SS_OPEN s).shutterSide
      = (IPState.IPS_OK, s.DomeShutterS0, s.DomeShutterS1, -1) := by
  dsimp only [TimerHit.shutter]
  rw [if_pos h1, if_pos h2]
  rfl

/-- One successful poll cycle of an opening in progress (open flag on, close
flag off, Busy, timer `t >= 0`) with the watchdog disabled: Closed reported
while `t < 3`, or Opening reported, only advances the timer; Open reported ends
the movement with Ok and no timer. -/
theorem TimerHit_opening_step (env : Env) (s : Dome) (t : Int) (hconn : s.connected = true)
    (hok : env.driverError s.hwCalls.length = 0) (hwd : s.WatchDogN_value ≤ 0) (ht : 0 ≤ t)
    (hs : s.shutterSide = (IPState.IPS_BUSY, ISState.ISS_ON, ISState.ISS_OFF, t)) :
    ((env.statusReply s.hwCalls.length).shutterSt = ShStatus.SS_CLOSED → t < 3 →
      (TimerHit env s).shutterSide
        = (IPState.IPS_BUSY, ISState.ISS_ON, ISState.ISS_OFF, t + 1)) ∧
    ((env.statusReply s.hwCalls.length).shutterSt = ShStatus.SS_OPENING →
      (TimerHit env s).shutterSide
        = (IPState.IPS_BUSY, ISState.ISS_ON, ISState.ISS_OFF, t + 1)) ∧
    ((env.statusReply s.hwCalls.length).shutterSt = ShStatus.SS_OPEN →
      (TimerHit env s).shutterSide
        = (IPState.IPS_OK, ISState.ISS_ON, ISState.ISS_OFF, -1)) := by
  obtain ⟨W, hW, _, hside, _⟩ := TimerHit_quiet_parts env s hconn hok
    (fun hh => absurd hh.1.1 (not_lt.mpr hwd))
  simp only [Dome.shutterSide, Prod.mk.injEq] at hs
  obtain ⟨s1, s2, s3, s4⟩ := hs
  rw [s1, s2, s3, s4, if_pos (by omega)] at hW
  have hW2 := hW
  simp only [Dome.shutterSide, Prod.mk.injEq] at hW2
  obtain ⟨w1, w2, w3, w4⟩ := hW2
  refine ⟨?_, ?_, ?_⟩
  · intro hst h3
    rw [hst, TimerHit_shutter_closed_waiting W (by rw [w3]; decide) (by omega) (by omega)] at hside
    exact hside.trans hW
  · intro hst
    rw [hst, TimerHit_shutter_opening_running W (by rw [w2]; decide) (by omega)
      (by rw [w1]; decide)] at hside
    exact hside.trans hW
  · intro hst
    rw [hst, TimerHit_shutter_open_done W w2 (Or.inl w1), w2, w3] at hside
    exact hside

/-- With the watchdog disabled every poll cycle of a connected driver makes one
driver call, the status query. -/
theorem pollCycles_calls_disabled (env : Env) (s : Dome) (hconn : s.connected = true)
    (hwd : s.WatchDogN_value ≤ 0) (n : Nat) :
    (pollCycles env n s).hwCalls.length = s.hwCalls.length + n := by
  induction n with
  | zero => rfl
  | succ n ih =>
    obtain ⟨h1, h2, _⟩ := pollCycles_counter env s hconn n
    have hq := (TimerHit_cycle env (pollCycles env n s) h1).2
      (fun hh => absurd hh.1.1 (not_lt.mpr (by rw [h2]; exact hwd)))
    rw [pollCycles_succ, hq.1, List.length_append, ih]
    rfl

/-- A run of successful polls after an open command (open flag on, close flag
off, Busy, timer 0) with the watchdog disabled, reporting Closed `a <= 3`
times and then Opening `b` times: after each of these polls the shutter tracker
is unchanged but for the timer, which counts the polls. -/
theorem opening_run (env : Env) (s : Dome) (a b : Nat) (hconn : s.connected = true)
    (hwd : s.WatchDogN_value ≤ 0)
    (hs : s.shutterSide = (IPState.IPS_BUSY, ISState.ISS_ON, ISState.ISS_OFF, 0)) (ha : a ≤ 3)
    (hpoll : ∀ i : Nat, i ≤ a + b →
      env.driverError (pollCycles env i s).hwCalls.length = 0 ∧
      (env.statusReply (pollCycles env i s).hwCalls.length).shutterSt
        = if i < a then ShStatus.SS_CLOSED
          else if i < a + b then ShStatus.SS_OPENING else ShStatus.SS_OPEN) :
    ∀ i : Nat, i ≤ a + b →
      (pollCycles env i s).shutterSide
        = (IPState.IPS_BUSY, ISState.ISS_ON, ISState.ISS_OFF, (i : Int)) := by
  intro i
  induction i with
  | zero =>
    intro _
    exact hs
  | succ i ih =>
    intro hi
    have hprev := ih (by omega)
    obtain ⟨c1, c2, _⟩ := pollCycles_counter env s hconn i
    obtain ⟨hok, hst⟩ := hpoll i (by omega)
    obtain ⟨kclosed, kopening, _⟩ := TimerHit_opening_step env (pollCycles env i s) (i : Int) c1 hok
      (by rw [c2]; exact hwd) (by omega) hprev
    rw [pollCycles_succ]
    by_cases hia : i < a
    · rw [if_pos hia] at hst
      rw [kclosed hst (by omega)]
      push_cast
      rfl
    · rw [if_neg hia, if_pos (by omega)] at hst
      rw [kopening hst]
      push_cast
      rfl

/-- C26: the normal opening sequence raises no alert.  From a connected state
with the open flag on, the close flag off, the shutter public state Busy and the
shutter timer 0 (the state an accepted open command leaves), with the watchdog
disabled, for every run of successful polls reporting Closed `a <= 3` times,
then Opening `b` times (any number), then Open once: after every poll before the
last the shutter public state is Busy and the flags are unchanged, and after the
last poll the public state is Ok, the flags are unchanged and the shutter timer
is none. -/
theorem C26_normal_opening_sequence (env : Env) (s : Dome) (a b : Nat)
    (hconn : s.connected = true) (hwd : s.WatchDogN_value ≤ 0)
    (hstate : s.DomeShutterSP_s = IPState.IPS_BUSY) (hopen : s.DomeShutterS0 = ISState.ISS_ON)
    (hclose : s.DomeShutterS1 = ISState.ISS_OFF) (htimer : s.nTimeSinceShutterStart = 0)
    (ha : a ≤ 3)
    (hpoll : ∀ i : Nat, i ≤ a + b →
      env.driverError (pollCycles env i s).hwCalls.length = 0 ∧
      (env.statusReply (pollCycles env i s).hwCalls.length).shutterSt
        = if i < a then ShStatus.SS_CLOSED
          else if i < a + b then ShStatus.SS_OPENING else ShStatus.SS_OPEN) :
    (∀ i : Nat, i ≤ a + b →
      (pollCycles env i s).DomeShutterSP_s = IPState.IPS_BUSY ∧
      (pollCycles env i s).DomeShutterS0 = ISState.ISS_ON ∧
      (pollCycles env i s).DomeShutterS1 = ISState.ISS_OFF) ∧
    (pollCycles env (a + b + 1) s).DomeShutterSP_s = IPState.IPS_OK ∧
    (pollCycles env (a + b + 1) s).DomeShutterS0 = ISState.ISS_ON ∧
    (pollCycles env (a + b + 1) s).DomeShutterS1 = ISState.ISS_OFF ∧
    (pollCycles env (a + b + 1) s).nTimeSinceShutterStart = -1 := by
  have hs : s.shutterSide = (IPState.IPS_BUSY, ISState.ISS_ON, ISState.ISS_OFF, 0) := by
    unfold Dome.shutterSide
    rw [hstate, hopen, hclose, htimer]
  have hrun := opening_run env s a b hconn hwd hs ha hpoll
  constructor
  · intro i hi
    have h := hrun i hi
    simp only [Dome.shutterSide, Prod.mk.injEq] at h
    exact ⟨h.1, h.2.1, h.2.2.1⟩
  · have hlast := hrun (a + b) (le_refl _)
    obtain ⟨c1, c2, _⟩ := pollCycles_counter env s hconn (a + b)
    obtain ⟨hok, hst⟩ := hpoll (a + b) (le_refl _)
    rw [if_neg (by omega), if_neg (by omega)] at hst
    have h := (TimerHit_opening_step env (pollCycles env (a + b) s) ((a + b : Nat) : Int) c1 hok
      (by rw [c2]; exact hwd) (by omega) hlast).2.2 hst
    rw [pollCycles_succ]
    simp only [Dome.shutterSide, Prod.mk.injEq] at h
    exact h

/-- Witness of C26: an open command followed by two polls reporting Closed,
three reporting Opening and one reporting Open: Busy with the flags unchanged
after the second and the fifth poll, Ok with no timer after the sixth. -/
theorem C26_normal_opening_sequence_witness :
    ((pollCycles envOpeningRun 2 openCommanded).DomeShutterSP_s = IPState.IPS_BUSY ∧
      (pollCycles envOpeningRun 2 openCommanded).DomeShutterS0 = ISState.ISS_ON ∧
      (pollCycles envOpeningRun 2 openCommanded).DomeShutterS1 = ISState.ISS_OFF) ∧
    ((pollCycles envOpeningRun 5 openCommanded).DomeShutterSP_s = IPState.IPS_BUSY ∧
      (pollCycles envOpeningRun 5 openCommanded).DomeShutterS0 = ISState.ISS_ON ∧
      (pollCycles envOpeningRun 5 openCommanded).DomeShutterS1 = ISState.ISS_OFF) ∧
    (pollCycles envOpeningRun 6 openCommanded).DomeShutterSP_s = IPState.IPS_OK ∧
    (pollCycles envOpeningRun 6 openCommanded).DomeShutterS0 = ISState.ISS_ON ∧
    (pollCycles envOpeningRun 6 openCommanded).DomeShutterS1 = ISState.ISS_OFF ∧
    (pollCycles envOpeningRun 6 openCommanded).nTimeSinceShutterStart = -1 := by
  have hwd : openCommanded.WatchDogN_value ≤ 0 := by
    show (0 : ℚ) ≤ 0
    exact le_refl 0
  have hpoll : ∀ i : Nat, i ≤ 2 + 3 →
      envOpeningRun.driverError (pollCycles envOpeningRun i openCommanded).hwCalls.length = 0 ∧
      (envOpeningRun.statusReply (pollCycles envOpeningRun i openCommanded).hwCalls.length).shutterSt
        = if i < 2 then ShStatus.SS_CLOSED
          else if i < 2 + 3 then ShStatus.SS_OPENING else ShStatus.SS_OPEN := by
    intro i _
    rw [pollCycles_calls_disabled envOpeningRun openCommanded rfl hwd i]
    refine ⟨rfl, ?_⟩
    show (if 0 + i < 2 then ShStatus.SS_CLOSED
      else if 0 + i < 2 + 3 then ShStatus.SS_OPENING else ShStatus.SS_OPEN) = _
    rw [Nat.zero_add]
  have h := C26_normal_opening_sequence envOpeningRun openCommanded 2 3 rfl hwd rfl rfl rfl rfl
    (by decide) hpoll
  exact ⟨h.1 2 (by decide), h.1 5 (by decide), h.2⟩

end MaxDomeII
